import Mathlib

/-!
RX784 serial protocol: frame encoder and reply decoder.

A shallow embedding of `src/rx784.hpp`: the packet layer
(`Device::serialSend`, `Device::serialRecv`, `Device::sendPacket`,
`Device::recvPacketHead`, `Device::recvPacket`), the two key-code lookups
(`Device::virtualKeyCodeToHIDKeyCode`, `Device::HIDKeyCodeToVirtualKeyCode`)
and the public operations built on them, with the properties of the wire
format, of the reply classification and of the key tables proved about it.

Conventions of the embedding

* A byte is a `Nat`; where the source stores into a `uint8_t` the value is
  reduced modulo 256.
* The serial handle `hSerial` is a `Port`: the bytes the line will still
  deliver (`rx`), the log of the writes handed to the line (`tx`) and the
  number of bytes the line still accepts (`txRoom`).  `ReadFile` and
  `WriteFile` are the two operating-system calls on it; a read that finds
  fewer bytes than requested hands over what there is (the time-out case),
  and so does a write.
* A memory buffer is a `List Nat`; output parameters are returned next to
  the status.  A pointer that may be `NULL` is an `Option`.
* An operation takes the line and the current value of each variable it has
  a reference to, and returns the numeric value of its `Status`, the values
  of those variables afterwards and the line.
* The `std::string` that a string query assigns to is an `Option`: `none`
  when nothing is known of its content, which is the case after a
  `std::wstring` was built from an array that holds no zero unit.
-/

namespace RX784

/-- Outcome codes, `enum class Status : uint8_t`, in the order of the source. -/
inductive Status
  | kSuccess
  | kSerialError
  | kReadFlashError
  | kWriteFlashError
  | kInvalidSize
  | kInvalidCommandPacket
  | kInvalidResponsePacket
  deriving DecidableEq

/-- Numeric value of a `Status` enumerator. -/
def Status.toNat : Status → Nat
  | .kSuccess => 0
  | .kSerialError => 1
  | .kReadFlashError => 2
  | .kWriteFlashError => 3
  | .kInvalidSize => 4
  | .kInvalidCommandPacket => 5
  | .kInvalidResponsePacket => 6

/-- The wildcard command id, `Command::kAny`. -/
def kAny : Nat := 0

/-- State of the serial line behind `hSerial`. -/
structure Port where
  /-- bytes the line delivers, in order, before it times out -/
  rx : List Nat
  /-- one entry per `WriteFile` call: the bytes the line took from it -/
  tx : List (List Nat)
  /-- how many more bytes the line accepts -/
  txRoom : Nat
  deriving DecidableEq

/-- Copy of `n` bytes of `src` to offset `off` of `dst` (`memcpy(&dst[off], src, n)`);
the source is used with `n` no larger than the size of `src`. -/
def memcpy (dst : List Nat) (off : Nat) (src : List Nat) (n : Nat) : List Nat :=
  dst.take off ++ src.take n ++ dst.drop (off + n)

/-- The system call `ReadFile(hSerial, buffer, n, &readSize, NULL)` with the
time-outs set by `serialOpen`: the bytes read (at most `n`) and the line after. -/
def ReadFile (h : Port) (n : Nat) : List Nat × Port :=
  (h.rx.take n, { h with rx := h.rx.drop n })

/-- The system call `WriteFile(hSerial, buffer, n, &writeSize, NULL)`:
the number of bytes written and the line after. -/
def WriteFile (h : Port) (buffer : List Nat) (n : Nat) : Nat × Port :=
  let taken := (buffer.take n).take h.txRoom
  (taken.length, { h with tx := h.tx ++ [taken], txRoom := h.txRoom - taken.length })

/-- Embedding of `Device::serialSend`: true exactly when the whole buffer was written. -/
def serialSend (h : Port) (buffer : List Nat) (bufferSize : Nat) : Bool × Port :=
  let w := WriteFile h buffer bufferSize
  (w.1 == bufferSize, w.2)

/-- Embedding of `Device::serialRecv`: true exactly when `bufferSize` bytes were read;
the bytes read are stored at the start of `buffer` either way. -/
def serialRecv (h : Port) (buffer : List Nat) (bufferSize : Nat) :
    Bool × List Nat × Port :=
  let r := ReadFile h bufferSize
  (r.1.length == bufferSize, memcpy buffer 0 r.1 r.1.length, r.2)

/-- The call `serialRecv(&var, 1)` on a one-byte local holding `var`. -/
def serialRecvByte (h : Port) (var : Nat) : Bool × Nat × Port :=
  let r := serialRecv h [var] 1
  (r.1, r.2.1.headD var, r.2.2)

/-- Embedding of `Device::sendPacket`.  `dataSize` is a `uint8_t` parameter and
`cmd` an enumeration over `uint8_t`. -/
def sendPacket (h : Port) (cmd : Nat) (data : List Nat) (dataSize : Nat) : Status × Port :=
  let dataSize := dataSize % 256
  let packetSize := (4 + dataSize) % 2 ^ 32
  let packet := List.replicate packetSize 0
  let packet := packet.set 0 0xBE
  let packet := packet.set 1 (cmd % 256)
  let packet := packet.set 2 dataSize
  let packet := memcpy packet 3 data dataSize
  let packet := packet.set (packetSize - 1) 0xED
  let s := serialSend h packet packetSize
  (if s.1 then Status.kSuccess else Status.kSerialError, s.2)

/-- The loop of `Device::recvPacketHead` with `n` iterations left. -/
def recvPacketHeadLoop : Nat → Nat → Port → Status × Port
  | 0, _, h => (Status.kInvalidResponsePacket, h)
  | n + 1, packetHead, h =>
    let r := serialRecvByte h packetHead
    if !r.1 then (Status.kSerialError, r.2.2)
    else if r.2.1 = 0xBE then (Status.kSuccess, r.2.2)
    else recvPacketHeadLoop n r.2.1 r.2.2

/-- Embedding of `Device::recvPacketHead`. -/
def recvPacketHead (h : Port) : Status × Port :=
  recvPacketHeadLoop 64 0 h

/-- What `Device::recvPacket` leaves behind: the returned status, the caller's
buffer, the cell behind `dataSize` (when the pointer is not `NULL`) and the line. -/
structure RecvResult where
  status : Status
  buffer : List Nat
  dataSize : Option Nat
  port : Port
  deriving DecidableEq

/-- Embedding of `Device::recvPacket`.  `dataSize = none` is the `NULL` default
(the reply must fill the buffer exactly); `some v` is a pointer to a cell holding `v`. -/
def recvPacket (h : Port) (cmd : Nat) (buffer : List Nat) (bufferSize : Nat)
    (dataSize : Option Nat) : RecvResult :=
  let hd := recvPacketHead h
  if hd.1 ≠ Status.kSuccess then ⟨hd.1, buffer, dataSize, hd.2⟩
  else
    let c := serialRecvByte hd.2 0
    if !c.1 then ⟨Status.kSerialError, buffer, dataSize, c.2.2⟩
    else if c.2.1 ≠ cmd ∧ c.2.1 ≠ kAny then
      ⟨Status.kInvalidResponsePacket, buffer, dataSize, c.2.2⟩
    else
      let z := serialRecvByte c.2.2 0
      if !z.1 then ⟨Status.kSerialError, buffer, dataSize, z.2.2⟩
      else if z.2.1 > bufferSize then ⟨Status.kSerialError, buffer, dataSize, z.2.2⟩
      else
        let p := if z.2.1 ≠ 0 then serialRecv z.2.2 buffer z.2.1 else (true, buffer, z.2.2)
        if !p.1 then ⟨Status.kSerialError, p.2.1, dataSize, p.2.2⟩
        else
          let t := serialRecvByte p.2.2 0
          if !t.1 then ⟨Status.kSerialError, p.2.1, dataSize, t.2.2⟩
          else if t.2.1 ≠ 0xED then ⟨Status.kInvalidResponsePacket, p.2.1, dataSize, t.2.2⟩
          else
            match dataSize with
            | some _ => ⟨Status.kSuccess, p.2.1, some z.2.1, t.2.2⟩
            | none =>
              if z.2.1 ≠ bufferSize then ⟨Status.kInvalidResponsePacket, p.2.1, none, t.2.2⟩
              else ⟨Status.kSuccess, p.2.1, none, t.2.2⟩

/-- The frame of command `c` with payload `p` as it travels on the wire. -/
def frame (c : Nat) (p : List Nat) : List Nat :=
  [0xBE, c, p.length] ++ p ++ [0xED]

/-- The bytes handed to the line between two states of the port. -/
def written (before after : Port) : List Nat :=
  (after.tx.drop before.tx.length).flatten

/-- What the decoder returns once a frame with an accepted command id, a length
byte that fits the buffer and that many payload bytes has been read up to the
byte `t` standing where the tail belongs. -/
def afterPayload (t : Nat) (p buffer : List Nat) (bufferSize : Nat) (dataSize : Option Nat)
    (port : Port) : RecvResult :=
  if t ≠ 0xED then ⟨Status.kInvalidResponsePacket, p ++ buffer.drop p.length, dataSize, port⟩
  else
    match dataSize with
    | some _ => ⟨Status.kSuccess, p ++ buffer.drop p.length, some p.length, port⟩
    | none =>
      if p.length ≠ bufferSize then
        ⟨Status.kInvalidResponsePacket, p ++ buffer.drop p.length, none, port⟩
      else ⟨Status.kSuccess, p ++ buffer.drop p.length, none, port⟩

/-! ### `enum class VirtualKeyCode : uint8_t` -/

namespace VirtualKeyCode

def kInvalid : Nat := 0x00
def kBackspace : Nat := 0x08
def kTab : Nat := 0x09
def kEnter : Nat := 0x0D
def kShift : Nat := 0x10
def kControl : Nat := 0x11
def kAlt : Nat := 0x12
def kPause : Nat := 0x13
def kCapsLock : Nat := 0x14
def kEscape : Nat := 0x1B
def kSpace : Nat := 0x20
def kPageUp : Nat := 0x21
def kPageDown : Nat := 0x22
def kEnd : Nat := 0x23
def kHome : Nat := 0x24
def kArrowLeft : Nat := 0x25
def kArrowUp : Nat := 0x26
def kArrowRight : Nat := 0x27
def kArrowDown : Nat := 0x28
def kPrintScreen : Nat := 0x2C
def kInsert : Nat := 0x2D
def kDelete : Nat := 0x2E
def kDigit0 : Nat := 0x30
def kDigit1 : Nat := 0x31
def kDigit2 : Nat := 0x32
def kDigit3 : Nat := 0x33
def kDigit4 : Nat := 0x34
def kDigit5 : Nat := 0x35
def kDigit6 : Nat := 0x36
def kDigit7 : Nat := 0x37
def kDigit8 : Nat := 0x38
def kDigit9 : Nat := 0x39
def kKeyA : Nat := 0x41
def kKeyB : Nat := 0x42
def kKeyC : Nat := 0x43
def kKeyD : Nat := 0x44
def kKeyE : Nat := 0x45
def kKeyF : Nat := 0x46
def kKeyG : Nat := 0x47
def kKeyH : Nat := 0x48
def kKeyI : Nat := 0x49
def kKeyJ : Nat := 0x4A
def kKeyK : Nat := 0x4B
def kKeyL : Nat := 0x4C
def kKeyM : Nat := 0x4D
def kKeyN : Nat := 0x4E
def kKeyO : Nat := 0x4F
def kKeyP : Nat := 0x50
def kKeyQ : Nat := 0x51
def kKeyR : Nat := 0x52
def kKeyS : Nat := 0x53
def kKeyT : Nat := 0x54
def kKeyU : Nat := 0x55
def kKeyV : Nat := 0x56
def kKeyW : Nat := 0x57
def kKeyX : Nat := 0x58
def kKeyY : Nat := 0x59
def kKeyZ : Nat := 0x5A
def kOSLeft : Nat := 0x5B
def kOSRight : Nat := 0x5C
def kContextMenu : Nat := 0x5D
def kNumpad0 : Nat := 0x60
def kNumpad1 : Nat := 0x61
def kNumpad2 : Nat := 0x62
def kNumpad3 : Nat := 0x63
def kNumpad4 : Nat := 0x64
def kNumpad5 : Nat := 0x65
def kNumpad6 : Nat := 0x66
def kNumpad7 : Nat := 0x67
def kNumpad8 : Nat := 0x68
def kNumpad9 : Nat := 0x69
def kNumpadMultiply : Nat := 0x6A
def kNumpadAdd : Nat := 0x6B
def kNumpadEnter : Nat := 0x6C
def kNumpadSubtract : Nat := 0x6D
def kNumpadDecimal : Nat := 0x6E
def kNumpadDivide : Nat := 0x6F
def kF1 : Nat := 0x70
def kF2 : Nat := 0x71
def kF3 : Nat := 0x72
def kF4 : Nat := 0x73
def kF5 : Nat := 0x74
def kF6 : Nat := 0x75
def kF7 : Nat := 0x76
def kF8 : Nat := 0x77
def kF9 : Nat := 0x78
def kF10 : Nat := 0x79
def kF11 : Nat := 0x7A
def kF12 : Nat := 0x7B
def kNumLock : Nat := 0x90
def kScrollLock : Nat := 0x91
def kShiftLeft : Nat := 0xA0
def kShiftRight : Nat := 0xA1
def kControlLeft : Nat := 0xA2
def kControlRight : Nat := 0xA3
def kAltLeft : Nat := 0xA4
def kAltRight : Nat := 0xA5
def kSemicolon : Nat := 0xBA
def kEqual : Nat := 0xBB
def kComma : Nat := 0xBC
def kMinus : Nat := 0xBD
def kPeriod : Nat := 0xBE
def kSlash : Nat := 0xBF
def kBackquote : Nat := 0xC0
def kBracketLeft : Nat := 0xDB
def kBackslash : Nat := 0xDC
def kBracketRight : Nat := 0xDD
def kQuote : Nat := 0xDE

/-- The named values of `VirtualKeyCode`, in the order of the source. -/
def enumerators : List Nat :=
  [kInvalid, kBackspace, kTab, kEnter, kShift, kControl, kAlt, kPause, kCapsLock, kEscape,
   kSpace, kPageUp, kPageDown, kEnd, kHome, kArrowLeft, kArrowUp, kArrowRight, kArrowDown,
   kPrintScreen, kInsert, kDelete, kDigit0, kDigit1, kDigit2, kDigit3, kDigit4, kDigit5,
   kDigit6, kDigit7, kDigit8, kDigit9, kKeyA, kKeyB, kKeyC, kKeyD, kKeyE, kKeyF, kKeyG, kKeyH,
   kKeyI, kKeyJ, kKeyK, kKeyL, kKeyM, kKeyN, kKeyO, kKeyP, kKeyQ, kKeyR, kKeyS, kKeyT, kKeyU,
   kKeyV, kKeyW, kKeyX, kKeyY, kKeyZ, kOSLeft, kOSRight, kContextMenu, kNumpad0, kNumpad1,
   kNumpad2, kNumpad3, kNumpad4, kNumpad5, kNumpad6, kNumpad7, kNumpad8, kNumpad9,
   kNumpadMultiply, kNumpadAdd, kNumpadEnter, kNumpadSubtract, kNumpadDecimal, kNumpadDivide,
   kF1, kF2, kF3, kF4, kF5, kF6, kF7, kF8, kF9, kF10, kF11, kF12, kNumLock, kScrollLock,
   kShiftLeft, kShiftRight, kControlLeft, kControlRight, kAltLeft, kAltRight, kSemicolon,
   kEqual, kComma, kMinus, kPeriod, kSlash, kBackquote, kBracketLeft, kBackslash,
   kBracketRight, kQuote]

end VirtualKeyCode

/-! ### `enum class HIDKeyCode : uint8_t` -/

namespace HIDKeyCode

def kInvalid : Nat := 0x00
def kKeyA : Nat := 0x04
def kKeyB : Nat := 0x05
def kKeyC : Nat := 0x06
def kKeyD : Nat := 0x07
def kKeyE : Nat := 0x08
def kKeyF : Nat := 0x09
def kKeyG : Nat := 0x0A
def kKeyH : Nat := 0x0B
def kKeyI : Nat := 0x0C
def kKeyJ : Nat := 0x0D
def kKeyK : Nat := 0x0E
def kKeyL : Nat := 0x0F
def kKeyM : Nat := 0x10
def kKeyN : Nat := 0x11
def kKeyO : Nat := 0x12
def kKeyP : Nat := 0x13
def kKeyQ : Nat := 0x14
def kKeyR : Nat := 0x15
def kKeyS : Nat := 0x16
def kKeyT : Nat := 0x17
def kKeyU : Nat := 0x18
def kKeyV : Nat := 0x19
def kKeyW : Nat := 0x1A
def kKeyX : Nat := 0x1B
def kKeyY : Nat := 0x1C
def kKeyZ : Nat := 0x1D
def kDigit1 : Nat := 0x1E
def kDigit2 : Nat := 0x1F
def kDigit3 : Nat := 0x20
def kDigit4 : Nat := 0x21
def kDigit5 : Nat := 0x22
def kDigit6 : Nat := 0x23
def kDigit7 : Nat := 0x24
def kDigit8 : Nat := 0x25
def kDigit9 : Nat := 0x26
def kDigit0 : Nat := 0x27
def kEnter : Nat := 0x28
def kEscape : Nat := 0x29
def kBackspace : Nat := 0x2A
def kTab : Nat := 0x2B
def kSpace : Nat := 0x2C
def kMinus : Nat := 0x2D
def kEqual : Nat := 0x2E
def kBracketLeft : Nat := 0x2F
def kBracketRight : Nat := 0x30
def kBackslash : Nat := 0x31
def kSemicolon : Nat := 0x33
def kQuote : Nat := 0x34
def kBackquote : Nat := 0x35
def kComma : Nat := 0x36
def kPeriod : Nat := 0x37
def kSlash : Nat := 0x38
def kCapsLock : Nat := 0x39
def kF1 : Nat := 0x3A
def kF2 : Nat := 0x3B
def kF3 : Nat := 0x3C
def kF4 : Nat := 0x3D
def kF5 : Nat := 0x3E
def kF6 : Nat := 0x3F
def kF7 : Nat := 0x40
def kF8 : Nat := 0x41
def kF9 : Nat := 0x42
def kF10 : Nat := 0x43
def kF11 : Nat := 0x44
def kF12 : Nat := 0x45
def kPrintScreen : Nat := 0x46
def kScrollLock : Nat := 0x47
def kPause : Nat := 0x48
def kInsert : Nat := 0x49
def kHome : Nat := 0x4A
def kPageUp : Nat := 0x4B
def kDelete : Nat := 0x4C
def kEnd : Nat := 0x4D
def kPageDown : Nat := 0x4E
def kArrowRight : Nat := 0x4F
def kArrowLeft : Nat := 0x50
def kArrowDown : Nat := 0x51
def kArrowUp : Nat := 0x52
def kNumLock : Nat := 0x53
def kNumpadDivide : Nat := 0x54
def kNumpadMultiply : Nat := 0x55
def kNumpadSubtract : Nat := 0x56
def kNumpadAdd : Nat := 0x57
def kNumpadEnter : Nat := 0x58
def kNumpad1 : Nat := 0x59
def kNumpad2 : Nat := 0x5A
def kNumpad3 : Nat := 0x5B
def kNumpad4 : Nat := 0x5C
def kNumpad5 : Nat := 0x5D
def kNumpad6 : Nat := 0x5E
def kNumpad7 : Nat := 0x5F
def kNumpad8 : Nat := 0x60
def kNumpad9 : Nat := 0x61
def kNumpad0 : Nat := 0x62
def kNumpadDecimal : Nat := 0x63
def kContextMenu : Nat := 0x65
def kControlLeft : Nat := 0xE0
def kShiftLeft : Nat := 0xE1
def kAltLeft : Nat := 0xE2
def kOSLeft : Nat := 0xE3
def kControlRight : Nat := 0xE4
def kShiftRight : Nat := 0xE5
def kAltRight : Nat := 0xE6
def kOSRight : Nat := 0xE7

/-- The named values of `Device::HIDKeyCode`, in the order of the source. -/
def enumerators : List Nat :=
  [kInvalid, kKeyA, kKeyB, kKeyC, kKeyD, kKeyE, kKeyF, kKeyG, kKeyH, kKeyI, kKeyJ, kKeyK,
   kKeyL, kKeyM, kKeyN, kKeyO, kKeyP, kKeyQ, kKeyR, kKeyS, kKeyT, kKeyU, kKeyV, kKeyW, kKeyX,
   kKeyY, kKeyZ, kDigit1, kDigit2, kDigit3, kDigit4, kDigit5, kDigit6, kDigit7, kDigit8,
   kDigit9, kDigit0, kEnter, kEscape, kBackspace, kTab, kSpace, kMinus, kEqual, kBracketLeft,
   kBracketRight, kBackslash, kSemicolon, kQuote, kBackquote, kComma, kPeriod, kSlash,
   kCapsLock, kF1, kF2, kF3, kF4, kF5, kF6, kF7, kF8, kF9, kF10, kF11, kF12, kPrintScreen,
   kScrollLock, kPause, kInsert, kHome, kPageUp, kDelete, kEnd, kPageDown, kArrowRight,
   kArrowLeft, kArrowDown, kArrowUp, kNumLock, kNumpadDivide, kNumpadMultiply, kNumpadSubtract,
   kNumpadAdd, kNumpadEnter, kNumpad1, kNumpad2, kNumpad3, kNumpad4, kNumpad5, kNumpad6,
   kNumpad7, kNumpad8, kNumpad9, kNumpad0, kNumpadDecimal, kContextMenu, kControlLeft,
   kShiftLeft, kAltLeft, kOSLeft, kControlRight, kShiftRight, kAltRight, kOSRight]

end HIDKeyCode

/-! ### `enum class Command : uint8_t` (the wildcard `kAny = 0` is declared above) -/

namespace Command

def kReboot : Nat := 1
def kKeyDown : Nat := 11
def kKeyUp : Nat := 12
def kReleaseAllKeys : Nat := 13
def kGetKeyState : Nat := 14
def kGetKeyboardLEDsState : Nat := 15
def kGetKeyboardState : Nat := 16
def kSendKeyboardState : Nat := 17
def kButtonDown : Nat := 31
def kButtonUp : Nat := 32
def kReleaseAllButtons : Nat := 33
def kGetButtonsState : Nat := 34
def kMoveRel : Nat := 51
def kScrollRel : Nat := 52
def kGetRelMouseState : Nat := 53
def kSendRelMouseState : Nat := 54
def kInitAbsSystem : Nat := 71
def kMoveAbs : Nat := 72
def kScrollAbs : Nat := 73
def kGetPos : Nat := 74
def kSetPos : Nat := 75
def kGetWheelAxis : Nat := 76
def kSetWheelAxis : Nat := 77
def kGetAxes : Nat := 78
def kSetAxes : Nat := 79
def kGetAbsMouseState : Nat := 80
def kSendAbsMouseState : Nat := 81
def kGetVendorID : Nat := 91
def kGetProductID : Nat := 92
def kGetVersionNumber : Nat := 93
def kGetManufacturerString : Nat := 94
def kGetProductString : Nat := 95
def kConfigVendorID : Nat := 111
def kConfigProductID : Nat := 112
def kConfigVersionNumber : Nat := 113
def kConfigManufacturerString : Nat := 114
def kConfigProductString : Nat := 115
def kGetDeviceID : Nat := 131
def kGetDeviceSerialNumber : Nat := 132
def kGetFirmwareVersion : Nat := 133

end Command

/-- The `case` labels of the `switch` in `Device::HIDKeyCodeToVirtualKeyCode` with the value each returns, in the order of the source. -/
def HIDKeyCodeToVirtualKeyCode_cases : List (Nat × Nat) :=
  [
    (HIDKeyCode.kKeyA, VirtualKeyCode.kKeyA),
    (HIDKeyCode.kKeyB, VirtualKeyCode.kKeyB),
    (HIDKeyCode.kKeyC, VirtualKeyCode.kKeyC),
    (HIDKeyCode.kKeyD, VirtualKeyCode.kKeyD),
    (HIDKeyCode.kKeyE, VirtualKeyCode.kKeyE),
    (HIDKeyCode.kKeyF, VirtualKeyCode.kKeyF),
    (HIDKeyCode.kKeyG, VirtualKeyCode.kKeyG),
    (HIDKeyCode.kKeyH, VirtualKeyCode.kKeyH),
    (HIDKeyCode.kKeyI, VirtualKeyCode.kKeyI),
    (HIDKeyCode.kKeyJ, VirtualKeyCode.kKeyJ),
    (HIDKeyCode.kKeyK, VirtualKeyCode.kKeyK),
    (HIDKeyCode.kKeyL, VirtualKeyCode.kKeyL),
    (HIDKeyCode.kKeyM, VirtualKeyCode.kKeyM),
    (HIDKeyCode.kKeyN, VirtualKeyCode.kKeyN),
    (HIDKeyCode.kKeyO, VirtualKeyCode.kKeyO),
    (HIDKeyCode.kKeyP, VirtualKeyCode.kKeyP),
    (HIDKeyCode.kKeyQ, VirtualKeyCode.kKeyQ),
    (HIDKeyCode.kKeyR, VirtualKeyCode.kKeyR),
    (HIDKeyCode.kKeyS, VirtualKeyCode.kKeyS),
    (HIDKeyCode.kKeyT, VirtualKeyCode.kKeyT),
    (HIDKeyCode.kKeyU, VirtualKeyCode.kKeyU),
    (HIDKeyCode.kKeyV, VirtualKeyCode.kKeyV),
    (HIDKeyCode.kKeyW, VirtualKeyCode.kKeyW),
    (HIDKeyCode.kKeyX, VirtualKeyCode.kKeyX),
    (HIDKeyCode.kKeyY, VirtualKeyCode.kKeyY),
    (HIDKeyCode.kKeyZ, VirtualKeyCode.kKeyZ),
    (HIDKeyCode.kDigit1, VirtualKeyCode.kDigit1),
    (HIDKeyCode.kDigit2, VirtualKeyCode.kDigit2),
    (HIDKeyCode.kDigit3, VirtualKeyCode.kDigit3),
    (HIDKeyCode.kDigit4, VirtualKeyCode.kDigit4),
    (HIDKeyCode.kDigit5, VirtualKeyCode.kDigit5),
    (HIDKeyCode.kDigit6, VirtualKeyCode.kDigit6),
    (HIDKeyCode.kDigit7, VirtualKeyCode.kDigit7),
    (HIDKeyCode.kDigit8, VirtualKeyCode.kDigit8),
    (HIDKeyCode.kDigit9, VirtualKeyCode.kDigit9),
    (HIDKeyCode.kDigit0, VirtualKeyCode.kDigit0),
    (HIDKeyCode.kEnter, VirtualKeyCode.kEnter),
    (HIDKeyCode.kEscape, VirtualKeyCode.kEscape),
    (HIDKeyCode.kBackspace, VirtualKeyCode.kBackspace),
    (HIDKeyCode.kTab, VirtualKeyCode.kTab),
    (HIDKeyCode.kSpace, VirtualKeyCode.kSpace),
    (HIDKeyCode.kMinus, VirtualKeyCode.kMinus),
    (HIDKeyCode.kEqual, VirtualKeyCode.kEqual),
    (HIDKeyCode.kBracketLeft, VirtualKeyCode.kBracketLeft),
    (HIDKeyCode.kBracketRight, VirtualKeyCode.kBracketRight),
    (HIDKeyCode.kBackslash, VirtualKeyCode.kBackslash),
    (HIDKeyCode.kSemicolon, VirtualKeyCode.kSemicolon),
    (HIDKeyCode.kQuote, VirtualKeyCode.kQuote),
    (HIDKeyCode.kBackquote, VirtualKeyCode.kBackquote),
    (HIDKeyCode.kComma, VirtualKeyCode.kComma),
    (HIDKeyCode.kPeriod, VirtualKeyCode.kPeriod),
    (HIDKeyCode.kSlash, VirtualKeyCode.kSlash),
    (HIDKeyCode.kCapsLock, VirtualKeyCode.kCapsLock),
    (HIDKeyCode.kF1, VirtualKeyCode.kF1),
    (HIDKeyCode.kF2, VirtualKeyCode.kF2),
    (HIDKeyCode.kF3, VirtualKeyCode.kF3),
    (HIDKeyCode.kF4, VirtualKeyCode.kF4),
    (HIDKeyCode.kF5, VirtualKeyCode.kF5),
    (HIDKeyCode.kF6, VirtualKeyCode.kF6),
    (HIDKeyCode.kF7, VirtualKeyCode.kF7),
    (HIDKeyCode.kF8, VirtualKeyCode.kF8),
    (HIDKeyCode.kF9, VirtualKeyCode.kF9),
    (HIDKeyCode.kF10, VirtualKeyCode.kF10),
    (HIDKeyCode.kF11, VirtualKeyCode.kF11),
    (HIDKeyCode.kF12, VirtualKeyCode.kF12),
    (HIDKeyCode.kPrintScreen, VirtualKeyCode.kPrintScreen),
    (HIDKeyCode.kScrollLock, VirtualKeyCode.kScrollLock),
    (HIDKeyCode.kPause, VirtualKeyCode.kPause),
    (HIDKeyCode.kInsert, VirtualKeyCode.kInsert),
    (HIDKeyCode.kHome, VirtualKeyCode.kHome),
    (HIDKeyCode.kPageUp, VirtualKeyCode.kPageUp),
    (HIDKeyCode.kDelete, VirtualKeyCode.kDelete),
    (HIDKeyCode.kEnd, VirtualKeyCode.kEnd),
    (HIDKeyCode.kPageDown, VirtualKeyCode.kPageDown),
    (HIDKeyCode.kArrowRight, VirtualKeyCode.kArrowRight),
    (HIDKeyCode.kArrowLeft, VirtualKeyCode.kArrowLeft),
    (HIDKeyCode.kArrowDown, VirtualKeyCode.kArrowDown),
    (HIDKeyCode.kArrowUp, VirtualKeyCode.kArrowUp),
    (HIDKeyCode.kNumLock, VirtualKeyCode.kNumLock),
    (HIDKeyCode.kNumpadDivide, VirtualKeyCode.kNumpadDivide),
    (HIDKeyCode.kNumpadMultiply, VirtualKeyCode.kNumpadMultiply),
    (HIDKeyCode.kNumpadSubtract, VirtualKeyCode.kNumpadSubtract),
    (HIDKeyCode.kNumpadAdd, VirtualKeyCode.kNumpadAdd),
    (HIDKeyCode.kNumpadEnter, VirtualKeyCode.kNumpadEnter),
    (HIDKeyCode.kNumpad1, VirtualKeyCode.kNumpad1),
    (HIDKeyCode.kNumpad2, VirtualKeyCode.kNumpad2),
    (HIDKeyCode.kNumpad3, VirtualKeyCode.kNumpad3),
    (HIDKeyCode.kNumpad4, VirtualKeyCode.kNumpad4),
    (HIDKeyCode.kNumpad5, VirtualKeyCode.kNumpad5),
    (HIDKeyCode.kNumpad6, VirtualKeyCode.kNumpad6),
    (HIDKeyCode.kNumpad7, VirtualKeyCode.kNumpad7),
    (HIDKeyCode.kNumpad8, VirtualKeyCode.kNumpad8),
    (HIDKeyCode.kNumpad9, VirtualKeyCode.kNumpad9),
    (HIDKeyCode.kNumpad0, VirtualKeyCode.kNumpad0),
    (HIDKeyCode.kNumpadDecimal, VirtualKeyCode.kNumpadDecimal),
    (HIDKeyCode.kContextMenu, VirtualKeyCode.kContextMenu),
    (HIDKeyCode.kControlLeft, VirtualKeyCode.kControlLeft),
    (HIDKeyCode.kShiftLeft, VirtualKeyCode.kShiftLeft),
    (HIDKeyCode.kAltLeft, VirtualKeyCode.kAltLeft),
    (HIDKeyCode.kOSLeft, VirtualKeyCode.kOSLeft),
    (HIDKeyCode.kControlRight, VirtualKeyCode.kControlRight),
    (HIDKeyCode.kShiftRight, VirtualKeyCode.kShiftRight),
    (HIDKeyCode.kAltRight, VirtualKeyCode.kAltRight),
    (HIDKeyCode.kOSRight, VirtualKeyCode.kOSRight),
    (HIDKeyCode.kInvalid, VirtualKeyCode.kInvalid)]

/-- Embedding of `Device::HIDKeyCodeToVirtualKeyCode`: the `switch` returns the value of
the matching `case` and `VirtualKeyCode::kInvalid` by `default`. -/
def HIDKeyCodeToVirtualKeyCode (code : Nat) : Nat :=
  match HIDKeyCodeToVirtualKeyCode_cases.find? (fun e => e.1 == code) with
  | some e => e.2
  | none => VirtualKeyCode.kInvalid

/-- The `case` labels of the `switch` in `Device::virtualKeyCodeToHIDKeyCode` with the value each returns, in the order of the source. -/
def virtualKeyCodeToHIDKeyCode_cases : List (Nat × Nat) :=
  [
    (VirtualKeyCode.kBackspace, HIDKeyCode.kBackspace),
    (VirtualKeyCode.kTab, HIDKeyCode.kTab),
    (VirtualKeyCode.kEnter, HIDKeyCode.kEnter),
    (VirtualKeyCode.kShift, HIDKeyCode.kShiftLeft),
    (VirtualKeyCode.kControl, HIDKeyCode.kControlLeft),
    (VirtualKeyCode.kAlt, HIDKeyCode.kAltLeft),
    (VirtualKeyCode.kPause, HIDKeyCode.kPause),
    (VirtualKeyCode.kCapsLock, HIDKeyCode.kCapsLock),
    (VirtualKeyCode.kEscape, HIDKeyCode.kEscape),
    (VirtualKeyCode.kSpace, HIDKeyCode.kSpace),
    (VirtualKeyCode.kPageUp, HIDKeyCode.kPageUp),
    (VirtualKeyCode.kPageDown, HIDKeyCode.kPageDown),
    (VirtualKeyCode.kEnd, HIDKeyCode.kEnd),
    (VirtualKeyCode.kHome, HIDKeyCode.kHome),
    (VirtualKeyCode.kArrowLeft, HIDKeyCode.kArrowLeft),
    (VirtualKeyCode.kArrowUp, HIDKeyCode.kArrowUp),
    (VirtualKeyCode.kArrowRight, HIDKeyCode.kArrowRight),
    (VirtualKeyCode.kArrowDown, HIDKeyCode.kArrowDown),
    (VirtualKeyCode.kPrintScreen, HIDKeyCode.kPrintScreen),
    (VirtualKeyCode.kInsert, HIDKeyCode.kInsert),
    (VirtualKeyCode.kDelete, HIDKeyCode.kDelete),
    (VirtualKeyCode.kDigit0, HIDKeyCode.kDigit0),
    (VirtualKeyCode.kDigit1, HIDKeyCode.kDigit1),
    (VirtualKeyCode.kDigit2, HIDKeyCode.kDigit2),
    (VirtualKeyCode.kDigit3, HIDKeyCode.kDigit3),
    (VirtualKeyCode.kDigit4, HIDKeyCode.kDigit4),
    (VirtualKeyCode.kDigit5, HIDKeyCode.kDigit5),
    (VirtualKeyCode.kDigit6, HIDKeyCode.kDigit6),
    (VirtualKeyCode.kDigit7, HIDKeyCode.kDigit7),
    (VirtualKeyCode.kDigit8, HIDKeyCode.kDigit8),
    (VirtualKeyCode.kDigit9, HIDKeyCode.kDigit9),
    (VirtualKeyCode.kKeyA, HIDKeyCode.kKeyA),
    (VirtualKeyCode.kKeyB, HIDKeyCode.kKeyB),
    (VirtualKeyCode.kKeyC, HIDKeyCode.kKeyC),
    (VirtualKeyCode.kKeyD, HIDKeyCode.kKeyD),
    (VirtualKeyCode.kKeyE, HIDKeyCode.kKeyE),
    (VirtualKeyCode.kKeyF, HIDKeyCode.kKeyF),
    (VirtualKeyCode.kKeyG, HIDKeyCode.kKeyG),
    (VirtualKeyCode.kKeyH, HIDKeyCode.kKeyH),
    (VirtualKeyCode.kKeyI, HIDKeyCode.kKeyI),
    (VirtualKeyCode.kKeyJ, HIDKeyCode.kKeyJ),
    (VirtualKeyCode.kKeyK, HIDKeyCode.kKeyK),
    (VirtualKeyCode.kKeyL, HIDKeyCode.kKeyL),
    (VirtualKeyCode.kKeyM, HIDKeyCode.kKeyM),
    (VirtualKeyCode.kKeyN, HIDKeyCode.kKeyN),
    (VirtualKeyCode.kKeyO, HIDKeyCode.kKeyO),
    (VirtualKeyCode.kKeyP, HIDKeyCode.kKeyP),
    (VirtualKeyCode.kKeyQ, HIDKeyCode.kKeyQ),
    (VirtualKeyCode.kKeyR, HIDKeyCode.kKeyR),
    (VirtualKeyCode.kKeyS, HIDKeyCode.kKeyS),
    (VirtualKeyCode.kKeyT, HIDKeyCode.kKeyT),
    (VirtualKeyCode.kKeyU, HIDKeyCode.kKeyU),
    (VirtualKeyCode.kKeyV, HIDKeyCode.kKeyV),
    (VirtualKeyCode.kKeyW, HIDKeyCode.kKeyW),
    (VirtualKeyCode.kKeyX, HIDKeyCode.kKeyX),
    (VirtualKeyCode.kKeyY, HIDKeyCode.kKeyY),
    (VirtualKeyCode.kKeyZ, HIDKeyCode.kKeyZ),
    (VirtualKeyCode.kOSLeft, HIDKeyCode.kOSLeft),
    (VirtualKeyCode.kOSRight, HIDKeyCode.kOSRight),
    (VirtualKeyCode.kContextMenu, HIDKeyCode.kContextMenu),
    (VirtualKeyCode.kNumpad0, HIDKeyCode.kNumpad0),
    (VirtualKeyCode.kNumpad1, HIDKeyCode.kNumpad1),
    (VirtualKeyCode.kNumpad2, HIDKeyCode.kNumpad2),
    (VirtualKeyCode.kNumpad3, HIDKeyCode.kNumpad3),
    (VirtualKeyCode.kNumpad4, HIDKeyCode.kNumpad4),
    (VirtualKeyCode.kNumpad5, HIDKeyCode.kNumpad5),
    (VirtualKeyCode.kNumpad6, HIDKeyCode.kNumpad6),
    (VirtualKeyCode.kNumpad7, HIDKeyCode.kNumpad7),
    (VirtualKeyCode.kNumpad8, HIDKeyCode.kNumpad8),
    (VirtualKeyCode.kNumpad9, HIDKeyCode.kNumpad9),
    (VirtualKeyCode.kNumpadMultiply, HIDKeyCode.kNumpadMultiply),
    (VirtualKeyCode.kNumpadAdd, HIDKeyCode.kNumpadAdd),
    (VirtualKeyCode.kNumpadEnter, HIDKeyCode.kNumpadEnter),
    (VirtualKeyCode.kNumpadSubtract, HIDKeyCode.kNumpadSubtract),
    (VirtualKeyCode.kNumpadDecimal, HIDKeyCode.kNumpadDecimal),
    (VirtualKeyCode.kNumpadDivide, HIDKeyCode.kNumpadDivide),
    (VirtualKeyCode.kF1, HIDKeyCode.kF1),
    (VirtualKeyCode.kF2, HIDKeyCode.kF2),
    (VirtualKeyCode.kF3, HIDKeyCode.kF3),
    (VirtualKeyCode.kF4, HIDKeyCode.kF4),
    (VirtualKeyCode.kF5, HIDKeyCode.kF5),
    (VirtualKeyCode.kF6, HIDKeyCode.kF6),
    (VirtualKeyCode.kF7, HIDKeyCode.kF7),
    (VirtualKeyCode.kF8, HIDKeyCode.kF8),
    (VirtualKeyCode.kF9, HIDKeyCode.kF9),
    (VirtualKeyCode.kF10, HIDKeyCode.kF10),
    (VirtualKeyCode.kF11, HIDKeyCode.kF11),
    (VirtualKeyCode.kF12, HIDKeyCode.kF12),
    (VirtualKeyCode.kNumLock, HIDKeyCode.kNumLock),
    (VirtualKeyCode.kScrollLock, HIDKeyCode.kScrollLock),
    (VirtualKeyCode.kShiftLeft, HIDKeyCode.kShiftLeft),
    (VirtualKeyCode.kShiftRight, HIDKeyCode.kShiftRight),
    (VirtualKeyCode.kControlLeft, HIDKeyCode.kControlLeft),
    (VirtualKeyCode.kControlRight, HIDKeyCode.kControlRight),
    (VirtualKeyCode.kAltLeft, HIDKeyCode.kAltLeft),
    (VirtualKeyCode.kAltRight, HIDKeyCode.kAltRight),
    (VirtualKeyCode.kSemicolon, HIDKeyCode.kSemicolon),
    (VirtualKeyCode.kEqual, HIDKeyCode.kEqual),
    (VirtualKeyCode.kComma, HIDKeyCode.kComma),
    (VirtualKeyCode.kMinus, HIDKeyCode.kMinus),
    (VirtualKeyCode.kPeriod, HIDKeyCode.kPeriod),
    (VirtualKeyCode.kSlash, HIDKeyCode.kSlash),
    (VirtualKeyCode.kBackquote, HIDKeyCode.kBackquote),
    (VirtualKeyCode.kBracketLeft, HIDKeyCode.kBracketLeft),
    (VirtualKeyCode.kBackslash, HIDKeyCode.kBackslash),
    (VirtualKeyCode.kBracketRight, HIDKeyCode.kBracketRight),
    (VirtualKeyCode.kQuote, HIDKeyCode.kQuote),
    (VirtualKeyCode.kInvalid, HIDKeyCode.kInvalid)]

/-- Embedding of `Device::virtualKeyCodeToHIDKeyCode`: the `switch` returns the value of
the matching `case` and `HIDKeyCode::kInvalid` by `default`. -/
def virtualKeyCodeToHIDKeyCode (code : Nat) : Nat :=
  match virtualKeyCodeToHIDKeyCode_cases.find? (fun e => e.1 == code) with
  | some e => e.2
  | none => HIDKeyCode.kInvalid

/-! ### Object representations

The target is Windows (`#include <Windows.h>`): integers are little-endian, `wchar_t`
has two bytes, and the structures sent on the wire are declared under
`#pragma pack(push, 1)`.  A one-byte bit-field structure (`ModifierKeys`, `Buttons`,
`MouseStateMask`) is carried as its byte. -/

/-- The two bytes of a `uint16_t`. -/
def uint16Bytes (v : Nat) : List Nat :=
  [v % 256, v / 256 % 256]

/-- The `uint16_t` stored in two bytes. -/
def uint16Of (lo hi : Nat) : Nat :=
  lo + 256 * hi

/-- The two bytes of an `int16_t` (two's complement). -/
def int16Bytes (x : Int) : List Nat :=
  uint16Bytes (x % 65536).toNat

/-- The `int16_t` stored in two bytes. -/
def int16Of (lo hi : Nat) : Int :=
  if uint16Of lo hi < 32768 then (uint16Of lo hi : Int) else (uint16Of lo hi : Int) - 65536

/-- The bytes of an array of `wchar_t`. -/
def wstrBytes (data : List Nat) : List Nat :=
  data.flatMap uint16Bytes

/-- The `wchar_t` units stored in a byte array. -/
def wcharsOf : List Nat → List Nat
  | lo :: hi :: rest => uint16Of lo hi :: wcharsOf rest
  | _ => []

/-- The `std::wstring` built from a `wchar_t` array: the units of the array before its
first zero unit.  Where the array holds no zero unit the construction reads past the end
of the array, and nothing is known of the string it yields: `none`. -/
def wcstr (units : List Nat) : Option (List Nat) :=
  if units.contains 0 then some (units.takeWhile (fun u => u != 0)) else none

/-- Embedding of `struct KeyboardState`. -/
structure KeyboardState where
  modifierKeys : Nat
  /-- the seven entries of `regularKeys` -/
  regularKeys : List Nat

/-- Embedding of `struct KeyboardStateMask`. -/
structure KeyboardStateMask where
  modifierKeys : Nat
  /-- the seven entries of `regularKeys` -/
  regularKeys : List Bool

/-- Embedding of `struct MouseState`: the buttons byte and the three axes. -/
structure MouseState where
  buttons : Nat
  x : Int
  y : Int
  w : Int

/-- The seven bytes of a packed `MouseState`. -/
def MouseState.bytes (m : MouseState) : List Nat :=
  [m.buttons % 256] ++ int16Bytes m.x ++ int16Bytes m.y ++ int16Bytes m.w

/-! ### Action operations

A `Status` returned by an operation is given by its numeric value: `cmdStatus` is
filled from the wire and may hold any byte. -/

/-- The statements every action operation ends with:
`status = sendPacket(cmd, data, dataSize); if (status != kSuccess) return status;`
`status = recvPacket(cmd, &cmdStatus, sizeof(cmdStatus)); if (status != kSuccess) return status;`
`return cmdStatus;` with `cmdStatus{}` zero-initialised. -/
def actionExchange (h : Port) (cmd : Nat) (data : List Nat) (dataSize : Nat) : Nat × Port :=
  let s := sendPacket h cmd data dataSize
  if s.1 ≠ Status.kSuccess then (s.1.toNat, s.2)
  else
    let r := recvPacket s.2 cmd [0] 1 none
    if r.status ≠ Status.kSuccess then (r.status.toNat, r.port)
    else (r.buffer.headD 0, r.port)

/-- Embedding of `Device::reboot`. -/
def reboot (h : Port) : Nat × Port :=
  actionExchange h Command.kReboot [] 0

/-- Embedding of `Device::keyDown`. -/
def keyDown (h : Port) (virtualKeyCode : Nat) : Nat × Port :=
  actionExchange h Command.kKeyDown [virtualKeyCodeToHIDKeyCode virtualKeyCode] 1

/-- Embedding of `Device::keyUp`. -/
def keyUp (h : Port) (virtualKeyCode : Nat) : Nat × Port :=
  actionExchange h Command.kKeyUp [virtualKeyCodeToHIDKeyCode virtualKeyCode] 1

/-- Embedding of `Device::releaseAllKeys`. -/
def releaseAllKeys (h : Port) : Nat × Port :=
  actionExchange h Command.kReleaseAllKeys [] 0

/-- The loop `regularKeysMask |= keyboardStateMask.regularKeys[i] << i` for `i < 7`. -/
def regularKeysMask (regularKeys : List Bool) : Nat :=
  (List.range 7).foldl (fun m i => (m ||| ((regularKeys.getD i false).toNat <<< i)) % 256) 0

/-- Embedding of `Device::sendKeyboardState`; the packed local `state` has ten bytes. -/
def sendKeyboardState (h : Port) (keyboardState : KeyboardState)
    (keyboardStateMask : KeyboardStateMask) : Nat × Port :=
  let state := [keyboardStateMask.modifierKeys % 256,
      regularKeysMask keyboardStateMask.regularKeys, keyboardState.modifierKeys % 256] ++
    (List.range 7).map (fun i => virtualKeyCodeToHIDKeyCode (keyboardState.regularKeys.getD i 0))
  actionExchange h Command.kSendKeyboardState state 10

/-- Embedding of `Device::buttonDown`. -/
def buttonDown (h : Port) (button : Nat) : Nat × Port :=
  actionExchange h Command.kButtonDown [button % 256] 1

/-- Embedding of `Device::buttonUp`. -/
def buttonUp (h : Port) (button : Nat) : Nat × Port :=
  actionExchange h Command.kButtonUp [button % 256] 1

/-- Embedding of `Device::releaseAllButtons`. -/
def releaseAllButtons (h : Port) : Nat × Port :=
  actionExchange h Command.kReleaseAllButtons [] 0

/-- Embedding of `Device::moveRel`. -/
def moveRel (h : Port) (x y : Int) : Nat × Port :=
  actionExchange h Command.kMoveRel (int16Bytes x ++ int16Bytes y) 4

/-- Embedding of `Device::scrollRel`. -/
def scrollRel (h : Port) (w : Int) : Nat × Port :=
  actionExchange h Command.kScrollRel (int16Bytes w) 2

/-- Embedding of `Device::sendRelMouseState`; the packed local `state` has eight bytes. -/
def sendRelMouseState (h : Port) (mouseState : MouseState) (mouseStateMask : Nat) :
    Nat × Port :=
  actionExchange h Command.kSendRelMouseState ([mouseStateMask % 256] ++ mouseState.bytes) 8

/-- Embedding of `Device::initAbsSystem`. -/
def initAbsSystem (h : Port) (screenWidth screenHeight : Int) : Nat × Port :=
  actionExchange h Command.kInitAbsSystem (int16Bytes screenWidth ++ int16Bytes screenHeight) 4

/-- Embedding of `Device::moveAbs`. -/
def moveAbs (h : Port) (x y : Int) : Nat × Port :=
  actionExchange h Command.kMoveAbs (int16Bytes x ++ int16Bytes y) 4

/-- Embedding of `Device::scrollAbs`. -/
def scrollAbs (h : Port) (w : Int) : Nat × Port :=
  actionExchange h Command.kScrollAbs (int16Bytes w) 2

/-- Embedding of `Device::setPos`. -/
def setPos (h : Port) (x y : Int) : Nat × Port :=
  actionExchange h Command.kSetPos (int16Bytes x ++ int16Bytes y) 4

/-- Embedding of `Device::setWheelAxis`. -/
def setWheelAxis (h : Port) (w : Int) : Nat × Port :=
  actionExchange h Command.kSetWheelAxis (int16Bytes w) 2

/-- Embedding of `Device::setAxes`. -/
def setAxes (h : Port) (x y w : Int) : Nat × Port :=
  actionExchange h Command.kSetAxes (int16Bytes x ++ int16Bytes y ++ int16Bytes w) 6

/-- Embedding of `Device::sendAbsMouseState`; the packed local `state` has eight bytes. -/
def sendAbsMouseState (h : Port) (mouseState : MouseState) (mouseStateMask : Nat) :
    Nat × Port :=
  actionExchange h Command.kSendAbsMouseState ([mouseStateMask % 256] ++ mouseState.bytes) 8

/-- Embedding of `Device::configHIDVendorID`. -/
def configHIDVendorID (h : Port) (vendorID : Nat) : Nat × Port :=
  actionExchange h Command.kConfigVendorID (uint16Bytes vendorID) 2

/-- Embedding of `Device::configHIDProductID`. -/
def configHIDProductID (h : Port) (productID : Nat) : Nat × Port :=
  actionExchange h Command.kConfigProductID (uint16Bytes productID) 2

/-- Embedding of `Device::configHIDVersionNumber`. -/
def configHIDVersionNumber (h : Port) (versionNumber : Nat) : Nat × Port :=
  actionExchange h Command.kConfigVersionNumber (uint16Bytes versionNumber) 2

/-- Embedding of `Device::configHIDManufacturerString`.  The conversion `strToWstr`
(a call of `MultiByteToWideChar`) is a parameter; `sizeof(wchar_t)` is 2. -/
def configHIDManufacturerString {α : Type} (strToWstr : α → List Nat) (h : Port)
    (manufacturerString : α) : Nat × Port :=
  let data := strToWstr manufacturerString
  if data.length * 2 > 255 then (Status.kInvalidSize.toNat, h)
  else actionExchange h Command.kConfigManufacturerString (wstrBytes data)
    (data.length * 2 % 256)

/-- Embedding of `Device::configHIDProductString`. -/
def configHIDProductString {α : Type} (strToWstr : α → List Nat) (h : Port)
    (productString : α) : Nat × Port :=
  let data := strToWstr productString
  if data.length * 2 > 255 then (Status.kInvalidSize.toNat, h)
  else actionExchange h Command.kConfigProductString (wstrBytes data)
    (data.length * 2 % 256)

/-- A call of one of the action operations, with its arguments. -/
inductive ActionCall (α : Type)
  | reboot
  | keyDown (virtualKeyCode : Nat)
  | keyUp (virtualKeyCode : Nat)
  | releaseAllKeys
  | sendKeyboardState (keyboardState : KeyboardState) (keyboardStateMask : KeyboardStateMask)
  | buttonDown (button : Nat)
  | buttonUp (button : Nat)
  | releaseAllButtons
  | moveRel (x y : Int)
  | scrollRel (w : Int)
  | sendRelMouseState (mouseState : MouseState) (mouseStateMask : Nat)
  | initAbsSystem (screenWidth screenHeight : Int)
  | moveAbs (x y : Int)
  | scrollAbs (w : Int)
  | setPos (x y : Int)
  | setWheelAxis (w : Int)
  | setAxes (x y w : Int)
  | sendAbsMouseState (mouseState : MouseState) (mouseStateMask : Nat)
  | configHIDVendorID (vendorID : Nat)
  | configHIDProductID (productID : Nat)
  | configHIDVersionNumber (versionNumber : Nat)
  | configHIDManufacturerString (manufacturerString : α)
  | configHIDProductString (productString : α)

/-- Running a call: the operation of the same name on the given line. -/
def ActionCall.run {α : Type} (strToWstr : α → List Nat) (h : Port) :
    ActionCall α → Nat × Port
  | .reboot => RX784.reboot h
  | .keyDown k => RX784.keyDown h k
  | .keyUp k => RX784.keyUp h k
  | .releaseAllKeys => RX784.releaseAllKeys h
  | .sendKeyboardState s m => RX784.sendKeyboardState h s m
  | .buttonDown b => RX784.buttonDown h b
  | .buttonUp b => RX784.buttonUp h b
  | .releaseAllButtons => RX784.releaseAllButtons h
  | .moveRel x y => RX784.moveRel h x y
  | .scrollRel w => RX784.scrollRel h w
  | .sendRelMouseState s m => RX784.sendRelMouseState h s m
  | .initAbsSystem x y => RX784.initAbsSystem h x y
  | .moveAbs x y => RX784.moveAbs h x y
  | .scrollAbs w => RX784.scrollAbs h w
  | .setPos x y => RX784.setPos h x y
  | .setWheelAxis w => RX784.setWheelAxis h w
  | .setAxes x y w => RX784.setAxes h x y w
  | .sendAbsMouseState s m => RX784.sendAbsMouseState h s m
  | .configHIDVendorID v => RX784.configHIDVendorID h v
  | .configHIDProductID v => RX784.configHIDProductID h v
  | .configHIDVersionNumber v => RX784.configHIDVersionNumber h v
  | .configHIDManufacturerString s => RX784.configHIDManufacturerString strToWstr h s
  | .configHIDProductString s => RX784.configHIDProductString strToWstr h s

/-- The command id of the operation a call names (the `Command` enumerator of the
same name, `kConfig…` for the `configHID…` operations). -/
def ActionCall.command {α : Type} : ActionCall α → Nat
  | .reboot => Command.kReboot
  | .keyDown _ => Command.kKeyDown
  | .keyUp _ => Command.kKeyUp
  | .releaseAllKeys => Command.kReleaseAllKeys
  | .sendKeyboardState _ _ => Command.kSendKeyboardState
  | .buttonDown _ => Command.kButtonDown
  | .buttonUp _ => Command.kButtonUp
  | .releaseAllButtons => Command.kReleaseAllButtons
  | .moveRel _ _ => Command.kMoveRel
  | .scrollRel _ => Command.kScrollRel
  | .sendRelMouseState _ _ => Command.kSendRelMouseState
  | .initAbsSystem _ _ => Command.kInitAbsSystem
  | .moveAbs _ _ => Command.kMoveAbs
  | .scrollAbs _ => Command.kScrollAbs
  | .setPos _ _ => Command.kSetPos
  | .setWheelAxis _ => Command.kSetWheelAxis
  | .setAxes _ _ _ => Command.kSetAxes
  | .sendAbsMouseState _ _ => Command.kSendAbsMouseState
  | .configHIDVendorID _ => Command.kConfigVendorID
  | .configHIDProductID _ => Command.kConfigProductID
  | .configHIDVersionNumber _ => Command.kConfigVersionNumber
  | .configHIDManufacturerString _ => Command.kConfigManufacturerString
  | .configHIDProductString _ => Command.kConfigProductString

/-- The request write of an operation succeeded: between the two states of the line
one complete frame of command `cmd` was handed over (a short write leaves a frame cut
before its tail, a refused request leaves nothing). -/
def requestSent (before after : Port) (cmd : Nat) : Prop :=
  ∃ p : List Nat, written before after = frame cmd p

/-! ### Queries that the device may reject -/

/-- The body shared, word for word up to the command and the name of the field, by
`Device::getHIDVendorID`, `Device::getHIDProductID` and `Device::getHIDVersionNumber`:
the packed local `data` is a status byte followed by a `uint16_t`; `value` is the
caller's variable behind the reference. -/
def getHIDWord (h : Port) (cmd : Nat) (value : Nat) : Nat × Nat × Port :=
  let s := sendPacket h cmd [] 0
  if s.1 ≠ Status.kSuccess then (s.1.toNat, value, s.2)
  else
    let r := recvPacket s.2 cmd [0, 0, 0] 3 (some 0)
    if r.status ≠ Status.kSuccess then (r.status.toNat, value, r.port)
    else
      let dataSize := r.dataSize.getD 0
      let dataStatus := r.buffer.getD 0 0
      if dataSize = 1 ∧ dataStatus ≠ Status.kSuccess.toNat then (dataStatus, value, r.port)
      else if dataSize ≠ 3 ∨ dataStatus ≠ Status.kSuccess.toNat then
        (Status.kInvalidResponsePacket.toNat, value, r.port)
      else (Status.kSuccess.toNat, uint16Of (r.buffer.getD 1 0) (r.buffer.getD 2 0), r.port)

/-- Embedding of `Device::getHIDVendorID`. -/
def getHIDVendorID (h : Port) (vendorID : Nat) : Nat × Nat × Port :=
  getHIDWord h Command.kGetVendorID vendorID

/-- Embedding of `Device::getHIDProductID`. -/
def getHIDProductID (h : Port) (productID : Nat) : Nat × Nat × Port :=
  getHIDWord h Command.kGetProductID productID

/-- Embedding of `Device::getHIDVersionNumber`. -/
def getHIDVersionNumber (h : Port) (versionNumber : Nat) : Nat × Nat × Port :=
  getHIDWord h Command.kGetVersionNumber versionNumber

/-- The body shared by `Device::getHIDManufacturerString` and
`Device::getHIDProductString`: the packed local `data` is a status byte followed by
`wchar_t[30 + 1]`, 63 bytes in all.  The conversion `wstrToStr` (a call of
`WideCharToMultiByte`) is a parameter.  `text` is the caller's string: `some t` when it
holds `t`, `none` when nothing is known of it, which is what the assignment of
`wstrToStr(data.str)` leaves when the array `data.str` holds no zero unit. -/
def getHIDString {α : Type} (wstrToStr : List Nat → α) (h : Port) (cmd : Nat)
    (text : Option α) : Nat × Option α × Port :=
  let s := sendPacket h cmd [] 0
  if s.1 ≠ Status.kSuccess then (s.1.toNat, text, s.2)
  else
    let r := recvPacket s.2 cmd (List.replicate 63 0) 63 (some 0)
    if r.status ≠ Status.kSuccess then (r.status.toNat, text, r.port)
    else
      let dataSize := r.dataSize.getD 0
      let dataStatus := r.buffer.getD 0 0
      if dataSize = 1 then (dataStatus, text, r.port)
      else if dataStatus ≠ Status.kSuccess.toNat then
        (Status.kInvalidResponsePacket.toNat, text, r.port)
      else (Status.kSuccess.toNat, (wcstr (wcharsOf (r.buffer.drop 1))).map wstrToStr, r.port)

/-- Embedding of `Device::getHIDManufacturerString`. -/
def getHIDManufacturerString {α : Type} (wstrToStr : List Nat → α) (h : Port)
    (manufacturerString : Option α) : Nat × Option α × Port :=
  getHIDString wstrToStr h Command.kGetManufacturerString manufacturerString

/-- Embedding of `Device::getHIDProductString`. -/
def getHIDProductString {α : Type} (wstrToStr : List Nat → α) (h : Port)
    (productString : Option α) : Nat × Option α × Port :=
  getHIDString wstrToStr h Command.kGetProductString productString

/-! ### Queries answered with bare data -/

/-- Embedding of `Device::getDeviceID`: the reply is read into the caller's variable. -/
def getDeviceID (h : Port) (deviceID : Nat) : Nat × Nat × Port :=
  let s := sendPacket h Command.kGetDeviceID [] 0
  if s.1 ≠ Status.kSuccess then (s.1.toNat, deviceID, s.2)
  else
    let r := recvPacket s.2 Command.kGetDeviceID (uint16Bytes deviceID) 2 none
    (r.status.toNat, uint16Of (r.buffer.getD 0 0) (r.buffer.getD 1 0), r.port)

/-- Embedding of `Device::getFirmwareVersion`. -/
def getFirmwareVersion (h : Port) (firmwareVersion : Nat) : Nat × Nat × Port :=
  let s := sendPacket h Command.kGetFirmwareVersion [] 0
  if s.1 ≠ Status.kSuccess then (s.1.toNat, firmwareVersion, s.2)
  else
    let r := recvPacket s.2 Command.kGetFirmwareVersion (uint16Bytes firmwareVersion) 2 none
    (r.status.toNat, uint16Of (r.buffer.getD 0 0) (r.buffer.getD 1 0), r.port)

/-- Embedding of `Device::getKeyState`; the `bool` behind `isDown` is given by its byte. -/
def getKeyState (h : Port) (key : Nat) (isDown : Nat) : Nat × Nat × Port :=
  let s := sendPacket h Command.kGetKeyState [virtualKeyCodeToHIDKeyCode key] 1
  if s.1 ≠ Status.kSuccess then (s.1.toNat, isDown, s.2)
  else
    let r := recvPacket s.2 Command.kGetKeyState [isDown] 1 none
    (r.status.toNat, r.buffer.getD 0 0, r.port)

/-- Embedding of `Device::getPos`. -/
def getPos (h : Port) (x y : Int) : Nat × Int × Int × Port :=
  let s := sendPacket h Command.kGetPos [] 0
  if s.1 ≠ Status.kSuccess then (s.1.toNat, x, y, s.2)
  else
    let r := recvPacket s.2 Command.kGetPos [0, 0, 0, 0] 4 none
    if r.status ≠ Status.kSuccess then (r.status.toNat, x, y, r.port)
    else (Status.kSuccess.toNat, int16Of (r.buffer.getD 0 0) (r.buffer.getD 1 0),
      int16Of (r.buffer.getD 2 0) (r.buffer.getD 3 0), r.port)

/-- Embedding of `Device::getWheelAxis`: the reply is read into the caller's variable. -/
def getWheelAxis (h : Port) (w : Int) : Nat × Int × Port :=
  let s := sendPacket h Command.kGetWheelAxis [] 0
  if s.1 ≠ Status.kSuccess then (s.1.toNat, w, s.2)
  else
    let r := recvPacket s.2 Command.kGetWheelAxis (int16Bytes w) 2 none
    (r.status.toNat, int16Of (r.buffer.getD 0 0) (r.buffer.getD 1 0), r.port)

/-- Embedding of `Device::getAxes`. -/
def getAxes (h : Port) (x y w : Int) : Nat × Int × Int × Int × Port :=
  let s := sendPacket h Command.kGetAxes [] 0
  if s.1 ≠ Status.kSuccess then (s.1.toNat, x, y, w, s.2)
  else
    let r := recvPacket s.2 Command.kGetAxes [0, 0, 0, 0, 0, 0] 6 none
    if r.status ≠ Status.kSuccess then (r.status.toNat, x, y, w, r.port)
    else (Status.kSuccess.toNat, int16Of (r.buffer.getD 0 0) (r.buffer.getD 1 0),
      int16Of (r.buffer.getD 2 0) (r.buffer.getD 3 0),
      int16Of (r.buffer.getD 4 0) (r.buffer.getD 5 0), r.port)

/-- Embedding of `Device::getDeviceSerialNumber`: the local `data` is a vector of 20
zero bytes. -/
def getDeviceSerialNumber (h : Port) (deviceSerialNumber : List Nat) :
    Nat × List Nat × Port :=
  let s := sendPacket h Command.kGetDeviceSerialNumber [] 0
  if s.1 ≠ Status.kSuccess then (s.1.toNat, deviceSerialNumber, s.2)
  else
    let r := recvPacket s.2 Command.kGetDeviceSerialNumber (List.replicate 20 0) 20 none
    if r.status ≠ Status.kSuccess then (r.status.toNat, deviceSerialNumber, r.port)
    else (Status.kSuccess.toNat, r.buffer, r.port)

/-- The request payload a call hands to `sendPacket`. -/
def ActionCall.payload {α : Type} (strToWstr : α → List Nat) : ActionCall α → List Nat
  | .reboot => []
  | .keyDown k => [virtualKeyCodeToHIDKeyCode k]
  | .keyUp k => [virtualKeyCodeToHIDKeyCode k]
  | .releaseAllKeys => []
  | .sendKeyboardState s m =>
    [m.modifierKeys % 256, regularKeysMask m.regularKeys, s.modifierKeys % 256] ++
      (List.range 7).map (fun i => virtualKeyCodeToHIDKeyCode (s.regularKeys.getD i 0))
  | .buttonDown b => [b % 256]
  | .buttonUp b => [b % 256]
  | .releaseAllButtons => []
  | .moveRel x y => int16Bytes x ++ int16Bytes y
  | .scrollRel w => int16Bytes w
  | .sendRelMouseState s m => [m % 256] ++ s.bytes
  | .initAbsSystem x y => int16Bytes x ++ int16Bytes y
  | .moveAbs x y => int16Bytes x ++ int16Bytes y
  | .scrollAbs w => int16Bytes w
  | .setPos x y => int16Bytes x ++ int16Bytes y
  | .setWheelAxis w => int16Bytes w
  | .setAxes x y w => int16Bytes x ++ int16Bytes y ++ int16Bytes w
  | .sendAbsMouseState s m => [m % 256] ++ s.bytes
  | .configHIDVendorID v => uint16Bytes v
  | .configHIDProductID v => uint16Bytes v
  | .configHIDVersionNumber v => uint16Bytes v
  | .configHIDManufacturerString s => wstrBytes (strToWstr s)
  | .configHIDProductString s => wstrBytes (strToWstr s)

/-- The host refuses the call before anything is sent (the `UINT8_MAX` guard of the
two `configHID…String` operations). -/
def ActionCall.refused {α : Type} (strToWstr : α → List Nat) : ActionCall α → Bool
  | .configHIDManufacturerString s => decide ((strToWstr s).length * 2 > 255)
  | .configHIDProductString s => decide ((strToWstr s).length * 2 > 255)
  | _ => false

/-- The named values of `Device::Command` other than the wildcard `kAny`, in the order
of the source. -/
def Command.enumerators : List Nat :=
  [Command.kReboot,
   Command.kKeyDown, Command.kKeyUp, Command.kReleaseAllKeys, Command.kGetKeyState,
   Command.kGetKeyboardLEDsState, Command.kGetKeyboardState, Command.kSendKeyboardState,
   Command.kButtonDown, Command.kButtonUp, Command.kReleaseAllButtons,
   Command.kGetButtonsState,
   Command.kMoveRel, Command.kScrollRel, Command.kGetRelMouseState,
   Command.kSendRelMouseState,
   Command.kInitAbsSystem, Command.kMoveAbs, Command.kScrollAbs, Command.kGetPos,
   Command.kSetPos, Command.kGetWheelAxis, Command.kSetWheelAxis, Command.kGetAxes,
   Command.kSetAxes, Command.kGetAbsMouseState, Command.kSendAbsMouseState,
   Command.kGetVendorID, Command.kGetProductID, Command.kGetVersionNumber,
   Command.kGetManufacturerString, Command.kGetProductString,
   Command.kConfigVendorID, Command.kConfigProductID, Command.kConfigVersionNumber,
   Command.kConfigManufacturerString, Command.kConfigProductString,
   Command.kGetDeviceID, Command.kGetDeviceSerialNumber, Command.kGetFirmwareVersion]

/-! ### The remaining state queries -/

/-- Embedding of `Device::getKeyboardLEDsState`; the one-byte bit-field structure behind
the reference is given by its byte, and the reply is read into it. -/
def getKeyboardLEDsState (h : Port) (keyboardLEDsState : Nat) : Nat × Nat × Port :=
  let s := sendPacket h Command.kGetKeyboardLEDsState [] 0
  if s.1 ≠ Status.kSuccess then (s.1.toNat, keyboardLEDsState, s.2)
  else
    let r := recvPacket s.2 Command.kGetKeyboardLEDsState [keyboardLEDsState] 1 none
    if r.status ≠ Status.kSuccess then (r.status.toNat, r.buffer.getD 0 0, r.port)
    else (Status.kSuccess.toNat, r.buffer.getD 0 0, r.port)

/-- Embedding of `Device::getKeyboardState`; the packed local `state` is the modifier
byte followed by seven HID key codes, all zero at first. -/
def getKeyboardState (h : Port) (keyboardState : KeyboardState) :
    Nat × KeyboardState × Port :=
  let s := sendPacket h Command.kGetKeyboardState [] 0
  if s.1 ≠ Status.kSuccess then (s.1.toNat, keyboardState, s.2)
  else
    let r := recvPacket s.2 Command.kGetKeyboardState [0, 0, 0, 0, 0, 0, 0, 0] 8 none
    if r.status ≠ Status.kSuccess then (r.status.toNat, keyboardState, r.port)
    else (Status.kSuccess.toNat,
      { modifierKeys := r.buffer.getD 0 0,
        regularKeys := (List.range 7).map
          (fun i => HIDKeyCodeToVirtualKeyCode (r.buffer.getD (1 + i) 0)) },
      r.port)

/-- Embedding of `Device::getButtonsState`; the packed one-byte structure behind the
reference is given by its byte, and the reply is read into it. -/
def getButtonsState (h : Port) (buttonsState : Nat) : Nat × Nat × Port :=
  let s := sendPacket h Command.kGetButtonsState [] 0
  if s.1 ≠ Status.kSuccess then (s.1.toNat, buttonsState, s.2)
  else
    let r := recvPacket s.2 Command.kGetButtonsState [buttonsState] 1 none
    if r.status ≠ Status.kSuccess then (r.status.toNat, r.buffer.getD 0 0, r.port)
    else (Status.kSuccess.toNat, r.buffer.getD 0 0, r.port)

/-- Embedding of `Device::getRelMouseState`: the reply is read into `mouseState.buttons`
and the axes are zeroed on success. -/
def getRelMouseState (h : Port) (mouseState : MouseState) : Nat × MouseState × Port :=
  let s := sendPacket h Command.kGetRelMouseState [] 0
  if s.1 ≠ Status.kSuccess then (s.1.toNat, mouseState, s.2)
  else
    let r := recvPacket s.2 Command.kGetRelMouseState [mouseState.buttons] 1 none
    if r.status ≠ Status.kSuccess then
      (r.status.toNat, { mouseState with buttons := r.buffer.getD 0 0 }, r.port)
    else (Status.kSuccess.toNat, { buttons := r.buffer.getD 0 0, x := 0, y := 0, w := 0 }, r.port)

/-- The `MouseState` held by seven bytes. -/
def MouseState.ofBytes (b : List Nat) : MouseState :=
  { buttons := b.getD 0 0,
    x := int16Of (b.getD 1 0) (b.getD 2 0),
    y := int16Of (b.getD 3 0) (b.getD 4 0),
    w := int16Of (b.getD 5 0) (b.getD 6 0) }

/-- Embedding of `Device::getAbsMouseState`: the reply is read into the packed
seven-byte `mouseState`. -/
def getAbsMouseState (h : Port) (mouseState : MouseState) : Nat × MouseState × Port :=
  let s := sendPacket h Command.kGetAbsMouseState [] 0
  if s.1 ≠ Status.kSuccess then (s.1.toNat, mouseState, s.2)
  else
    let r := recvPacket s.2 Command.kGetAbsMouseState mouseState.bytes 7 none
    if r.status ≠ Status.kSuccess then (r.status.toNat, MouseState.ofBytes r.buffer, r.port)
    else (Status.kSuccess.toNat, MouseState.ofBytes r.buffer, r.port)

/-! ### Calls of the public command operations -/

/-- A call of one of the query operations, with its arguments; for an argument passed
by reference the call holds the current value of the caller's variable (for a string,
`none` when nothing is known of it). -/
inductive QueryCall (α : Type)
  | getKeyState (key isDown : Nat)
  | getKeyboardLEDsState (keyboardLEDsState : Nat)
  | getKeyboardState (keyboardState : KeyboardState)
  | getButtonsState (buttonsState : Nat)
  | getRelMouseState (mouseState : MouseState)
  | getPos (x y : Int)
  | getWheelAxis (w : Int)
  | getAxes (x y w : Int)
  | getAbsMouseState (mouseState : MouseState)
  | getHIDVendorID (vendorID : Nat)
  | getHIDProductID (productID : Nat)
  | getHIDVersionNumber (versionNumber : Nat)
  | getHIDManufacturerString (manufacturerString : Option α)
  | getHIDProductString (productString : Option α)
  | getDeviceID (deviceID : Nat)
  | getFirmwareVersion (firmwareVersion : Nat)
  | getDeviceSerialNumber (deviceSerialNumber : List Nat)

/-- Running a query call: the operation of the same name on the given line; the call
returned holds the values of the caller's variables after the operation. -/
def QueryCall.run {α : Type} (wstrToStr : List Nat → α) (h : Port) :
    QueryCall α → Nat × QueryCall α × Port
  | .getKeyState k d =>
    let r := RX784.getKeyState h k d
    (r.1, .getKeyState k r.2.1, r.2.2)
  | .getKeyboardLEDsState v =>
    let r := RX784.getKeyboardLEDsState h v
    (r.1, .getKeyboardLEDsState r.2.1, r.2.2)
  | .getKeyboardState v =>
    let r := RX784.getKeyboardState h v
    (r.1, .getKeyboardState r.2.1, r.2.2)
  | .getButtonsState v =>
    let r := RX784.getButtonsState h v
    (r.1, .getButtonsState r.2.1, r.2.2)
  | .getRelMouseState v =>
    let r := RX784.getRelMouseState h v
    (r.1, .getRelMouseState r.2.1, r.2.2)
  | .getPos x y =>
    let r := RX784.getPos h x y
    (r.1, .getPos r.2.1 r.2.2.1, r.2.2.2)
  | .getWheelAxis w =>
    let r := RX784.getWheelAxis h w
    (r.1, .getWheelAxis r.2.1, r.2.2)
  | .getAxes x y w =>
    let r := RX784.getAxes h x y w
    (r.1, .getAxes r.2.1 r.2.2.1 r.2.2.2.1, r.2.2.2.2)
  | .getAbsMouseState v =>
    let r := RX784.getAbsMouseState h v
    (r.1, .getAbsMouseState r.2.1, r.2.2)
  | .getHIDVendorID v =>
    let r := RX784.getHIDVendorID h v
    (r.1, .getHIDVendorID r.2.1, r.2.2)
  | .getHIDProductID v =>
    let r := RX784.getHIDProductID h v
    (r.1, .getHIDProductID r.2.1, r.2.2)
  | .getHIDVersionNumber v =>
    let r := RX784.getHIDVersionNumber h v
    (r.1, .getHIDVersionNumber r.2.1, r.2.2)
  | .getHIDManufacturerString v =>
    let r := RX784.getHIDManufacturerString wstrToStr h v
    (r.1, .getHIDManufacturerString r.2.1, r.2.2)
  | .getHIDProductString v =>
    let r := RX784.getHIDProductString wstrToStr h v
    (r.1, .getHIDProductString r.2.1, r.2.2)
  | .getDeviceID v =>
    let r := RX784.getDeviceID h v
    (r.1, .getDeviceID r.2.1, r.2.2)
  | .getFirmwareVersion v =>
    let r := RX784.getFirmwareVersion h v
    (r.1, .getFirmwareVersion r.2.1, r.2.2)
  | .getDeviceSerialNumber v =>
    let r := RX784.getDeviceSerialNumber h v
    (r.1, .getDeviceSerialNumber r.2.1, r.2.2)

/-- The command id of the operation a query call names (the `Command` enumerator of
the same name, `kGet…` without `HID` for the `getHID…` operations). -/
def QueryCall.command {α : Type} : QueryCall α → Nat
  | .getKeyState _ _ => Command.kGetKeyState
  | .getKeyboardLEDsState _ => Command.kGetKeyboardLEDsState
  | .getKeyboardState _ => Command.kGetKeyboardState
  | .getButtonsState _ => Command.kGetButtonsState
  | .getRelMouseState _ => Command.kGetRelMouseState
  | .getPos _ _ => Command.kGetPos
  | .getWheelAxis _ => Command.kGetWheelAxis
  | .getAxes _ _ _ => Command.kGetAxes
  | .getAbsMouseState _ => Command.kGetAbsMouseState
  | .getHIDVendorID _ => Command.kGetVendorID
  | .getHIDProductID _ => Command.kGetProductID
  | .getHIDVersionNumber _ => Command.kGetVersionNumber
  | .getHIDManufacturerString _ => Command.kGetManufacturerString
  | .getHIDProductString _ => Command.kGetProductString
  | .getDeviceID _ => Command.kGetDeviceID
  | .getFirmwareVersion _ => Command.kGetFirmwareVersion
  | .getDeviceSerialNumber _ => Command.kGetDeviceSerialNumber

/-- The request payload a query call hands to `sendPacket`: none, except the HID key
code of `getKeyState`. -/
def QueryCall.payload {α : Type} : QueryCall α → List Nat
  | .getKeyState k _ => [virtualKeyCodeToHIDKeyCode k]
  | _ => []

/-- The buffer, its size and the length pointer a query call hands to `recvPacket`. -/
def QueryCall.recvArgs {α : Type} : QueryCall α → List Nat × Nat × Option Nat
  | .getKeyState _ d => ([d], 1, none)
  | .getKeyboardLEDsState v => ([v], 1, none)
  | .getKeyboardState _ => ([0, 0, 0, 0, 0, 0, 0, 0], 8, none)
  | .getButtonsState v => ([v], 1, none)
  | .getRelMouseState v => ([v.buttons], 1, none)
  | .getPos _ _ => ([0, 0, 0, 0], 4, none)
  | .getWheelAxis w => (int16Bytes w, 2, none)
  | .getAxes _ _ _ => ([0, 0, 0, 0, 0, 0], 6, none)
  | .getAbsMouseState v => (v.bytes, 7, none)
  | .getHIDVendorID _ => ([0, 0, 0], 3, some 0)
  | .getHIDProductID _ => ([0, 0, 0], 3, some 0)
  | .getHIDVersionNumber _ => ([0, 0, 0], 3, some 0)
  | .getHIDManufacturerString _ => (List.replicate 63 0, 63, some 0)
  | .getHIDProductString _ => (List.replicate 63 0, 63, some 0)
  | .getDeviceID v => (uint16Bytes v, 2, none)
  | .getFirmwareVersion v => (uint16Bytes v, 2, none)
  | .getDeviceSerialNumber _ => (List.replicate 20 0, 20, none)

/-- A call of any of the forty public command operations of `Device`. -/
inductive Call (α : Type)
  | action (a : ActionCall α)
  | query (q : QueryCall α)

/-- Running a call: the returned `Status`, the call with the values of the caller's
variables after the operation, and the line. -/
def Call.run {α : Type} (strToWstr : α → List Nat) (wstrToStr : List Nat → α) (h : Port) :
    Call α → Nat × Call α × Port
  | .action a => ((a.run strToWstr h).1, .action a, (a.run strToWstr h).2)
  | .query q =>
    ((q.run wstrToStr h).1, .query (q.run wstrToStr h).2.1, (q.run wstrToStr h).2.2)

/-- The command id of the operation a call names. -/
def Call.command {α : Type} : Call α → Nat
  | .action a => a.command
  | .query q => q.command

/-- The request write of an operation was made and failed: between the two states of
the line one write was logged, and it did not hand over a complete frame. -/
def requestFailed (before after : Port) : Prop :=
  after.tx.length = before.tx.length + 1 ∧ ∀ c : Nat, ¬ requestSent before after c

/-- The request payload a call hands to `sendPacket`. -/
def Call.payload {α : Type} (strToWstr : α → List Nat) : Call α → List Nat
  | .action a => a.payload strToWstr
  | .query q => q.payload

/-- The host refuses the call before anything is sent. -/
def Call.refused {α : Type} (strToWstr : α → List Nat) : Call α → Bool
  | .action a => a.refused strToWstr
  | .query _ => false

/-- The buffer, its size and the length pointer a call hands to `recvPacket`; an
action operation reads into its one-byte `cmdStatus`. -/
def Call.recvArgs {α : Type} : Call α → List Nat × Nat × Option Nat
  | .action _ => ([0], 1, none)
  | .query q => q.recvArgs

/-- A `switch` over case labels in the form in which the proofs evaluate it: the value
of the first case whose label is `code`, else `default`.  The two key lookups above
are equal to it on their case lists (`switchOn_eq`). -/
def switchOn (cases : List (Nat × Nat)) (default code : Nat) : Nat :=
  @List.rec (Nat × Nat) (fun _ => Nat) default
    (fun e _ found => @Bool.rec (fun _ => Nat) found e.2 (Nat.beq e.1 code)) cases

/-- Whether `k` is one of the listed values, in the form in which the proofs evaluate
it (`named_iff`). -/
def named (enumerators : List Nat) (k : Nat) : Bool :=
  @List.rec Nat (fun _ => Bool) false
    (fun e _ found => @Bool.rec (fun _ => Bool) found true (Nat.beq e k)) enumerators

/-! ### Status names and bytes taken from the line -/

/-- The exception `std::out_of_range` with the message it carries. -/
structure out_of_range where
  what : String
  deriving DecidableEq

/-- Embedding of `statusToString`.  `Status` is an enumeration over `uint8_t`, so the
argument is a byte; the `default` label streams `static_cast<int8_t>(status)`, a
character type, into the message and throws. -/
def statusToString (status : Nat) : Except out_of_range String :=
  if status = Status.kSuccess.toNat then .ok "RX784::Status::kSuccess"
  else if status = Status.kSerialError.toNat then .ok "RX784::Status::kSerialError"
  else if status = Status.kReadFlashError.toNat then .ok "RX784::Status::kReadFlashError"
  else if status = Status.kWriteFlashError.toNat then .ok "RX784::Status::kWriteFlashError"
  else if status = Status.kInvalidSize.toNat then .ok "RX784::Status::kInvalidSize"
  else if status = Status.kInvalidCommandPacket.toNat then
    .ok "RX784::Status::kInvalidCommandPacket"
  else if status = Status.kInvalidResponsePacket.toNat then
    .ok "RX784::Status::kInvalidResponsePacket"
  else
    .error ⟨String.singleton (Char.ofNat status) ++ " is not a valid RX784::Status"⟩

/-- The number of bytes taken from the incoming stream between two states of the port. -/
def consumed (before after : Port) : Nat :=
  before.rx.length - after.rx.length

/-! ## Reading from the line -/

theorem serialRecvByte_cons (b : Nat) (rest : List Nat) (tx : List (List Nat)) (room v : Nat) :
    serialRecvByte ⟨b :: rest, tx, room⟩ v = (true, b, ⟨rest, tx, room⟩) := by
  simp [serialRecvByte, serialRecv, ReadFile, memcpy]

theorem serialRecvByte_nil (tx : List (List Nat)) (room v : Nat) :
    serialRecvByte ⟨[], tx, room⟩ v = (false, v, ⟨[], tx, room⟩) := by
  simp [serialRecvByte, serialRecv, ReadFile, memcpy]

theorem serialRecv_append (data rest buffer : List Nat) (tx : List (List Nat)) (room : Nat) :
    serialRecv ⟨data ++ rest, tx, room⟩ buffer data.length =
      (true, data ++ buffer.drop data.length, ⟨rest, tx, room⟩) := by
  simp [serialRecv, ReadFile, memcpy]

theorem serialRecv_short (rx buffer : List Nat) (tx : List (List Nat)) (room n : Nat)
    (hn : rx.length < n) :
    serialRecv ⟨rx, tx, room⟩ buffer n = (false, rx ++ buffer.drop rx.length, ⟨[], tx, room⟩) := by
  have h1 : rx.take n = rx := List.take_of_length_le (Nat.le_of_lt hn)
  have h2 : rx.drop n = [] := List.drop_of_length_le (Nat.le_of_lt hn)
  simp [serialRecv, ReadFile, memcpy, h1, h2]
  omega

/-! ## The head scan -/

theorem recvPacketHeadLoop_found (rest : List Nat) (tx : List (List Nat)) (room : Nat) :
    ∀ (n : Nat) (g : List Nat) (v : Nat), (∀ b ∈ g, b ≠ 0xBE) → g.length < n →
      recvPacketHeadLoop n v ⟨g ++ 0xBE :: rest, tx, room⟩ =
        (Status.kSuccess, ⟨rest, tx, room⟩) := by
  intro n
  induction n with
  | zero => intro g v _ hlen; omega
  | succ n ih =>
    intro g v hg hlen
    cases g with
    | nil => simp [recvPacketHeadLoop, serialRecvByte_cons]
    | cons a g =>
      have ha : a ≠ 0xBE := hg a (List.mem_cons_self a g)
      have hg2 : ∀ b ∈ g, b ≠ 0xBE := fun b hb => hg b (List.mem_cons_of_mem a hb)
      have hlen2 : g.length < n := by simp at hlen; omega
      simp [recvPacketHeadLoop, serialRecvByte_cons, ha, ih g a hg2 hlen2]

theorem recvPacketHeadLoop_short (tx : List (List Nat)) (room : Nat) :
    ∀ (n : Nat) (g : List Nat) (v : Nat), (∀ b ∈ g, b ≠ 0xBE) → g.length < n →
      recvPacketHeadLoop n v ⟨g, tx, room⟩ = (Status.kSerialError, ⟨[], tx, room⟩) := by
  intro n
  induction n with
  | zero => intro g v _ hlen; omega
  | succ n ih =>
    intro g v hg hlen
    cases g with
    | nil => simp [recvPacketHeadLoop, serialRecvByte_nil]
    | cons a g =>
      have ha : a ≠ 0xBE := hg a (List.mem_cons_self a g)
      have hg2 : ∀ b ∈ g, b ≠ 0xBE := fun b hb => hg b (List.mem_cons_of_mem a hb)
      have hlen2 : g.length < n := by simp at hlen; omega
      simp [recvPacketHeadLoop, serialRecvByte_cons, ha, ih g a hg2 hlen2]

theorem recvPacketHeadLoop_exhausted (rest : List Nat) (tx : List (List Nat)) (room : Nat) :
    ∀ (n : Nat) (g : List Nat) (v : Nat), (∀ b ∈ g, b ≠ 0xBE) → g.length = n →
      recvPacketHeadLoop n v ⟨g ++ rest, tx, room⟩ =
        (Status.kInvalidResponsePacket, ⟨rest, tx, room⟩) := by
  intro n
  induction n with
  | zero =>
    intro g v _ hlen
    have : g = [] := List.length_eq_zero.mp hlen
    simp [recvPacketHeadLoop, this]
  | succ n ih =>
    intro g v hg hlen
    cases g with
    | nil => simp at hlen
    | cons a g =>
      have ha : a ≠ 0xBE := hg a (List.mem_cons_self a g)
      have hg2 : ∀ b ∈ g, b ≠ 0xBE := fun b hb => hg b (List.mem_cons_of_mem a hb)
      have hlen2 : g.length = n := by simp at hlen; omega
      simp [recvPacketHeadLoop, serialRecvByte_cons, ha, ih g a hg2 hlen2]

/-! ## The reply decoder on a framed stream -/

theorem recvPacket_framed (g p rest buffer : List Nat) (tx : List (List Nat))
    (room cmd r t bufferSize : Nat) (dataSize : Option Nat)
    (hg : ∀ b ∈ g, b ≠ 0xBE) (hlen : g.length < 64) (hr : r = cmd ∨ r = kAny)
    (hp : p.length ≤ bufferSize) :
    recvPacket ⟨g ++ 0xBE :: r :: p.length :: (p ++ t :: rest), tx, room⟩ cmd buffer
        bufferSize dataSize =
      afterPayload t p buffer bufferSize dataSize ⟨rest, tx, room⟩ := by
  have hcmd : ¬ (r ≠ cmd ∧ r ≠ kAny) := by
    rcases hr with h | h <;> simp [h]
  have hfit : ¬ (p.length > bufferSize) := by omega
  unfold recvPacket recvPacketHead
  rw [recvPacketHeadLoop_found _ tx room 64 g 0 hg hlen]
  simp only [serialRecvByte_cons, ne_eq, not_true_eq_false, if_false, Bool.not_true,
    hcmd, hfit, Bool.false_eq_true]
  by_cases h0 : p.length = 0
  · have hnil : p = [] := List.length_eq_zero.mp h0
    subst hnil
    simp [afterPayload, serialRecvByte_cons]
  · simp only [h0, not_false_eq_true, if_true, serialRecv_append, Bool.not_true,
      Bool.false_eq_true, if_false, serialRecvByte_cons, afterPayload, ne_eq]

/-! ## The request encoder -/

theorem drop_header_zeros (a b c n : Nat) :
    List.drop (3 + n) (a :: b :: c :: List.replicate (n + 1) 0) = [0] := by
  rw [show 3 + n = n + 1 + 1 + 1 by omega]
  simp [List.drop_replicate]

theorem packet_layout (c : Nat) (p : List Nat) :
    (memcpy ((((List.replicate (4 + p.length) 0).set 0 0xBE).set 1 c).set 2 p.length) 3 p
        p.length).set (4 + p.length - 1) 0xED = frame c p := by
  have hrep : List.replicate (4 + p.length) 0 = 0 :: 0 :: 0 :: List.replicate (p.length + 1) 0 := by
    rw [show 4 + p.length = (p.length + 1) + 1 + 1 + 1 by omega]
    simp [List.replicate_succ]
  have hcopy : memcpy (0xBE :: c :: p.length :: List.replicate (p.length + 1) 0) 3 p p.length
      = ([0xBE, c, p.length] ++ p) ++ [0] := by
    simp [memcpy, drop_header_zeros]
  have hidx : 4 + p.length - 1 = ([0xBE, c, p.length] ++ p).length := by
    simp; omega
  rw [hrep]
  simp only [List.set_cons_zero, List.set_cons_succ]
  rw [hcopy, hidx, List.set_append_right _ _ (Nat.le_refl _)]
  simp [frame]

theorem frame_length (c : Nat) (p : List Nat) : (frame c p).length = p.length + 4 := by
  simp [frame]

theorem sendPacket_eq (h : Port) (c : Nat) (p : List Nat) (hc : c < 256)
    (hp : p.length ≤ 255) :
    sendPacket h c p p.length =
      (if p.length + 4 ≤ h.txRoom then Status.kSuccess else Status.kSerialError,
        { h with tx := h.tx ++ [(frame c p).take h.txRoom],
                 txRoom := h.txRoom - min (p.length + 4) h.txRoom }) := by
  have h1 : p.length % 256 = p.length := Nat.mod_eq_of_lt (by omega)
  have h2 : (4 + p.length) % 2 ^ 32 = 4 + p.length := Nat.mod_eq_of_lt (by omega)
  have h3 : c % 256 = c := Nat.mod_eq_of_lt hc
  have h4 : (frame c p).take (4 + p.length) = frame c p :=
    List.take_of_length_le (by rw [frame_length]; omega)
  unfold sendPacket serialSend WriteFile
  simp only [h1, h2, h3, packet_layout, h4, List.length_take, frame_length]
  by_cases hroom : p.length + 4 ≤ h.txRoom
  · simp [hroom, Nat.min_eq_left hroom, Nat.add_comm]
  · have hlt : h.txRoom < p.length + 4 := by omega
    have hne : ¬ (h.txRoom = 4 + p.length) := by omega
    have hmin : min h.txRoom (p.length + 4) = h.txRoom := Nat.min_eq_left (Nat.le_of_lt hlt)
    simp [hroom, Nat.min_eq_right (Nat.le_of_lt hlt), hmin, hne]

/-! ## The reply decoder on a stream that ends too early -/

theorem recvPacket_garbage_only (g buffer : List Nat) (tx : List (List Nat))
    (room cmd bufferSize : Nat) (dataSize : Option Nat)
    (hg : ∀ b ∈ g, b ≠ 0xBE) (hlen : g.length < 64) :
    recvPacket ⟨g, tx, room⟩ cmd buffer bufferSize dataSize =
      ⟨Status.kSerialError, buffer, dataSize, ⟨[], tx, room⟩⟩ := by
  unfold recvPacket recvPacketHead
  rw [recvPacketHeadLoop_short tx room 64 g 0 hg hlen]
  simp

theorem recvPacket_head_only (g buffer : List Nat) (tx : List (List Nat))
    (room cmd bufferSize : Nat) (dataSize : Option Nat)
    (hg : ∀ b ∈ g, b ≠ 0xBE) (hlen : g.length < 64) :
    recvPacket ⟨g ++ [0xBE], tx, room⟩ cmd buffer bufferSize dataSize =
      ⟨Status.kSerialError, buffer, dataSize, ⟨[], tx, room⟩⟩ := by
  unfold recvPacket recvPacketHead
  rw [recvPacketHeadLoop_found [] tx room 64 g 0 hg hlen]
  simp [serialRecvByte_nil]

theorem recvPacket_no_length (g buffer : List Nat) (tx : List (List Nat))
    (room cmd r bufferSize : Nat) (dataSize : Option Nat)
    (hg : ∀ b ∈ g, b ≠ 0xBE) (hlen : g.length < 64) (hr : r = cmd ∨ r = kAny) :
    recvPacket ⟨g ++ [0xBE, r], tx, room⟩ cmd buffer bufferSize dataSize =
      ⟨Status.kSerialError, buffer, dataSize, ⟨[], tx, room⟩⟩ := by
  have hcmd : ¬ (r ≠ cmd ∧ r ≠ kAny) := by
    rcases hr with h | h <;> simp [h]
  unfold recvPacket recvPacketHead
  rw [recvPacketHeadLoop_found [r] tx room 64 g 0 hg hlen]
  simp [serialRecvByte_cons, serialRecvByte_nil, hcmd]

theorem recvPacket_no_tail (g q buffer : List Nat) (tx : List (List Nat))
    (room cmd r n bufferSize : Nat) (dataSize : Option Nat)
    (hg : ∀ b ∈ g, b ≠ 0xBE) (hlen : g.length < 64) (hr : r = cmd ∨ r = kAny)
    (hn : n ≤ bufferSize) (hq : q.length ≤ n) :
    recvPacket ⟨g ++ 0xBE :: r :: n :: q, tx, room⟩ cmd buffer bufferSize dataSize =
      ⟨Status.kSerialError, q ++ buffer.drop q.length, dataSize, ⟨[], tx, room⟩⟩ := by
  have hcmd : ¬ (r ≠ cmd ∧ r ≠ kAny) := by
    rcases hr with h | h <;> simp [h]
  have hfit : ¬ (n > bufferSize) := by omega
  unfold recvPacket recvPacketHead
  rw [recvPacketHeadLoop_found _ tx room 64 g 0 hg hlen]
  simp only [serialRecvByte_cons, ne_eq, not_true_eq_false, if_false, Bool.not_true,
    hcmd, hfit, Bool.false_eq_true]
  by_cases h0 : n = 0
  · have hnil : q = [] := List.length_eq_zero.mp (by omega)
    subst hnil
    simp [h0, serialRecvByte_nil]
  · by_cases hfull : q.length = n
    · subst hfull
      have := serialRecv_append q [] buffer tx room
      simp only [List.append_nil] at this
      simp [h0, this, serialRecvByte_nil]
    · have hlt : q.length < n := by omega
      simp [h0, serialRecv_short q buffer tx room n hlt]


theorem written_sendPacket (h : Port) (c : Nat) (p : List Nat) (hc : c < 256)
    (hp : p.length ≤ 255) (hroom : p.length + 4 ≤ h.txRoom) :
    written h (sendPacket h c p p.length).2 = frame c p := by
  have hfull : (frame c p).take h.txRoom = frame c p :=
    List.take_of_length_le (by rw [frame_length]; exact hroom)
  rw [sendPacket_eq h c p hc hp]
  simp [written, hfull]

/-! ## The wire format -/

/-- C1 (round trip).  For a command id `c < 256` and a payload `p` of at most 255
bytes, `sendPacket` succeeds on a line that takes the frame, and `recvPacket` with
expected command `c`, run on exactly the bytes that call wrote, returns `kSuccess`
with `p` at the start of the buffer: in return-length mode for every capacity
`bufferSize ≥ p.length`, reporting the length `p.length`, and in exact mode for
capacity `p.length`. -/
theorem C1_round_trip (h line : Port) (c : Nat) (p buffer : List Nat) (bufferSize v : Nat)
    (hc : c < 256) (hp : p.length ≤ 255) (hroom : p.length + 4 ≤ h.txRoom)
    (hline : line.rx = written h (sendPacket h c p p.length).2)
    (hcap : p.length ≤ bufferSize) :
    (sendPacket h c p p.length).1 = Status.kSuccess ∧
    recvPacket line c buffer bufferSize (some v) =
      ⟨Status.kSuccess, p ++ buffer.drop p.length, some p.length, { line with rx := [] }⟩ ∧
    recvPacket line c buffer p.length none =
      ⟨Status.kSuccess, p ++ buffer.drop p.length, none, { line with rx := [] }⟩ := by
  obtain ⟨rx, tx, room⟩ := line
  simp only at hline
  rw [written_sendPacket h c p hc hp hroom] at hline
  subst hline
  have hdec := fun (n : Nat) (hn : p.length ≤ n) (ds : Option Nat) =>
    recvPacket_framed [] p [] buffer tx room c c 0xED n ds (by simp) (by simp) (Or.inl rfl) hn
  simp only [List.nil_append] at hdec
  refine ⟨?_, ?_, ?_⟩
  · rw [sendPacket_eq h c p hc hp]; simp [hroom]
  · have := hdec bufferSize hcap (some v)
    simpa [frame, afterPayload] using this
  · have := hdec p.length (Nat.le_refl _) none
    simpa [frame, afterPayload] using this

theorem C1_round_trip_witness :
    (sendPacket ⟨[], [], 16⟩ 11 [4, 5] 2).1 = Status.kSuccess ∧
    recvPacket ⟨[0xBE, 11, 2, 4, 5, 0xED], [], 0⟩ 11 [9, 9, 9] 3 (some 0) =
      ⟨Status.kSuccess, [4, 5, 9], some 2, ⟨[], [], 0⟩⟩ ∧
    recvPacket ⟨[0xBE, 11, 2, 4, 5, 0xED], [], 0⟩ 11 [9, 9, 9] 2 none =
      ⟨Status.kSuccess, [4, 5, 9], none, ⟨[], [], 0⟩⟩ :=
  C1_round_trip ⟨[], [], 16⟩ ⟨[0xBE, 11, 2, 4, 5, 0xED], [], 0⟩ 11 [4, 5] [9, 9, 9] 3 0
    (by decide) (by decide) (by decide) (by decide) (by decide)

/-- C2 (frame layout).  For a command id `c < 256` and a payload `p` of `n ≤ 255`
bytes, `sendPacket` on a line that takes `n + 4` bytes returns `kSuccess` and adds
exactly one write to the line, the `n + 4` bytes `[0xBE, c, n] ++ p ++ [0xED]`. -/
theorem C2_frame_layout (h : Port) (c : Nat) (p : List Nat) (hc : c < 256)
    (hp : p.length ≤ 255) (hroom : p.length + 4 ≤ h.txRoom) :
    sendPacket h c p p.length =
      (Status.kSuccess,
        { h with tx := h.tx ++ [[0xBE, c, p.length] ++ p ++ [0xED]],
                 txRoom := h.txRoom - (p.length + 4) }) ∧
    ([0xBE, c, p.length] ++ p ++ [0xED]).length = p.length + 4 := by
  have hfull : (frame c p).take h.txRoom = frame c p :=
    List.take_of_length_le (by rw [frame_length]; exact hroom)
  refine ⟨?_, by simp⟩
  rw [sendPacket_eq h c p hc hp, hfull]
  simp [hroom, frame, Nat.min_eq_left hroom]

theorem C2_frame_layout_witness :
    sendPacket ⟨[], [], 8⟩ 11 [0x04] 1 =
      (Status.kSuccess, ⟨[], [[0xBE, 0x0B, 0x01, 0x04, 0xED]], 3⟩) ∧
    ([0xBE, 0x0B, 0x01, 0x04, 0xED] : List Nat).length = 5 :=
  C2_frame_layout ⟨[], [], 8⟩ 11 [0x04] (by decide) (by decide) (by decide)

/-- C3 (resynchronisation inside the window).  For `k < 64` bytes `g`, none of them
`0xBE`, followed by the frame `[0xBE, c, L] ++ p ++ [0xED]` (`L = p.length`) of the
expected command `c` with `L ≤ bufferSize`, `recvPacket` discards `g`, returns
`kSuccess` with `p` at the start of the buffer and the length `L`, and leaves on the
line what followed the frame; in exact mode the same holds for capacity `L`. -/
theorem C3_resync_within_window (h : Port) (g p rest buffer : List Nat)
    (c bufferSize v : Nat) (hg : ∀ b ∈ g, b ≠ 0xBE) (hk : g.length < 64)
    (hp : p.length ≤ bufferSize)
    (hrx : h.rx = g ++ ([0xBE, c, p.length] ++ p ++ [0xED]) ++ rest) :
    recvPacket h c buffer bufferSize (some v) =
      ⟨Status.kSuccess, p ++ buffer.drop p.length, some p.length, { h with rx := rest }⟩ ∧
    recvPacket h c buffer p.length none =
      ⟨Status.kSuccess, p ++ buffer.drop p.length, none, { h with rx := rest }⟩ := by
  obtain ⟨rx, tx, room⟩ := h
  simp only at hrx
  subst hrx
  have hdec := fun (n : Nat) (hn : p.length ≤ n) (ds : Option Nat) =>
    recvPacket_framed g p rest buffer tx room c c 0xED n ds hg hk (Or.inl rfl) hn
  constructor
  · have := hdec bufferSize hp (some v)
    simpa [afterPayload] using this
  · have := hdec p.length (Nat.le_refl _) none
    simpa [afterPayload] using this

theorem C3_resync_within_window_witness :
    recvPacket ⟨List.replicate 63 0 ++ ([0xBE, 11, 1] ++ [7] ++ [0xED]) ++ [5], [], 0⟩ 11
        [0, 0] 2 (some 0) = ⟨Status.kSuccess, [7, 0], some 1, ⟨[5], [], 0⟩⟩ ∧
    recvPacket ⟨List.replicate 63 0 ++ ([0xBE, 11, 1] ++ [7] ++ [0xED]) ++ [5], [], 0⟩ 11
        [0, 0] 1 none = ⟨Status.kSuccess, [7, 0], none, ⟨[5], [], 0⟩⟩ :=
  C3_resync_within_window ⟨List.replicate 63 0 ++ ([0xBE, 11, 1] ++ [7] ++ [0xED]) ++ [5], [], 0⟩
    (List.replicate 63 0) [7] [5] [0, 0] 11 2 0 (by decide) (by decide) (by decide) rfl

/-- C4 (resynchronisation window exhausted).  When the line holds at least 64 bytes
and none of the first 64 is `0xBE`, `recvPacket` returns `kInvalidResponsePacket`
whatever follows; it has read exactly those 64 bytes and stored nothing. -/
theorem C4_resync_window_exhausted (h : Port) (cmd : Nat) (buffer : List Nat)
    (bufferSize : Nat) (dataSize : Option Nat) (hlen : 64 ≤ h.rx.length)
    (hno : ∀ b ∈ h.rx.take 64, b ≠ 0xBE) :
    recvPacket h cmd buffer bufferSize dataSize =
      ⟨Status.kInvalidResponsePacket, buffer, dataSize, { h with rx := h.rx.drop 64 }⟩ := by
  obtain ⟨rx, tx, room⟩ := h
  simp only at hlen hno ⊢
  have hsplit : rx = rx.take 64 ++ rx.drop 64 := (List.take_append_drop 64 rx).symm
  have htake : (rx.take 64).length = 64 := by
    rw [List.length_take]; omega
  have hloop := recvPacketHeadLoop_exhausted (rx.drop 64) tx room 64 (rx.take 64) 0 hno htake
  rw [← hsplit] at hloop
  unfold recvPacket recvPacketHead
  rw [hloop]
  simp

theorem C4_resync_window_exhausted_witness :
    recvPacket ⟨List.replicate 70 0 ++ [0xBE, 11, 1, 0, 0xED], [], 0⟩ 11 [9] 1 none =
      ⟨Status.kInvalidResponsePacket, [9], none,
        ⟨List.replicate 6 0 ++ [0xBE, 11, 1, 0, 0xED], [], 0⟩⟩ :=
  C4_resync_window_exhausted ⟨List.replicate 70 0 ++ [0xBE, 11, 1, 0, 0xED], [], 0⟩ 11 [9] 1
    none (by decide) (by decide)

theorem recvPacket_wrong_command (g rest buffer : List Nat) (tx : List (List Nat))
    (room cmd r bufferSize : Nat) (dataSize : Option Nat)
    (hg : ∀ b ∈ g, b ≠ 0xBE) (hlen : g.length < 64) (hne : r ≠ cmd) (hany : r ≠ kAny) :
    recvPacket ⟨g ++ 0xBE :: r :: rest, tx, room⟩ cmd buffer bufferSize dataSize =
      ⟨Status.kInvalidResponsePacket, buffer, dataSize, ⟨rest, tx, room⟩⟩ := by
  unfold recvPacket recvPacketHead
  rw [recvPacketHeadLoop_found _ tx room 64 g 0 hg hlen]
  simp [serialRecvByte_cons, hne, hany]

/-- C5 (command-id check).  Once the head has been found (after `k < 64` bytes `g`
other than `0xBE`), the byte `r` read as command id is accepted exactly when it is
the expected command `e` or the wildcard `kAny = 0`: for every other `r` the result
is `kInvalidResponsePacket` whatever bytes follow (nothing more is read, nothing is
stored), and some continuation of the stream decodes with `kSuccess` if and only if
`r = e` or `r = 0`. -/
theorem C5_command_id_check (g : List Nat) (tx : List (List Nat)) (room e r : Nat)
    (hg : ∀ b ∈ g, b ≠ 0xBE) (hk : g.length < 64) :
    (r ≠ e → r ≠ 0 → ∀ (rest buffer : List Nat) (bufferSize : Nat) (dataSize : Option Nat),
      recvPacket ⟨g ++ 0xBE :: r :: rest, tx, room⟩ e buffer bufferSize dataSize =
        ⟨Status.kInvalidResponsePacket, buffer, dataSize, ⟨rest, tx, room⟩⟩) ∧
    ((∃ (rest buffer : List Nat) (bufferSize : Nat) (dataSize : Option Nat),
        (recvPacket ⟨g ++ 0xBE :: r :: rest, tx, room⟩ e buffer bufferSize dataSize).status =
          Status.kSuccess) ↔ (r = e ∨ r = 0)) := by
  have hrej : r ≠ e → r ≠ 0 → ∀ (rest buffer : List Nat) (bufferSize : Nat)
      (dataSize : Option Nat),
      recvPacket ⟨g ++ 0xBE :: r :: rest, tx, room⟩ e buffer bufferSize dataSize =
        ⟨Status.kInvalidResponsePacket, buffer, dataSize, ⟨rest, tx, room⟩⟩ :=
    fun hne hany rest buffer bufferSize dataSize =>
      recvPacket_wrong_command g rest buffer tx room e r bufferSize dataSize hg hk hne hany
  refine ⟨hrej, ?_, ?_⟩
  · rintro ⟨rest, buffer, bufferSize, dataSize, hok⟩
    by_contra hnot
    have hne : r ≠ e := fun h => hnot (Or.inl h)
    have hany : r ≠ 0 := fun h => hnot (Or.inr h)
    rw [hrej hne hany rest buffer bufferSize dataSize] at hok
    simp at hok
  · intro hr
    refine ⟨[0, 0xED], [], 0, none, ?_⟩
    have := recvPacket_framed g [] [] [] tx room e r 0xED 0 none hg hk hr (Nat.le_refl _)
    simp only [List.length_nil, List.nil_append] at this
    rw [this]
    simp [afterPayload]

theorem C5_command_id_check_witness :
    ((12 : Nat) ≠ 11 → (12 : Nat) ≠ 0 →
      ∀ (rest buffer : List Nat) (bufferSize : Nat) (dataSize : Option Nat),
      recvPacket ⟨[1, 2] ++ 0xBE :: 12 :: rest, [], 0⟩ 11 buffer bufferSize dataSize =
        ⟨Status.kInvalidResponsePacket, buffer, dataSize, ⟨rest, [], 0⟩⟩) ∧
    ((∃ (rest buffer : List Nat) (bufferSize : Nat) (dataSize : Option Nat),
        (recvPacket ⟨[1, 2] ++ 0xBE :: 12 :: rest, [], 0⟩ 11 buffer bufferSize dataSize).status =
          Status.kSuccess) ↔ ((12 : Nat) = 11 ∨ (12 : Nat) = 0)) :=
  C5_command_id_check [1, 2] [] 0 11 12 (by decide) (by decide)

/-- C6 (tail check).  After `k < 64` bytes other than `0xBE`, a head, an accepted
command id (`e` or `0`), a length byte `L ≤ bufferSize` and `L` payload bytes `p`,
a next byte `t ≠ 0xED` makes `recvPacket` return `kInvalidResponsePacket`, for every
payload `p`, in both length modes. -/
theorem C6_tail_check (g p rest buffer : List Nat) (tx : List (List Nat))
    (room e r t bufferSize : Nat) (dataSize : Option Nat)
    (hg : ∀ b ∈ g, b ≠ 0xBE) (hk : g.length < 64) (hr : r = e ∨ r = 0)
    (hp : p.length ≤ bufferSize) (ht : t ≠ 0xED) :
    (recvPacket ⟨g ++ 0xBE :: r :: p.length :: (p ++ t :: rest), tx, room⟩ e buffer
        bufferSize dataSize).status = Status.kInvalidResponsePacket := by
  rw [recvPacket_framed g p rest buffer tx room e r t bufferSize dataSize hg hk hr hp]
  simp [afterPayload, ht]

theorem C6_tail_check_witness :
    (recvPacket ⟨[3] ++ 0xBE :: 11 :: [4, 5].length :: ([4, 5] ++ 0xEE :: [0xED]), [], 0⟩ 11
        [0, 0] 2 none).status = Status.kInvalidResponsePacket :=
  C6_tail_check [3] [4, 5] [0xED] [0, 0] [] 0 11 11 0xEE 2 none (by decide) (by decide)
    (by decide) (by decide) (by decide)

/-- C7 (a capacity violation reads no payload).  When the length byte `L` of a frame
with an accepted command id is larger than `bufferSize`, `recvPacket` does not
return `kSuccess`, the line still holds every byte that followed the length byte,
and the buffer and the length cell are as the caller passed them. -/
theorem C7_capacity_violation_reads_nothing (g rest buffer : List Nat)
    (tx : List (List Nat)) (room e r L bufferSize : Nat) (dataSize : Option Nat)
    (hg : ∀ b ∈ g, b ≠ 0xBE) (hk : g.length < 64) (hr : r = e ∨ r = 0)
    (hL : bufferSize < L) :
    (recvPacket ⟨g ++ 0xBE :: r :: L :: rest, tx, room⟩ e buffer bufferSize dataSize).status ≠
      Status.kSuccess ∧
    (recvPacket ⟨g ++ 0xBE :: r :: L :: rest, tx, room⟩ e buffer bufferSize dataSize).port =
      ⟨rest, tx, room⟩ ∧
    (recvPacket ⟨g ++ 0xBE :: r :: L :: rest, tx, room⟩ e buffer bufferSize dataSize).buffer =
      buffer ∧
    (recvPacket ⟨g ++ 0xBE :: r :: L :: rest, tx, room⟩ e buffer bufferSize dataSize).dataSize =
      dataSize := by
  have hcmd : ¬ (r ≠ e ∧ r ≠ kAny) := by
    rcases hr with h | h <;> simp [h, kAny]
  have hres : recvPacket ⟨g ++ 0xBE :: r :: L :: rest, tx, room⟩ e buffer bufferSize dataSize =
      ⟨Status.kSerialError, buffer, dataSize, ⟨rest, tx, room⟩⟩ := by
    unfold recvPacket recvPacketHead
    rw [recvPacketHeadLoop_found _ tx room 64 g 0 hg hk]
    simp [serialRecvByte_cons, hcmd, hL]
  rw [hres]
  simp

theorem C7_capacity_violation_reads_nothing_witness :
    (recvPacket ⟨[] ++ 0xBE :: 11 :: 2 :: [4, 5, 0xED], [], 0⟩ 11 [9] 1 none).status ≠
      Status.kSuccess ∧
    (recvPacket ⟨[] ++ 0xBE :: 11 :: 2 :: [4, 5, 0xED], [], 0⟩ 11 [9] 1 none).port =
      ⟨[4, 5, 0xED], [], 0⟩ ∧
    (recvPacket ⟨[] ++ 0xBE :: 11 :: 2 :: [4, 5, 0xED], [], 0⟩ 11 [9] 1 none).buffer = [9] ∧
    (recvPacket ⟨[] ++ 0xBE :: 11 :: 2 :: [4, 5, 0xED], [], 0⟩ 11 [9] 1 none).dataSize = none :=
  C7_capacity_violation_reads_nothing [] [4, 5, 0xED] [9] [] 0 11 11 2 1 none (by decide)
    (by decide) (by decide) (by decide)

/-- C8 (length modes).  For a reply with a head, an accepted command id, `L`
payload bytes `p` with `L ≤ bufferSize` and the tail `0xED`: in return-length mode
`recvPacket` returns `kSuccess` and stores `L` in the length cell; in exact mode it
returns `kSuccess` when `L = bufferSize` and `kInvalidResponsePacket` when
`L < bufferSize`. -/
theorem C8_length_modes (g p rest buffer : List Nat) (tx : List (List Nat))
    (room e r bufferSize v : Nat)
    (hg : ∀ b ∈ g, b ≠ 0xBE) (hk : g.length < 64) (hr : r = e ∨ r = 0)
    (hp : p.length ≤ bufferSize) :
    recvPacket ⟨g ++ 0xBE :: r :: p.length :: (p ++ 0xED :: rest), tx, room⟩ e buffer
        bufferSize (some v) =
      ⟨Status.kSuccess, p ++ buffer.drop p.length, some p.length, ⟨rest, tx, room⟩⟩ ∧
    (p.length = bufferSize →
      (recvPacket ⟨g ++ 0xBE :: r :: p.length :: (p ++ 0xED :: rest), tx, room⟩ e buffer
        bufferSize none).status = Status.kSuccess) ∧
    (p.length < bufferSize →
      (recvPacket ⟨g ++ 0xBE :: r :: p.length :: (p ++ 0xED :: rest), tx, room⟩ e buffer
        bufferSize none).status = Status.kInvalidResponsePacket) := by
  refine ⟨?_, ?_, ?_⟩
  · rw [recvPacket_framed g p rest buffer tx room e r 0xED bufferSize (some v) hg hk hr hp]
    simp [afterPayload]
  · intro heq
    rw [recvPacket_framed g p rest buffer tx room e r 0xED bufferSize none hg hk hr hp]
    simp [afterPayload, heq]
  · intro hlt
    have hne : p.length ≠ bufferSize := Nat.ne_of_lt hlt
    rw [recvPacket_framed g p rest buffer tx room e r 0xED bufferSize none hg hk hr hp]
    simp [afterPayload, hne]

theorem C8_length_modes_witness :
    recvPacket ⟨[] ++ 0xBE :: 0 :: [6].length :: ([6] ++ 0xED :: []), [], 0⟩ 91 [1, 2, 3]
        3 (some 9) = ⟨Status.kSuccess, [6] ++ [1, 2, 3].drop [6].length, some [6].length,
          ⟨[], [], 0⟩⟩ ∧
    ([6].length = 3 →
      (recvPacket ⟨[] ++ 0xBE :: 0 :: [6].length :: ([6] ++ 0xED :: []), [], 0⟩ 91 [1, 2, 3]
        3 none).status = Status.kSuccess) ∧
    ([6].length < 3 →
      (recvPacket ⟨[] ++ 0xBE :: 0 :: [6].length :: ([6] ++ 0xED :: []), [], 0⟩ 91 [1, 2, 3]
        3 none).status = Status.kInvalidResponsePacket) :=
  C8_length_modes [] [6] [] [1, 2, 3] [] 0 91 0 3 9 (by decide) (by decide) (by decide)
    (by decide)

/-- C9 (short reads are transport errors).  Let `g` be fewer than 64 bytes other
than `0xBE` and `F = [0xBE, c, L] ++ p ++ [0xED]` a frame of the expected command
with `L = p.length ≤ bufferSize`.  On a line that delivers a strict initial segment
`s` of `g ++ F` (the empty one included) and then nothing, `recvPacket` returns
`kSerialError`, in both length modes. -/
theorem C9_short_read_is_serial_error (h : Port) (g p s buffer : List Nat)
    (c bufferSize : Nat) (dataSize : Option Nat)
    (hg : ∀ b ∈ g, b ≠ 0xBE) (hk : g.length < 64) (hp : p.length ≤ bufferSize)
    (hs : s <+: g ++ ([0xBE, c, p.length] ++ p ++ [0xED]))
    (hne : s ≠ g ++ ([0xBE, c, p.length] ++ p ++ [0xED]))
    (hrx : h.rx = s) :
    (recvPacket h c buffer bufferSize dataSize).status = Status.kSerialError := by
  obtain ⟨rx, tx, room⟩ := h
  simp only at hrx
  subst hrx
  obtain ⟨t, ht⟩ := hs
  have htne : t ≠ [] := by
    intro h0
    apply hne
    rw [← ht, h0, List.append_nil]
  rcases List.append_eq_append_iff.mp ht with ⟨a, hga, _⟩ | ⟨q, hsq, hF⟩
  · -- the line ends inside the garbage
    have hg2 : ∀ b ∈ rx, b ≠ 0xBE := fun b hb => hg b (by rw [hga]; simp [hb])
    have hk2 : rx.length < 64 := by
      have : g.length = rx.length + a.length := by rw [hga]; simp
      omega
    rw [recvPacket_garbage_only rx buffer tx room c bufferSize dataSize hg2 hk2]
  · -- the line ends inside the frame
    subst hsq
    simp only [List.cons_append, List.nil_append] at hF
    cases q with
    | nil => rw [List.append_nil, recvPacket_garbage_only g buffer tx room c bufferSize dataSize hg hk]
    | cons x q =>
      simp only [List.cons_append, List.cons.injEq] at hF
      obtain ⟨hx, hF⟩ := hF
      subst hx
      cases q with
      | nil => rw [recvPacket_head_only g buffer tx room c bufferSize dataSize hg hk]
      | cons y q =>
        simp only [List.cons_append, List.cons.injEq] at hF
        obtain ⟨hy, hF⟩ := hF
        subst hy
        cases q with
        | nil =>
          rw [recvPacket_no_length g buffer tx room c c bufferSize dataSize hg hk (Or.inl rfl)]
        | cons z q =>
          simp only [List.cons_append, List.cons.injEq] at hF
          obtain ⟨hz, hF⟩ := hF
          subst hz
          have hlen : q.length ≤ p.length := by
            have h1 : (p ++ [0xED]).length = (q ++ t).length := by rw [hF]
            have h2 : 0 < t.length := List.length_pos.mpr htne
            simp only [List.length_append, List.length_singleton] at h1
            omega
          rw [recvPacket_no_tail g q buffer tx room c c p.length bufferSize dataSize hg hk
            (Or.inl rfl) hp hlen]

theorem C9_short_read_is_serial_error_witness :
    (recvPacket ⟨[1, 0xBE, 11, 2, 4], [], 0⟩ 11 [0, 0] 2 none).status = Status.kSerialError :=
  C9_short_read_is_serial_error ⟨[1, 0xBE, 11, 2, 4], [], 0⟩ [1] [4, 5] [1, 0xBE, 11, 2, 4]
    [0, 0] 11 2 none (by decide) (by decide) (by decide) ⟨[5, 0xED], rfl⟩ (by decide) rfl

/-- C10 (capacity violation, as the code has it).  The reply `[0xBE, 0x0B, 0x02, 0, 0,
0xED]` to command 11 read into a one-byte buffer makes `recvPacket` return
`kSerialError`, the transport verdict, and not `kInvalidResponsePacket`; the same
reply read in exact mode into a three-byte buffer, the other way for the length to
differ from the capacity, returns `kInvalidResponsePacket`. -/
theorem C10_capacity_violation_status :
    (recvPacket ⟨[0xBE, 0x0B, 0x02, 0, 0, 0xED], [], 0⟩ 11 [0] 1 none).status =
      Status.kSerialError ∧
    (recvPacket ⟨[0xBE, 0x0B, 0x02, 0, 0, 0xED], [], 0⟩ 11 [0] 1 none).status ≠
      Status.kInvalidResponsePacket ∧
    (recvPacket ⟨[0xBE, 0x0B, 0x02, 0, 0, 0xED], [], 0⟩ 11 [0, 0, 0] 3 none).status =
      Status.kInvalidResponsePacket := by
  decide

/-! ## Exchanges: the request write and the reply to it -/

theorem written_one (h : Port) (rx w : List Nat) (room : Nat) :
    written h ⟨rx, h.tx ++ [w], room⟩ = w := by
  simp [written]

theorem frame_take_ne (c : Nat) (p q : List Nat) (room : Nat) (hroom : room < p.length + 4) :
    (frame c p).take room ≠ frame c q := by
  intro heq
  have hlen : min room (p.length + 4) = q.length + 4 := by
    have := congrArg List.length heq
    rwa [List.length_take, frame_length, frame_length] at this
  have hq : room = q.length + 4 := by omega
  have h3 : ((frame c p).take room).take 3 = (frame c q).take 3 := by rw [heq]
  rw [List.take_take, show min 3 room = 3 by omega] at h3
  simp [frame] at h3
  omega

theorem sendPacket_cases (h : Port) (c : Nat) (p : List Nat) (hc : c < 256)
    (hp : p.length ≤ 255) :
    (p.length + 4 ≤ h.txRoom ∧ sendPacket h c p p.length =
        (Status.kSuccess, ⟨h.rx, h.tx ++ [frame c p], h.txRoom - (p.length + 4)⟩)) ∨
    (h.txRoom < p.length + 4 ∧ ¬ requestSent h (sendPacket h c p p.length).2 c ∧
      sendPacket h c p p.length =
        (Status.kSerialError, ⟨h.rx, h.tx ++ [(frame c p).take h.txRoom], 0⟩)) := by
  by_cases hroom : p.length + 4 ≤ h.txRoom
  · left
    have hfull : (frame c p).take h.txRoom = frame c p :=
      List.take_of_length_le (by rw [frame_length]; exact hroom)
    refine ⟨hroom, ?_⟩
    rw [sendPacket_eq h c p hc hp, hfull]
    simp [hroom, Nat.min_eq_left hroom]
  · right
    have hlt : h.txRoom < p.length + 4 := by omega
    have heq : sendPacket h c p p.length =
        (Status.kSerialError, ⟨h.rx, h.tx ++ [(frame c p).take h.txRoom], 0⟩) := by
      rw [sendPacket_eq h c p hc hp]
      simp [hroom, Nat.min_eq_right (Nat.le_of_lt hlt)]
    refine ⟨hlt, ?_, heq⟩
    rw [heq]
    rintro ⟨q, hq⟩
    rw [written_one] at hq
    exact frame_take_ne c p q h.txRoom hlt hq

theorem recvPacket_too_long (g rest buffer : List Nat) (tx : List (List Nat))
    (room e r L bufferSize : Nat) (dataSize : Option Nat)
    (hg : ∀ b ∈ g, b ≠ 0xBE) (hk : g.length < 64) (hr : r = e ∨ r = kAny)
    (hL : bufferSize < L) :
    recvPacket ⟨g ++ 0xBE :: r :: L :: rest, tx, room⟩ e buffer bufferSize dataSize =
      ⟨Status.kSerialError, buffer, dataSize, ⟨rest, tx, room⟩⟩ := by
  have hcmd : ¬ (r ≠ e ∧ r ≠ kAny) := by
    rcases hr with h | h <;> simp [h]
  unfold recvPacket recvPacketHead
  rw [recvPacketHeadLoop_found _ tx room 64 g 0 hg hk]
  simp [serialRecvByte_cons, hcmd, hL]

theorem recvPacket_frame (c : Nat) (p rest buffer : List Nat) (tx : List (List Nat))
    (room bufferSize : Nat) (dataSize : Option Nat) :
    recvPacket ⟨frame c p ++ rest, tx, room⟩ c buffer bufferSize dataSize =
      if p.length ≤ bufferSize then
        afterPayload 0xED p buffer bufferSize dataSize ⟨rest, tx, room⟩
      else ⟨Status.kSerialError, buffer, dataSize, ⟨p ++ 0xED :: rest, tx, room⟩⟩ := by
  by_cases hfit : p.length ≤ bufferSize
  · have := recvPacket_framed [] p rest buffer tx room c c 0xED bufferSize dataSize
      (by simp) (by simp) (Or.inl rfl) hfit
    simpa [frame, hfit] using this
  · have := recvPacket_too_long [] (p ++ 0xED :: rest) buffer tx room c c p.length bufferSize
      dataSize (by simp) (by simp) (Or.inl rfl) (by omega)
    simpa [frame, hfit] using this

theorem actionExchange_reply (h : Port) (c : Nat) (data p rest : List Nat) (hc : c < 256)
    (hdata : data.length ≤ 255)
    (hsent : requestSent h (actionExchange h c data data.length).2 c)
    (hrx : h.rx = frame c p ++ rest) :
    (actionExchange h c data data.length).1 =
      if p.length = 1 then p.headD 0
      else if p.length = 0 then Status.kInvalidResponsePacket.toNat
      else Status.kSerialError.toNat := by
  rcases sendPacket_cases h c data hc hdata with ⟨_, hs⟩ | ⟨_, hno, hs⟩
  · simp only [actionExchange, hs, hrx, recvPacket_frame]
    match p with
    | [] => simp [afterPayload, Status.toNat]
    | [s] => simp [afterPayload]
    | _ :: _ :: _ => simp [Status.toNat]
  · exfalso
    apply hno
    have : (actionExchange h c data data.length).2 = (sendPacket h c data data.length).2 := by
      simp [actionExchange, hs]
    rw [← this]
    exact hsent

theorem wstrBytes_length (data : List Nat) : (wstrBytes data).length = data.length * 2 := by
  induction data with
  | nil => rfl
  | cons a data ih =>
    have : wstrBytes (a :: data) = uint16Bytes a ++ wstrBytes data := by
      simp [wstrBytes]
    rw [this, List.length_append, ih]
    simp [uint16Bytes]
    omega

theorem ActionCall.command_lt {α : Type} (a : ActionCall α) : a.command < 256 := by
  cases a <;> simp [ActionCall.command] <;> decide

theorem ActionCall.run_eq {α : Type} (strToWstr : α → List Nat) (h : Port) (a : ActionCall α) :
    a.run strToWstr h =
      if a.refused strToWstr then (Status.kInvalidSize.toNat, h)
      else actionExchange h a.command (a.payload strToWstr) (a.payload strToWstr).length := by
  cases a
  case configHIDManufacturerString s =>
    by_cases hbig : (strToWstr s).length * 2 > 255
    · simp [ActionCall.run, ActionCall.refused, RX784.configHIDManufacturerString, hbig]
    · have hmod : (strToWstr s).length * 2 % 256 = (strToWstr s).length * 2 :=
        Nat.mod_eq_of_lt (by omega)
      simp [ActionCall.run, ActionCall.refused, ActionCall.payload, ActionCall.command,
        RX784.configHIDManufacturerString, hbig, hmod, wstrBytes_length]
  case configHIDProductString s =>
    by_cases hbig : (strToWstr s).length * 2 > 255
    · simp [ActionCall.run, ActionCall.refused, RX784.configHIDProductString, hbig]
    · have hmod : (strToWstr s).length * 2 % 256 = (strToWstr s).length * 2 :=
        Nat.mod_eq_of_lt (by omega)
      simp [ActionCall.run, ActionCall.refused, ActionCall.payload, ActionCall.command,
        RX784.configHIDProductString, hbig, hmod, wstrBytes_length]
  all_goals rfl

theorem ActionCall.payload_length_le {α : Type} (strToWstr : α → List Nat) (a : ActionCall α)
    (hok : a.refused strToWstr = false) : (a.payload strToWstr).length ≤ 255 := by
  cases a
  case configHIDManufacturerString s =>
    simp [ActionCall.refused] at hok
    simp [ActionCall.payload, wstrBytes_length]; omega
  case configHIDProductString s =>
    simp [ActionCall.refused] at hok
    simp [ActionCall.payload, wstrBytes_length]; omega
  all_goals simp [ActionCall.payload, int16Bytes, uint16Bytes, MouseState.bytes]

theorem not_requestSent_self (h : Port) (c : Nat) : ¬ requestSent h h c := by
  rintro ⟨p, hp⟩
  simp [written, frame] at hp

/-! ## The wildcard and the action operations -/

/-- C11, as the code has it (the claim as stated fails on the code).
With the wildcard `kAny = 0` passed as the expected command, a well-formed reply frame
whose payload fits the buffer is accepted if and only if it carries command id 0; a
frame carrying any other command id is rejected with `kInvalidResponsePacket`.  The
wildcard is honoured on the reply side: a frame carrying command id 0 is accepted for
every expected command `e`. -/
theorem C11_wildcard_expected (g p rest buffer : List Nat) (tx : List (List Nat))
    (room r bufferSize v : Nat) (hg : ∀ b ∈ g, b ≠ 0xBE) (hk : g.length < 64)
    (hp : p.length ≤ bufferSize) :
    ((recvPacket ⟨g ++ 0xBE :: r :: p.length :: (p ++ 0xED :: rest), tx, room⟩ kAny buffer
        bufferSize (some v)).status = Status.kSuccess ↔ r = 0) ∧
    (r ≠ 0 →
      (recvPacket ⟨g ++ 0xBE :: r :: p.length :: (p ++ 0xED :: rest), tx, room⟩ kAny buffer
        bufferSize (some v)).status = Status.kInvalidResponsePacket) ∧
    (∀ e : Nat,
      (recvPacket ⟨g ++ 0xBE :: 0 :: p.length :: (p ++ 0xED :: rest), tx, room⟩ e buffer
        bufferSize (some v)).status = Status.kSuccess) := by
  have hacc : ∀ e : Nat,
      (recvPacket ⟨g ++ 0xBE :: 0 :: p.length :: (p ++ 0xED :: rest), tx, room⟩ e buffer
        bufferSize (some v)).status = Status.kSuccess := by
    intro e
    rw [recvPacket_framed g p rest buffer tx room e 0 0xED bufferSize (some v) hg hk
      (Or.inr rfl) hp]
    simp [afterPayload]
  have hrej : r ≠ 0 →
      (recvPacket ⟨g ++ 0xBE :: r :: p.length :: (p ++ 0xED :: rest), tx, room⟩ kAny buffer
        bufferSize (some v)).status = Status.kInvalidResponsePacket := by
    intro hr
    rw [recvPacket_wrong_command g _ buffer tx room kAny r bufferSize (some v) hg hk hr hr]
  refine ⟨⟨?_, ?_⟩, hrej, hacc⟩
  · intro hok
    by_contra hr
    rw [hrej hr] at hok
    simp at hok
  · intro hr
    subst hr
    exact hacc kAny

theorem C11_wildcard_expected_witness :
    ((recvPacket ⟨[] ++ 0xBE :: 11 :: [7].length :: ([7] ++ 0xED :: []), [], 0⟩ kAny [0]
        1 (some 0)).status = Status.kSuccess ↔ (11 : Nat) = 0) ∧
    ((11 : Nat) ≠ 0 →
      (recvPacket ⟨[] ++ 0xBE :: 11 :: [7].length :: ([7] ++ 0xED :: []), [], 0⟩ kAny [0]
        1 (some 0)).status = Status.kInvalidResponsePacket) ∧
    (∀ e : Nat,
      (recvPacket ⟨[] ++ 0xBE :: 0 :: [7].length :: ([7] ++ 0xED :: []), [], 0⟩ e [0]
        1 (some 0)).status = Status.kSuccess) :=
  C11_wildcard_expected [] [7] [] [0] [] 0 11 1 0 (by decide) (by decide) (by decide)

/-- C11 as stated fails: with `kAny` as the expected command the well-formed reply
`[0xBE, 0x0B, 0x01, 0x00, 0xED]`, which carries command id 11, is not accepted. -/
theorem C11_wildcard_expected_counterexample :
    (recvPacket ⟨[0xBE, 0x0B, 0x01, 0x00, 0xED], [], 0⟩ kAny [0] 1 (some 0)).status =
      Status.kInvalidResponsePacket ∧
    (recvPacket ⟨[0xBE, 0x0B, 0x01, 0x00, 0xED], [], 0⟩ kAny [0] 1 (some 0)).status ≠
      Status.kSuccess := by
  decide

/-- C13, evaluated on the code.  `keyDown` answered by the well-framed reply
`[0xBE, 0x0B, 0x02, 0, 0, 0xED]` (payload length 2) returns `kSerialError`, not
`kInvalidResponsePacket`; answered by the empty reply `[0xBE, 0x0B, 0x00, 0xED]` it
returns `kInvalidResponsePacket`. -/
theorem C13_action_reply_length :
    (RX784.keyDown ⟨[0xBE, 0x0B, 0x02, 0, 0, 0xED], [], 16⟩ VirtualKeyCode.kKeyA).1 =
      Status.kSerialError.toNat ∧
    (RX784.keyDown ⟨[0xBE, 0x0B, 0x02, 0, 0, 0xED], [], 16⟩ VirtualKeyCode.kKeyA).1 ≠
      Status.kInvalidResponsePacket.toNat ∧
    (RX784.keyDown ⟨[0xBE, 0x0B, 0x00, 0xED], [], 16⟩ VirtualKeyCode.kKeyA).1 =
      Status.kInvalidResponsePacket.toNat := by
  decide

/-! ## Queries -/

theorem sendPacket_of_requestSent (h final : Port) (c : Nat) (data : List Nat) (hc : c < 256)
    (hdata : data.length ≤ 255)
    (hfinal : (sendPacket h c data data.length).1 ≠ Status.kSuccess →
      final = (sendPacket h c data data.length).2)
    (hsent : requestSent h final c) :
    sendPacket h c data data.length =
      (Status.kSuccess, ⟨h.rx, h.tx ++ [frame c data], h.txRoom - (data.length + 4)⟩) := by
  rcases sendPacket_cases h c data hc hdata with ⟨_, hs⟩ | ⟨_, hno, hs⟩
  · exact hs
  · exfalso
    apply hno
    rw [← hfinal (by rw [hs]; simp)]
    exact hsent

theorem getHIDWord_send (h : Port) (c value : Nat) (hc : c < 256)
    (hsent : requestSent h (getHIDWord h c value).2.2 c) :
    sendPacket h c [] 0 = (Status.kSuccess, ⟨h.rx, h.tx ++ [frame c []], h.txRoom - 4⟩) := by
  have := sendPacket_of_requestSent h (getHIDWord h c value).2.2 c [] hc (by simp)
    (by intro hf; simp only [List.length_nil] at hf; simp [getHIDWord, hf]) hsent
  simpa using this

theorem getHIDString_send {α : Type} (wstrToStr : List Nat → α) (h : Port) (c : Nat) (text : Option α)
    (hc : c < 256) (hsent : requestSent h (getHIDString wstrToStr h c text).2.2 c) :
    sendPacket h c [] 0 = (Status.kSuccess, ⟨h.rx, h.tx ++ [frame c []], h.txRoom - 4⟩) := by
  have := sendPacket_of_requestSent h (getHIDString wstrToStr h c text).2.2 c [] hc (by simp)
    (by intro hf; simp only [List.length_nil] at hf; simp [getHIDString, hf]) hsent
  simpa using this

theorem getHIDWord_rejection (h : Port) (c value s : Nat) (rest : List Nat) (hc : c < 256)
    (hsent : requestSent h (getHIDWord h c value).2.2 c)
    (hrx : h.rx = [0xBE, c, 0x01, s, 0xED] ++ rest) :
    (getHIDWord h c value).1 =
        (if s = 0 then Status.kInvalidResponsePacket.toNat else s) ∧
      (getHIDWord h c value).2.1 = value := by
  have hs := getHIDWord_send h c value hc hsent
  have hframe : h.rx = frame c [s] ++ rest := by simp [hrx, frame]
  simp only [getHIDWord, hs, hframe, recvPacket_frame]
  by_cases h0 : s = 0 <;> simp [afterPayload, Status.toNat, h0]

theorem getHIDString_rejection {α : Type} (wstrToStr : List Nat → α) (h : Port) (c s : Nat)
    (text : Option α) (rest : List Nat) (hc : c < 256)
    (hsent : requestSent h (getHIDString wstrToStr h c text).2.2 c)
    (hrx : h.rx = [0xBE, c, 0x01, s, 0xED] ++ rest) :
    (getHIDString wstrToStr h c text).1 = s ∧ (getHIDString wstrToStr h c text).2.1 = text := by
  have hs := getHIDString_send wstrToStr h c text hc hsent
  have hframe : h.rx = frame c [s] ++ rest := by simp [hrx, frame]
  simp only [getHIDString, hs, hframe, recvPacket_frame]
  simp [afterPayload]

theorem getHIDWord_full (h : Port) (c value lo hi : Nat) (rest : List Nat) (hc : c < 256)
    (hsent : requestSent h (getHIDWord h c value).2.2 c)
    (hrx : h.rx = [0xBE, c, 0x03, 0x00, lo, hi, 0xED] ++ rest) :
    (getHIDWord h c value).1 = Status.kSuccess.toNat ∧
      (getHIDWord h c value).2.1 = lo + 256 * hi := by
  have hs := getHIDWord_send h c value hc hsent
  have hframe : h.rx = frame c [0, lo, hi] ++ rest := by simp [hrx, frame]
  simp only [getHIDWord, hs, hframe, recvPacket_frame]
  simp [afterPayload, Status.toNat, uint16Of]

theorem Status.toNat_eq_zero (s : Status) :
    s.toNat = Status.kSuccess.toNat ↔ s = Status.kSuccess := by
  cases s <;> simp [Status.toNat]

theorem recvPacket_exact_status (c n : Nat) (p rest buffer : List Nat) (tx : List (List Nat))
    (room : Nat) :
    (recvPacket ⟨frame c p ++ rest, tx, room⟩ c buffer n none).status = Status.kSuccess ↔
      p.length = n := by
  rw [recvPacket_frame]
  by_cases hfit : p.length ≤ n
  · by_cases heq : p.length = n <;> simp [afterPayload, hfit, heq]
  · have hne : p.length ≠ n := by omega
    simp [hfit, hne]

theorem recvPacket_exact_buffer (c n : Nat) (p rest buffer : List Nat) (tx : List (List Nat))
    (room : Nat) (hbuf : buffer.length = n) (hp : p.length = n) :
    recvPacket ⟨frame c p ++ rest, tx, room⟩ c buffer n none =
      ⟨Status.kSuccess, p, none, ⟨rest, tx, room⟩⟩ := by
  have hdrop : buffer.drop p.length = [] := List.drop_of_length_le (by omega)
  rw [recvPacket_frame, if_pos (Nat.le_of_eq hp)]
  unfold afterPayload
  rw [hdrop]
  simp [hp]

theorem getDeviceID_reply (h : Port) (deviceID : Nat) (p rest : List Nat)
    (hsent : requestSent h (getDeviceID h deviceID).2.2 Command.kGetDeviceID)
    (hrx : h.rx = [0xBE, Command.kGetDeviceID, p.length] ++ p ++ [0xED] ++ rest) :
    ((getDeviceID h deviceID).1 = Status.kSuccess.toNat ↔ p.length = 2) ∧
      (p.length = 2 →
        (getDeviceID h deviceID).2.1 = uint16Of (p.getD 0 0) (p.getD 1 0)) := by
  have hs := sendPacket_of_requestSent h (getDeviceID h deviceID).2.2 Command.kGetDeviceID []
    (by decide) (by simp)
    (by intro hf; simp only [List.length_nil] at hf; simp [getDeviceID, hf]) hsent
  simp only [List.length_nil] at hs
  have hframe : h.rx = frame Command.kGetDeviceID p ++ rest := by simp [hrx, frame]
  simp only [getDeviceID, hs, hframe]
  refine ⟨?_, fun hp => ?_⟩
  · simp [Status.toNat_eq_zero, recvPacket_exact_status]
  · rw [recvPacket_exact_buffer _ 2 p rest _ _ _ (by simp [uint16Bytes]) hp]
    simp

theorem getFirmwareVersion_reply (h : Port) (firmwareVersion : Nat) (p rest : List Nat)
    (hsent : requestSent h (getFirmwareVersion h firmwareVersion).2.2
      Command.kGetFirmwareVersion)
    (hrx : h.rx = [0xBE, Command.kGetFirmwareVersion, p.length] ++ p ++ [0xED] ++ rest) :
    ((getFirmwareVersion h firmwareVersion).1 = Status.kSuccess.toNat ↔ p.length = 2) ∧
      (p.length = 2 →
        (getFirmwareVersion h firmwareVersion).2.1 = uint16Of (p.getD 0 0) (p.getD 1 0)) := by
  have hs := sendPacket_of_requestSent h (getFirmwareVersion h firmwareVersion).2.2
    Command.kGetFirmwareVersion [] (by decide) (by simp)
    (by intro hf; simp only [List.length_nil] at hf; simp [getFirmwareVersion, hf]) hsent
  simp only [List.length_nil] at hs
  have hframe : h.rx = frame Command.kGetFirmwareVersion p ++ rest := by simp [hrx, frame]
  simp only [getFirmwareVersion, hs, hframe]
  refine ⟨?_, fun hp => ?_⟩
  · simp [Status.toNat_eq_zero, recvPacket_exact_status]
  · rw [recvPacket_exact_buffer _ 2 p rest _ _ _ (by simp [uint16Bytes]) hp]
    simp

theorem getKeyState_reply (h : Port) (key isDown : Nat) (p rest : List Nat)
    (hsent : requestSent h (getKeyState h key isDown).2.2 Command.kGetKeyState)
    (hrx : h.rx = [0xBE, Command.kGetKeyState, p.length] ++ p ++ [0xED] ++ rest) :
    ((getKeyState h key isDown).1 = Status.kSuccess.toNat ↔ p.length = 1) ∧
      (p.length = 1 → (getKeyState h key isDown).2.1 = p.getD 0 0) := by
  have hs := sendPacket_of_requestSent h (getKeyState h key isDown).2.2 Command.kGetKeyState
    [virtualKeyCodeToHIDKeyCode key] (by decide) (by simp)
    (by intro hf; simp only [List.length_singleton] at hf; simp [getKeyState, hf]) hsent
  simp only [List.length_singleton] at hs
  have hframe : h.rx = frame Command.kGetKeyState p ++ rest := by simp [hrx, frame]
  simp only [getKeyState, hs, hframe]
  refine ⟨?_, fun hp => ?_⟩
  · simp [Status.toNat_eq_zero, recvPacket_exact_status]
  · rw [recvPacket_exact_buffer _ 1 p rest _ _ _ (by simp) hp]
    simp

theorem getWheelAxis_reply (h : Port) (w : Int) (p rest : List Nat)
    (hsent : requestSent h (getWheelAxis h w).2.2 Command.kGetWheelAxis)
    (hrx : h.rx = [0xBE, Command.kGetWheelAxis, p.length] ++ p ++ [0xED] ++ rest) :
    ((getWheelAxis h w).1 = Status.kSuccess.toNat ↔ p.length = 2) ∧
      (p.length = 2 → (getWheelAxis h w).2.1 = int16Of (p.getD 0 0) (p.getD 1 0)) := by
  have hs := sendPacket_of_requestSent h (getWheelAxis h w).2.2 Command.kGetWheelAxis []
    (by decide) (by simp)
    (by intro hf; simp only [List.length_nil] at hf; simp [getWheelAxis, hf]) hsent
  simp only [List.length_nil] at hs
  have hframe : h.rx = frame Command.kGetWheelAxis p ++ rest := by simp [hrx, frame]
  simp only [getWheelAxis, hs, hframe]
  refine ⟨?_, fun hp => ?_⟩
  · simp [Status.toNat_eq_zero, recvPacket_exact_status]
  · rw [recvPacket_exact_buffer _ 2 p rest _ _ _ (by simp [int16Bytes, uint16Bytes]) hp]
    simp

theorem getPos_reply (h : Port) (x y : Int) (p rest : List Nat)
    (hsent : requestSent h (getPos h x y).2.2.2 Command.kGetPos)
    (hrx : h.rx = [0xBE, Command.kGetPos, p.length] ++ p ++ [0xED] ++ rest) :
    ((getPos h x y).1 = Status.kSuccess.toNat ↔ p.length = 4) ∧
      (p.length = 4 →
        (getPos h x y).2.1 = int16Of (p.getD 0 0) (p.getD 1 0) ∧
        (getPos h x y).2.2.1 = int16Of (p.getD 2 0) (p.getD 3 0)) := by
  have hs := sendPacket_of_requestSent h (getPos h x y).2.2.2 Command.kGetPos []
    (by decide) (by simp)
    (by intro hf; simp only [List.length_nil] at hf; simp [getPos, hf]) hsent
  simp only [List.length_nil, Nat.zero_add] at hs
  have hframe : h.rx = frame Command.kGetPos p ++ rest := by simp [hrx, frame]
  simp only [getPos, hs, hframe]
  refine ⟨?_, fun hp => ?_⟩
  · have hst := recvPacket_exact_status Command.kGetPos 4 p rest [0, 0, 0, 0]
      (h.tx ++ [frame Command.kGetPos []]) (h.txRoom - 4)
    by_cases hp : p.length = 4
    · simp [hst.mpr hp, hp]
    · have hbad : ¬ _ := fun hok => hp (hst.mp hok)
      simp [hbad, hp, Status.toNat_eq_zero]
  · rw [recvPacket_exact_buffer _ 4 p rest _ _ _ (by simp) hp]
    simp

theorem getAxes_reply (h : Port) (x y w : Int) (p rest : List Nat)
    (hsent : requestSent h (getAxes h x y w).2.2.2.2 Command.kGetAxes)
    (hrx : h.rx = [0xBE, Command.kGetAxes, p.length] ++ p ++ [0xED] ++ rest) :
    ((getAxes h x y w).1 = Status.kSuccess.toNat ↔ p.length = 6) ∧
      (p.length = 6 →
        (getAxes h x y w).2.1 = int16Of (p.getD 0 0) (p.getD 1 0) ∧
        (getAxes h x y w).2.2.1 = int16Of (p.getD 2 0) (p.getD 3 0) ∧
        (getAxes h x y w).2.2.2.1 = int16Of (p.getD 4 0) (p.getD 5 0)) := by
  have hs := sendPacket_of_requestSent h (getAxes h x y w).2.2.2.2 Command.kGetAxes []
    (by decide) (by simp)
    (by intro hf; simp only [List.length_nil] at hf; simp [getAxes, hf]) hsent
  simp only [List.length_nil, Nat.zero_add] at hs
  have hframe : h.rx = frame Command.kGetAxes p ++ rest := by simp [hrx, frame]
  simp only [getAxes, hs, hframe]
  refine ⟨?_, fun hp => ?_⟩
  · have hst := recvPacket_exact_status Command.kGetAxes 6 p rest [0, 0, 0, 0, 0, 0]
      (h.tx ++ [frame Command.kGetAxes []]) (h.txRoom - 4)
    by_cases hp : p.length = 6
    · simp [hst.mpr hp, hp]
    · have hbad : ¬ _ := fun hok => hp (hst.mp hok)
      simp [hbad, hp, Status.toNat_eq_zero]
  · rw [recvPacket_exact_buffer _ 6 p rest _ _ _ (by simp) hp]
    simp

theorem status_of_guarded {β : Type} (r : Status) (a b : β) :
    (if r ≠ Status.kSuccess then (r.toNat, a) else (Status.kSuccess.toNat, b)).1 =
      Status.kSuccess.toNat ↔ r = Status.kSuccess := by
  by_cases hr : r = Status.kSuccess
  · simp [hr]
  · simp [hr, Status.toNat_eq_zero]

theorem getDeviceSerialNumber_reply (h : Port) (deviceSerialNumber p rest : List Nat)
    (hsent : requestSent h (getDeviceSerialNumber h deviceSerialNumber).2.2
      Command.kGetDeviceSerialNumber)
    (hrx : h.rx = [0xBE, Command.kGetDeviceSerialNumber, p.length] ++ p ++ [0xED] ++ rest) :
    ((getDeviceSerialNumber h deviceSerialNumber).1 = Status.kSuccess.toNat ↔ p.length = 20) ∧
      (p.length = 20 → (getDeviceSerialNumber h deviceSerialNumber).2.1 = p) := by
  have hs := sendPacket_of_requestSent h (getDeviceSerialNumber h deviceSerialNumber).2.2
    Command.kGetDeviceSerialNumber [] (by decide) (by simp)
    (by intro hf; simp only [List.length_nil] at hf; simp [getDeviceSerialNumber, hf]) hsent
  simp only [List.length_nil, Nat.zero_add] at hs
  have hframe : h.rx = frame Command.kGetDeviceSerialNumber p ++ rest := by simp [hrx, frame]
  simp only [getDeviceSerialNumber, hs, hframe]
  refine ⟨?_, fun hp => ?_⟩
  · rw [if_neg (by simp), status_of_guarded]
    exact recvPacket_exact_status _ _ _ _ _ _ _
  · rw [if_neg (by simp), recvPacket_exact_buffer _ 20 p rest _ _ _ (by simp) hp]
    simp

/-! ## The key-code tables -/

theorem switchOn_eq (cases : List (Nat × Nat)) (default code : Nat) :
    (match cases.find? (fun e => e.1 == code) with
      | some e => e.2
      | none => default) = switchOn cases default code := by
  induction cases with
  | nil => rfl
  | cons e rest ih =>
    have hstep : switchOn (e :: rest) default code =
        @Bool.rec (fun _ => Nat) (switchOn rest default code) e.2 (Nat.beq e.1 code) := rfl
    rw [hstep]
    by_cases h : e.1 = code
    · have hb : Nat.beq e.1 code = true := by rw [h]; exact Nat.beq_refl code
      simp [List.find?, h, hb]
    · have hb : Nat.beq e.1 code = false := by
        cases hbe : Nat.beq e.1 code
        · rfl
        · exact absurd (Nat.eq_of_beq_eq_true hbe) h
      have hb2 : (e.1 == code) = false := by simpa using h
      simp only [List.find?, hb2, hb]
      exact ih

theorem named_iff (enumerators : List Nat) (k : Nat) :
    named enumerators k = true ↔ k ∈ enumerators := by
  induction enumerators with
  | nil => simp [named]
  | cons e rest ih =>
    have hstep : named (e :: rest) k =
        @Bool.rec (fun _ => Bool) (named rest k) true (Nat.beq e k) := rfl
    rw [hstep]
    by_cases h : e = k
    · have hb : Nat.beq e k = true := by rw [h]; exact Nat.beq_refl k
      simp [hb, h]
    · have hb : Nat.beq e k = false := by
        cases hbe : Nat.beq e k
        · rfl
        · exact absurd (Nat.eq_of_beq_eq_true hbe) h
      have hk : ¬ k = e := fun hke => h hke.symm
      simp only [hb, List.mem_cons, hk, false_or]
      exact ih

theorem named_false_iff (enumerators : List Nat) (k : Nat) :
    named enumerators k = false ↔ k ∉ enumerators := by
  rw [← named_iff, Bool.not_eq_true]

theorem virtualKeyCodeToHIDKeyCode_eq (code : Nat) :
    virtualKeyCodeToHIDKeyCode code =
      switchOn virtualKeyCodeToHIDKeyCode_cases HIDKeyCode.kInvalid code :=
  switchOn_eq virtualKeyCodeToHIDKeyCode_cases HIDKeyCode.kInvalid code

theorem HIDKeyCodeToVirtualKeyCode_eq (code : Nat) :
    HIDKeyCodeToVirtualKeyCode code =
      switchOn HIDKeyCodeToVirtualKeyCode_cases VirtualKeyCode.kInvalid code :=
  switchOn_eq HIDKeyCodeToVirtualKeyCode_cases VirtualKeyCode.kInvalid code

set_option maxRecDepth 100000 in
theorem key_round_trip_eval : ∀ k, k < 256 →
    switchOn virtualKeyCodeToHIDKeyCode_cases HIDKeyCode.kInvalid k ≠ HIDKeyCode.kInvalid →
    switchOn HIDKeyCodeToVirtualKeyCode_cases VirtualKeyCode.kInvalid
        (switchOn virtualKeyCodeToHIDKeyCode_cases HIDKeyCode.kInvalid k) =
      if k = VirtualKeyCode.kShift then VirtualKeyCode.kShiftLeft
      else if k = VirtualKeyCode.kControl then VirtualKeyCode.kControlLeft
      else if k = VirtualKeyCode.kAlt then VirtualKeyCode.kAltLeft
      else k := by
  decide!

set_option maxRecDepth 100000 in
theorem lookups_total_eval : ∀ k, k < 256 →
    switchOn virtualKeyCodeToHIDKeyCode_cases HIDKeyCode.kInvalid k < 256 ∧
    switchOn HIDKeyCodeToVirtualKeyCode_cases VirtualKeyCode.kInvalid k < 256 ∧
    (named VirtualKeyCode.enumerators k = false →
      switchOn virtualKeyCodeToHIDKeyCode_cases HIDKeyCode.kInvalid k = HIDKeyCode.kInvalid) ∧
    (named HIDKeyCode.enumerators k = false →
      switchOn HIDKeyCodeToVirtualKeyCode_cases VirtualKeyCode.kInvalid k =
        VirtualKeyCode.kInvalid) ∧
    (named VirtualKeyCode.enumerators k = true → k ≠ VirtualKeyCode.kInvalid →
      switchOn virtualKeyCodeToHIDKeyCode_cases HIDKeyCode.kInvalid k ≠ HIDKeyCode.kInvalid) := by
  decide!

/-- C18 (key round trip).  For every virtual-key byte `k` that
`virtualKeyCodeToHIDKeyCode` maps to something other than `HIDKeyCode::kInvalid`,
mapping back with `HIDKeyCodeToVirtualKeyCode` gives `k` again, except for the generic
modifiers `kShift` (0x10), `kControl` (0x11) and `kAlt` (0x12), which come back as the
left-hand keys `kShiftLeft`, `kControlLeft` and `kAltLeft`. -/
theorem C18_key_round_trip (k : Nat) (hk : k < 256)
    (hmapped : virtualKeyCodeToHIDKeyCode k ≠ HIDKeyCode.kInvalid) :
    HIDKeyCodeToVirtualKeyCode (virtualKeyCodeToHIDKeyCode k) =
      if k = VirtualKeyCode.kShift then VirtualKeyCode.kShiftLeft
      else if k = VirtualKeyCode.kControl then VirtualKeyCode.kControlLeft
      else if k = VirtualKeyCode.kAlt then VirtualKeyCode.kAltLeft
      else k := by
  rw [virtualKeyCodeToHIDKeyCode_eq] at hmapped
  rw [virtualKeyCodeToHIDKeyCode_eq, HIDKeyCodeToVirtualKeyCode_eq]
  exact key_round_trip_eval k hk hmapped

theorem C18_key_round_trip_witness :
    HIDKeyCodeToVirtualKeyCode (virtualKeyCodeToHIDKeyCode 0x41) =
      if 0x41 = VirtualKeyCode.kShift then VirtualKeyCode.kShiftLeft
      else if 0x41 = VirtualKeyCode.kControl then VirtualKeyCode.kControlLeft
      else if 0x41 = VirtualKeyCode.kAlt then VirtualKeyCode.kAltLeft
      else 0x41 :=
  C18_key_round_trip 0x41 (by decide) (by decide)

/-- C19 (generic modifiers).  `virtualKeyCodeToHIDKeyCode` sends `kShift`, `kControl`
and `kAlt` to the HID codes `kShiftLeft` (0xE1), `kControlLeft` (0xE0) and `kAltLeft`
(0xE2), the codes it gives `kShiftLeft`, `kControlLeft` and `kAltLeft`; and
`HIDKeyCodeToVirtualKeyCode` sends those three HID codes to the virtual keys
`kShiftLeft` (0xA0), `kControlLeft` (0xA2) and `kAltLeft` (0xA4), none of them a
generic key. -/
theorem C19_generic_modifiers :
    virtualKeyCodeToHIDKeyCode VirtualKeyCode.kShift = 0xE1 ∧
    virtualKeyCodeToHIDKeyCode VirtualKeyCode.kControl = 0xE0 ∧
    virtualKeyCodeToHIDKeyCode VirtualKeyCode.kAlt = 0xE2 ∧
    virtualKeyCodeToHIDKeyCode VirtualKeyCode.kShiftLeft = 0xE1 ∧
    virtualKeyCodeToHIDKeyCode VirtualKeyCode.kControlLeft = 0xE0 ∧
    virtualKeyCodeToHIDKeyCode VirtualKeyCode.kAltLeft = 0xE2 ∧
    HIDKeyCode.kShiftLeft = 0xE1 ∧ HIDKeyCode.kControlLeft = 0xE0 ∧
    HIDKeyCode.kAltLeft = 0xE2 ∧
    HIDKeyCodeToVirtualKeyCode 0xE1 = 0xA0 ∧
    HIDKeyCodeToVirtualKeyCode 0xE0 = 0xA2 ∧
    HIDKeyCodeToVirtualKeyCode 0xE2 = 0xA4 ∧
    VirtualKeyCode.kShiftLeft = 0xA0 ∧ VirtualKeyCode.kControlLeft = 0xA2 ∧
    VirtualKeyCode.kAltLeft = 0xA4 ∧
    VirtualKeyCode.kShift = 0x10 ∧ VirtualKeyCode.kControl = 0x11 ∧
    VirtualKeyCode.kAlt = 0x12 := by
  decide

/-- C20 (both lookups are total, with an Invalid sentinel).  For every byte `k`, each
lookup returns a byte; a `k` that is not a named value of `VirtualKeyCode` is sent to
`HIDKeyCode::kInvalid` (0) by `virtualKeyCodeToHIDKeyCode`, a `k` that is not a named
value of `HIDKeyCode` is sent to `VirtualKeyCode::kInvalid` (0) by
`HIDKeyCodeToVirtualKeyCode`, both send the Invalid value 0 to 0, and every named
virtual key other than `kInvalid` is sent to an HID key other than `kInvalid`. -/
theorem C20_lookups_total (k : Nat) (hk : k < 256) :
    virtualKeyCodeToHIDKeyCode k < 256 ∧ HIDKeyCodeToVirtualKeyCode k < 256 ∧
    (k ∉ VirtualKeyCode.enumerators → virtualKeyCodeToHIDKeyCode k = HIDKeyCode.kInvalid) ∧
    (k ∉ HIDKeyCode.enumerators → HIDKeyCodeToVirtualKeyCode k = VirtualKeyCode.kInvalid) ∧
    virtualKeyCodeToHIDKeyCode VirtualKeyCode.kInvalid = HIDKeyCode.kInvalid ∧
    HIDKeyCodeToVirtualKeyCode HIDKeyCode.kInvalid = VirtualKeyCode.kInvalid ∧
    HIDKeyCode.kInvalid = 0 ∧ VirtualKeyCode.kInvalid = 0 ∧
    (k ∈ VirtualKeyCode.enumerators → k ≠ VirtualKeyCode.kInvalid →
      virtualKeyCodeToHIDKeyCode k ≠ HIDKeyCode.kInvalid) := by
  have he := lookups_total_eval k hk
  simp only [← virtualKeyCodeToHIDKeyCode_eq, ← HIDKeyCodeToVirtualKeyCode_eq,
    named_false_iff, named_iff] at he
  exact ⟨he.1, he.2.1, he.2.2.1, he.2.2.2.1, by decide, by decide, rfl, rfl, he.2.2.2.2⟩

theorem C20_lookups_total_witness :
    virtualKeyCodeToHIDKeyCode 0x07 < 256 ∧ HIDKeyCodeToVirtualKeyCode 0x07 < 256 ∧
    (0x07 ∉ VirtualKeyCode.enumerators →
      virtualKeyCodeToHIDKeyCode 0x07 = HIDKeyCode.kInvalid) ∧
    (0x07 ∉ HIDKeyCode.enumerators →
      HIDKeyCodeToVirtualKeyCode 0x07 = VirtualKeyCode.kInvalid) ∧
    virtualKeyCodeToHIDKeyCode VirtualKeyCode.kInvalid = HIDKeyCode.kInvalid ∧
    HIDKeyCodeToVirtualKeyCode HIDKeyCode.kInvalid = VirtualKeyCode.kInvalid ∧
    HIDKeyCode.kInvalid = 0 ∧ VirtualKeyCode.kInvalid = 0 ∧
    (0x07 ∈ VirtualKeyCode.enumerators → 0x07 ≠ VirtualKeyCode.kInvalid →
      virtualKeyCodeToHIDKeyCode 0x07 ≠ HIDKeyCode.kInvalid) :=
  C20_lookups_total 0x07 (by decide)

/-! ## Every public operation -/

/-! ## What an exchange leaves of the line -/

theorem serialRecv_tx (h : Port) (buffer : List Nat) (n : Nat) :
    (serialRecv h buffer n).2.2.tx = h.tx ∧ (serialRecv h buffer n).2.2.txRoom = h.txRoom := by
  simp [serialRecv, ReadFile]

theorem serialRecvByte_tx (h : Port) (v : Nat) :
    (serialRecvByte h v).2.2.tx = h.tx ∧ (serialRecvByte h v).2.2.txRoom = h.txRoom := by
  simp [serialRecvByte, serialRecv, ReadFile]

theorem recvPacketHeadLoop_tx :
    ∀ (n v : Nat) (h : Port), (recvPacketHeadLoop n v h).2.tx = h.tx ∧
      (recvPacketHeadLoop n v h).2.txRoom = h.txRoom := by
  intro n
  induction n with
  | zero => intro v h; simp [recvPacketHeadLoop]
  | succ n ih =>
    intro v h
    have hb := serialRecvByte_tx h v
    unfold recvPacketHeadLoop
    simp only
    split_ifs
    · exact hb
    · exact hb
    · have := ih (serialRecvByte h v).2.1 (serialRecvByte h v).2.2
      rw [this.1, this.2]
      exact hb

theorem recvPacket_tx (h : Port) (cmd : Nat) (buffer : List Nat) (bufferSize : Nat)
    (dataSize : Option Nat) :
    (recvPacket h cmd buffer bufferSize dataSize).port.tx = h.tx ∧
      (recvPacket h cmd buffer bufferSize dataSize).port.txRoom = h.txRoom := by
  have hhd := recvPacketHeadLoop_tx 64 0 h
  unfold recvPacket recvPacketHead
  generalize recvPacketHeadLoop 64 0 h = hd at hhd ⊢
  by_cases h1 : hd.1 ≠ Status.kSuccess
  · rw [if_pos h1]; exact hhd
  rw [if_neg h1]
  have hc := serialRecvByte_tx hd.2 0
  generalize serialRecvByte hd.2 0 = c at hc ⊢
  rw [hhd.1, hhd.2] at hc
  by_cases h2 : (!c.1) = true
  · rw [if_pos h2]; exact hc
  rw [if_neg h2]
  by_cases h3 : c.2.1 ≠ cmd ∧ c.2.1 ≠ kAny
  · rw [if_pos h3]; exact hc
  rw [if_neg h3]
  have hz := serialRecvByte_tx c.2.2 0
  generalize serialRecvByte c.2.2 0 = z at hz ⊢
  rw [hc.1, hc.2] at hz
  by_cases h4 : (!z.1) = true
  · rw [if_pos h4]; exact hz
  rw [if_neg h4]
  by_cases h5 : z.2.1 > bufferSize
  · rw [if_pos h5]; exact hz
  rw [if_neg h5]
  have hp : (if z.2.1 ≠ 0 then serialRecv z.2.2 buffer z.2.1 else (true, buffer, z.2.2)).2.2.tx
      = h.tx ∧
      (if z.2.1 ≠ 0 then serialRecv z.2.2 buffer z.2.1 else (true, buffer, z.2.2)).2.2.txRoom
      = h.txRoom := by
    split_ifs
    · have := serialRecv_tx z.2.2 buffer z.2.1
      rw [this.1, this.2]; exact hz
    · exact hz
  generalize (if z.2.1 ≠ 0 then serialRecv z.2.2 buffer z.2.1 else (true, buffer, z.2.2)) = p
    at hp ⊢
  by_cases h6 : (!p.1) = true
  · rw [if_pos h6]; exact hp
  rw [if_neg h6]
  have ht := serialRecvByte_tx p.2.2 0
  generalize serialRecvByte p.2.2 0 = t at ht ⊢
  rw [hp.1, hp.2] at ht
  by_cases h7 : (!t.1) = true
  · rw [if_pos h7]; exact ht
  rw [if_neg h7]
  by_cases h8 : t.2.1 ≠ 0xED
  · rw [if_pos h8]; exact ht
  rw [if_neg h8]
  cases dataSize with
  | some v => exact ht
  | none =>
    simp only
    split_ifs <;> exact ht

theorem sendPacket_rx (h : Port) (cmd : Nat) (data : List Nat) (dataSize : Nat) :
    (sendPacket h cmd data dataSize).2.rx = h.rx := by
  simp [sendPacket, serialSend, WriteFile]

theorem sendPacket_tx_length (h : Port) (cmd : Nat) (data : List Nat) (dataSize : Nat) :
    (sendPacket h cmd data dataSize).2.tx.length = h.tx.length + 1 := by
  simp [sendPacket, serialSend, WriteFile]

theorem sendPacket_status (h : Port) (cmd : Nat) (data : List Nat) (dataSize : Nat) :
    (sendPacket h cmd data dataSize).1 = Status.kSuccess ∨
      (sendPacket h cmd data dataSize).1 = Status.kSerialError := by
  unfold sendPacket
  simp only
  split_ifs
  · exact Or.inl rfl
  · exact Or.inr rfl


theorem QueryCall.query_command_lt {α : Type} (q : QueryCall α) : q.command < 256 := by
  cases q <;> simp [QueryCall.command] <;> decide

theorem QueryCall.query_payload_length_le {α : Type} (q : QueryCall α) : q.payload.length ≤ 255 := by
  cases q <;> simp [QueryCall.payload]

theorem QueryCall.query_run_unsent {α : Type} (wstrToStr : List Nat → α) (h : Port) (q : QueryCall α)
    (hf : (sendPacket h q.command q.payload q.payload.length).1 ≠ Status.kSuccess) :
    q.run wstrToStr h =
      ((sendPacket h q.command q.payload q.payload.length).1.toNat, q,
        (sendPacket h q.command q.payload q.payload.length).2) := by
  cases q <;>
    simp only [QueryCall.command, QueryCall.payload, List.length_nil, List.length_singleton]
      at hf <;>
    simp [QueryCall.run, QueryCall.command, QueryCall.payload, RX784.getKeyState,
      RX784.getKeyboardLEDsState, RX784.getKeyboardState, RX784.getButtonsState,
      RX784.getRelMouseState, RX784.getPos, RX784.getWheelAxis, RX784.getAxes,
      RX784.getAbsMouseState, RX784.getHIDVendorID, RX784.getHIDProductID,
      RX784.getHIDVersionNumber, RX784.getHIDManufacturerString, RX784.getHIDProductString,
      RX784.getDeviceID, RX784.getFirmwareVersion, RX784.getDeviceSerialNumber,
      getHIDWord, getHIDString, hf]


theorem QueryCall.query_run_port {α : Type} (wstrToStr : List Nat → α) (h : Port) (q : QueryCall α)
    (hs : (sendPacket h q.command q.payload q.payload.length).1 = Status.kSuccess) :
    (q.run wstrToStr h).2.2 =
      (recvPacket (sendPacket h q.command q.payload q.payload.length).2 q.command
        q.recvArgs.1 q.recvArgs.2.1 q.recvArgs.2.2).port := by
  cases q <;>
    simp only [QueryCall.command, QueryCall.payload, List.length_nil, List.length_singleton]
      at hs <;>
    simp only [QueryCall.run, QueryCall.command, QueryCall.payload, QueryCall.recvArgs,
      RX784.getKeyState,
      RX784.getKeyboardLEDsState, RX784.getKeyboardState, RX784.getButtonsState,
      RX784.getRelMouseState, RX784.getPos, RX784.getWheelAxis, RX784.getAxes,
      RX784.getAbsMouseState, RX784.getHIDVendorID, RX784.getHIDProductID,
      RX784.getHIDVersionNumber, RX784.getHIDManufacturerString, RX784.getHIDProductString,
      RX784.getDeviceID, RX784.getFirmwareVersion, RX784.getDeviceSerialNumber,
      getHIDWord, getHIDString, hs, List.length_nil, List.length_singleton, ne_eq,
      not_true_eq_false, if_false] <;>
    (try split_ifs) <;> rfl

theorem QueryCall.query_run_status {α : Type} (wstrToStr : List Nat → α) (h : Port) (q : QueryCall α)
    (hs : (sendPacket h q.command q.payload q.payload.length).1 = Status.kSuccess)
    (hr : (recvPacket (sendPacket h q.command q.payload q.payload.length).2 q.command
        q.recvArgs.1 q.recvArgs.2.1 q.recvArgs.2.2).status ≠ Status.kSuccess) :
    (q.run wstrToStr h).1 =
      (recvPacket (sendPacket h q.command q.payload q.payload.length).2 q.command
        q.recvArgs.1 q.recvArgs.2.1 q.recvArgs.2.2).status.toNat := by
  cases q <;>
    simp only [QueryCall.command, QueryCall.payload, QueryCall.recvArgs, List.length_nil,
      List.length_singleton] at hs hr <;>
    simp only [QueryCall.run, QueryCall.command, QueryCall.payload, QueryCall.recvArgs,
      RX784.getKeyState,
      RX784.getKeyboardLEDsState, RX784.getKeyboardState, RX784.getButtonsState,
      RX784.getRelMouseState, RX784.getPos, RX784.getWheelAxis, RX784.getAxes,
      RX784.getAbsMouseState, RX784.getHIDVendorID, RX784.getHIDProductID,
      RX784.getHIDVersionNumber, RX784.getHIDManufacturerString, RX784.getHIDProductString,
      RX784.getDeviceID, RX784.getFirmwareVersion, RX784.getDeviceSerialNumber,
      getHIDWord, getHIDString, hs, List.length_nil, List.length_singleton, ne_eq,
      not_true_eq_false, if_false, hr, not_false_eq_true, if_true]


theorem Call.call_command_lt {α : Type} (c : Call α) : c.command < 256 := by
  cases c with
  | action a => exact a.command_lt
  | query q => exact q.query_command_lt

theorem Call.call_payload_length_le {α : Type} (strToWstr : α → List Nat) (c : Call α)
    (hok : c.refused strToWstr = false) : (c.payload strToWstr).length ≤ 255 := by
  cases c with
  | action a => exact a.payload_length_le strToWstr hok
  | query q => exact q.query_payload_length_le

theorem Call.run_refused {α : Type} (strToWstr : α → List Nat) (wstrToStr : List Nat → α)
    (h : Port) (c : Call α) (hno : c.refused strToWstr = true) :
    c.run strToWstr wstrToStr h = (Status.kInvalidSize.toNat, c, h) := by
  cases c with
  | action a =>
    have hno2 : a.refused strToWstr = true := hno
    simp [Call.run, ActionCall.run_eq, hno2]
  | query q => simp [Call.refused] at hno

theorem Call.call_run_unsent {α : Type} (strToWstr : α → List Nat) (wstrToStr : List Nat → α)
    (h : Port) (c : Call α) (hok : c.refused strToWstr = false)
    (hf : (sendPacket h c.command (c.payload strToWstr) (c.payload strToWstr).length).1 ≠
      Status.kSuccess) :
    c.run strToWstr wstrToStr h =
      ((sendPacket h c.command (c.payload strToWstr) (c.payload strToWstr).length).1.toNat, c,
        (sendPacket h c.command (c.payload strToWstr) (c.payload strToWstr).length).2) := by
  cases c with
  | action a =>
    have hok2 : a.refused strToWstr = false := hok
    have hf2 : (sendPacket h a.command (a.payload strToWstr) (a.payload strToWstr).length).1 ≠
      Status.kSuccess := hf
    simp [Call.run, Call.command, Call.payload, ActionCall.run_eq, hok2, actionExchange, hf2]
  | query q =>
    have := QueryCall.query_run_unsent wstrToStr h q hf
    simp [Call.run, Call.command, Call.payload, this]

theorem Call.call_run_port {α : Type} (strToWstr : α → List Nat) (wstrToStr : List Nat → α)
    (h : Port) (c : Call α) (hok : c.refused strToWstr = false)
    (hs : (sendPacket h c.command (c.payload strToWstr) (c.payload strToWstr).length).1 =
      Status.kSuccess) :
    (c.run strToWstr wstrToStr h).2.2 =
      (recvPacket (sendPacket h c.command (c.payload strToWstr)
        (c.payload strToWstr).length).2 c.command c.recvArgs.1 c.recvArgs.2.1
        c.recvArgs.2.2).port := by
  cases c with
  | action a =>
    have hok2 : a.refused strToWstr = false := hok
    have hs2 : (sendPacket h a.command (a.payload strToWstr) (a.payload strToWstr).length).1 =
      Status.kSuccess := hs
    simp only [Call.run, Call.command, Call.payload, Call.recvArgs, ActionCall.run_eq, hok2,
      actionExchange, hs2, Bool.false_eq_true, if_false, ne_eq, not_true_eq_false]
    split_ifs <;> rfl
  | query q => exact QueryCall.query_run_port wstrToStr h q hs

theorem Call.call_run_status {α : Type} (strToWstr : α → List Nat) (wstrToStr : List Nat → α)
    (h : Port) (c : Call α) (hok : c.refused strToWstr = false)
    (hs : (sendPacket h c.command (c.payload strToWstr) (c.payload strToWstr).length).1 =
      Status.kSuccess)
    (hr : (recvPacket (sendPacket h c.command (c.payload strToWstr)
        (c.payload strToWstr).length).2 c.command c.recvArgs.1 c.recvArgs.2.1
        c.recvArgs.2.2).status ≠ Status.kSuccess) :
    (c.run strToWstr wstrToStr h).1 =
      (recvPacket (sendPacket h c.command (c.payload strToWstr)
        (c.payload strToWstr).length).2 c.command c.recvArgs.1 c.recvArgs.2.1
        c.recvArgs.2.2).status.toNat := by
  cases c with
  | action a =>
    have hok2 : a.refused strToWstr = false := hok
    have hs2 : (sendPacket h a.command (a.payload strToWstr) (a.payload strToWstr).length).1 =
      Status.kSuccess := hs
    have hr2 : (recvPacket (sendPacket h a.command (a.payload strToWstr)
        (a.payload strToWstr).length).2 a.command [0] 1 none).status ≠ Status.kSuccess := hr
    simp only [Call.run, Call.command, Call.payload, Call.recvArgs, ActionCall.run_eq, hok2,
      actionExchange, hs2, Bool.false_eq_true, if_false, ne_eq, not_true_eq_false]
    rw [if_pos hr2]
  | query q => exact QueryCall.query_run_status wstrToStr h q hs hr

theorem frame_take_ne_any (c d : Nat) (p q : List Nat) (room : Nat)
    (hroom : room < p.length + 4) : (frame c p).take room ≠ frame d q := by
  intro heq
  have hlen : min room (p.length + 4) = q.length + 4 := by
    have := congrArg List.length heq
    rwa [List.length_take, frame_length, frame_length] at this
  have hq : room = q.length + 4 := by omega
  have h3 : ((frame c p).take room).take 3 = (frame d q).take 3 := by rw [heq]
  rw [List.take_take, show min 3 room = 3 by omega] at h3
  simp [frame] at h3
  omega

theorem written_of_tx (h a b : Port) (htx : a.tx = b.tx) : written h a = written h b := by
  simp [written, htx]

theorem Call.run_written {α : Type} (strToWstr : α → List Nat) (wstrToStr : List Nat → α)
    (h : Port) (c : Call α) (hok : c.refused strToWstr = false) :
    (c.run strToWstr wstrToStr h).2.2.tx =
      h.tx ++ [(frame c.command (c.payload strToWstr)).take h.txRoom] := by
  have heq := sendPacket_eq h c.command (c.payload strToWstr) c.call_command_lt
    (c.call_payload_length_le strToWstr hok)
  by_cases hs : (sendPacket h c.command (c.payload strToWstr)
      (c.payload strToWstr).length).1 = Status.kSuccess
  · rw [Call.call_run_port strToWstr wstrToStr h c hok hs, (recvPacket_tx _ _ _ _ _).1, heq]
  · rw [Call.call_run_unsent strToWstr wstrToStr h c hok hs, heq]


theorem Call.run_sendPacket_cases {α : Type} (strToWstr : α → List Nat) (h : Port) (c : Call α)
    (hok : c.refused strToWstr = false) :
    ((c.payload strToWstr).length + 4 ≤ h.txRoom ∧
      sendPacket h c.command (c.payload strToWstr) (c.payload strToWstr).length =
        (Status.kSuccess, ⟨h.rx, h.tx ++ [frame c.command (c.payload strToWstr)],
          h.txRoom - ((c.payload strToWstr).length + 4)⟩)) ∨
    (h.txRoom < (c.payload strToWstr).length + 4 ∧
      sendPacket h c.command (c.payload strToWstr) (c.payload strToWstr).length =
        (Status.kSerialError,
          ⟨h.rx, h.tx ++ [(frame c.command (c.payload strToWstr)).take h.txRoom], 0⟩)) := by
  rcases sendPacket_cases h c.command (c.payload strToWstr) c.call_command_lt
    (c.call_payload_length_le strToWstr hok) with ⟨h1, h2⟩ | ⟨h1, _, h2⟩
  · exact Or.inl ⟨h1, h2⟩
  · exact Or.inr ⟨h1, h2⟩

/-- C23 (a failed request write ends the exchange).  For every public command
operation, called with any arguments on any line: when its request write is made and
fails or is short, the operation returns `kSerialError`, the line still holds every
byte it had to deliver (nothing was read), and the caller's variables behind the
output arguments hold the values they held before the call. -/
theorem C23_write_failure {α : Type} (strToWstr : α → List Nat) (wstrToStr : List Nat → α)
    (c : Call α) (h : Port)
    (hfail : requestFailed h (c.run strToWstr wstrToStr h).2.2) :
    (c.run strToWstr wstrToStr h).1 = Status.kSerialError.toNat ∧
    (c.run strToWstr wstrToStr h).2.2.rx = h.rx ∧
    (c.run strToWstr wstrToStr h).2.1 = c := by
  obtain ⟨hlen, hnone⟩ := hfail
  cases hrefused : c.refused strToWstr
  · rcases Call.run_sendPacket_cases strToWstr h c hrefused with ⟨_, hs⟩ | ⟨_, hs⟩
    · exfalso
      apply hnone c.command
      refine ⟨c.payload strToWstr, ?_⟩
      have htx := Call.run_written strToWstr wstrToStr h c hrefused
      have hs1 : (sendPacket h c.command (c.payload strToWstr)
          (c.payload strToWstr).length).1 = Status.kSuccess := by rw [hs]
      have hport := Call.call_run_port strToWstr wstrToStr h c hrefused hs1
      rw [written_of_tx h _ _ (congrArg Port.tx hport),
        written_of_tx h _ (sendPacket h c.command (c.payload strToWstr)
          (c.payload strToWstr).length).2 (recvPacket_tx _ _ _ _ _).1, hs, written_one]
    · have hs1 : (sendPacket h c.command (c.payload strToWstr)
          (c.payload strToWstr).length).1 ≠ Status.kSuccess := by rw [hs]; simp
      rw [Call.call_run_unsent strToWstr wstrToStr h c hrefused hs1, hs]
      exact ⟨rfl, rfl, rfl⟩
  · rw [Call.run_refused strToWstr wstrToStr h c hrefused] at hlen
    simp at hlen

theorem C23_write_failure_witness :
    (Call.run (fun (w : List Nat) => w) (fun (w : List Nat) => w)
        ⟨[0xBE, 74, 4, 1, 0, 2, 0, 0xED], [], 3⟩ (Call.query (QueryCall.getPos 7 8))).1 =
      Status.kSerialError.toNat ∧
    (Call.run (fun (w : List Nat) => w) (fun (w : List Nat) => w)
        ⟨[0xBE, 74, 4, 1, 0, 2, 0, 0xED], [], 3⟩ (Call.query (QueryCall.getPos 7 8))).2.2.rx =
      [0xBE, 74, 4, 1, 0, 2, 0, 0xED] ∧
    (Call.run (fun (w : List Nat) => w) (fun (w : List Nat) => w)
        ⟨[0xBE, 74, 4, 1, 0, 2, 0, 0xED], [], 3⟩ (Call.query (QueryCall.getPos 7 8))).2.1 =
      Call.query (QueryCall.getPos 7 8) :=
  C23_write_failure (fun (w : List Nat) => w) (fun (w : List Nat) => w)
    (Call.query (QueryCall.getPos 7 8)) ⟨[0xBE, 74, 4, 1, 0, 2, 0, 0xED], [], 3⟩
    ⟨by decide, fun c ⟨p, hp⟩ => by
      have h3 : (written ⟨[0xBE, 74, 4, 1, 0, 2, 0, 0xED], [], 3⟩
          (Call.run (fun (w : List Nat) => w) (fun (w : List Nat) => w)
            ⟨[0xBE, 74, 4, 1, 0, 2, 0, 0xED], [], 3⟩
            (Call.query (QueryCall.getPos 7 8))).2.2).length = 3 := by decide
      rw [hp, frame_length] at h3
      omega⟩


theorem frame_command_eq (c d : Nat) (p q : List Nat) (heq : frame c p = frame d q) : c = d := by
  simp [frame] at heq
  exact heq.1

theorem actionExchange_tx (h : Port) (c : Nat) (data : List Nat) (hc : c < 256)
    (hdata : data.length ≤ 255) :
    (actionExchange h c data data.length).2.tx = h.tx ++ [(frame c data).take h.txRoom] := by
  have heq := sendPacket_eq h c data hc hdata
  unfold actionExchange
  simp only
  split_ifs
  · rw [heq]
  · rw [(recvPacket_tx _ _ _ _ _).1, heq]
  · rw [(recvPacket_tx _ _ _ _ _).1, heq]

/-- C30 (request frame of `keyDown` and `keyUp`).  On a line that takes five bytes,
`keyDown(k)` makes exactly one write, of the bytes
`[0xBE, 0x0B, 0x01, virtualKeyCodeToHIDKeyCode(k), 0xED]`, and `keyUp(k)` one write of
the same bytes with command byte `0x0C`, for every `k`; when `k` has no device
equivalent the frame is written all the same, with payload byte `0x00`. -/
theorem C30_key_request_frame (h : Port) (k : Nat) (hroom : 5 ≤ h.txRoom) :
    (RX784.keyDown h k).2.tx = h.tx ++ [[0xBE, 0x0B, 0x01, virtualKeyCodeToHIDKeyCode k, 0xED]] ∧
    (RX784.keyUp h k).2.tx = h.tx ++ [[0xBE, 0x0C, 0x01, virtualKeyCodeToHIDKeyCode k, 0xED]] ∧
    (virtualKeyCodeToHIDKeyCode k = HIDKeyCode.kInvalid →
      (RX784.keyDown h k).2.tx = h.tx ++ [[0xBE, 0x0B, 0x01, 0x00, 0xED]] ∧
      (RX784.keyUp h k).2.tx = h.tx ++ [[0xBE, 0x0C, 0x01, 0x00, 0xED]]) := by
  have hd : (RX784.keyDown h k).2.tx =
      h.tx ++ [[0xBE, 0x0B, 0x01, virtualKeyCodeToHIDKeyCode k, 0xED]] := by
    have := actionExchange_tx h Command.kKeyDown [virtualKeyCodeToHIDKeyCode k] (by decide)
      (by simp)
    have hfull : (frame Command.kKeyDown [virtualKeyCodeToHIDKeyCode k]).take h.txRoom =
        frame Command.kKeyDown [virtualKeyCodeToHIDKeyCode k] :=
      List.take_of_length_le (by rw [frame_length]; simpa using hroom)
    rw [hfull] at this
    simpa [RX784.keyDown, frame, Command.kKeyDown] using this
  have hu : (RX784.keyUp h k).2.tx =
      h.tx ++ [[0xBE, 0x0C, 0x01, virtualKeyCodeToHIDKeyCode k, 0xED]] := by
    have := actionExchange_tx h Command.kKeyUp [virtualKeyCodeToHIDKeyCode k] (by decide)
      (by simp)
    have hfull : (frame Command.kKeyUp [virtualKeyCodeToHIDKeyCode k]).take h.txRoom =
        frame Command.kKeyUp [virtualKeyCodeToHIDKeyCode k] :=
      List.take_of_length_le (by rw [frame_length]; simpa using hroom)
    rw [hfull] at this
    simpa [RX784.keyUp, frame, Command.kKeyUp] using this
  refine ⟨hd, hu, fun hinv => ?_⟩
  rw [hd, hu, hinv]
  exact ⟨rfl, rfl⟩

theorem C30_key_request_frame_witness :
    (RX784.keyDown ⟨[], [], 5⟩ VirtualKeyCode.kKeyA).2.tx = [] ++ [[0xBE, 0x0B, 0x01, 0x04, 0xED]] :=
  (C30_key_request_frame ⟨[], [], 5⟩ VirtualKeyCode.kKeyA (by decide)).1


theorem configString_cases {α : Type} (strToWstr : α → List Nat) (h : Port) (c : Nat)
    (text : α) (hc : c < 256)
    (op : Nat × Port)
    (hop : op = if (strToWstr text).length * 2 > 255 then (Status.kInvalidSize.toNat, h)
      else actionExchange h c (wstrBytes (strToWstr text)) ((strToWstr text).length * 2 % 256)) :
    (128 ≤ (strToWstr text).length → op = (Status.kInvalidSize.toNat, h)) ∧
    ((strToWstr text).length < 128 →
      op.2.tx = h.tx ++ [([0xBE, c, 2 * (strToWstr text).length] ++
        wstrBytes (strToWstr text) ++ [0xED]).take h.txRoom] ∧
      (wstrBytes (strToWstr text)).length = 2 * (strToWstr text).length) ∧
    ((op.1 = Status.kInvalidSize.toNat ∧ op.2.tx = h.tx) ↔ 128 ≤ (strToWstr text).length) := by
  have hshort : (strToWstr text).length < 128 →
      op.2.tx = h.tx ++ [([0xBE, c, 2 * (strToWstr text).length] ++
        wstrBytes (strToWstr text) ++ [0xED]).take h.txRoom] ∧
      (wstrBytes (strToWstr text)).length = 2 * (strToWstr text).length := by
    intro hlt
    have hguard : ¬ ((strToWstr text).length * 2 > 255) := by omega
    have hmod : (strToWstr text).length * 2 % 256 = (wstrBytes (strToWstr text)).length := by
      rw [wstrBytes_length]; exact Nat.mod_eq_of_lt (by omega)
    have hlen : (wstrBytes (strToWstr text)).length = 2 * (strToWstr text).length := by
      rw [wstrBytes_length]; omega
    rw [hop, if_neg hguard, hmod,
      actionExchange_tx h c (wstrBytes (strToWstr text)) hc (by omega)]
    simp [frame, hlen]
  refine ⟨fun hbig => ?_, hshort, ⟨fun hres => ?_, fun hbig => ?_⟩⟩
  · rw [hop, if_pos (by omega)]
  · by_contra hlt
    have := (hshort (by omega)).1
    rw [hres.2] at this
    simp at this
  · rw [hop, if_pos (by omega)]
    exact ⟨rfl, rfl⟩

/-- C22 (host-side size error).  With `n` the number of wide characters of the
converted string: `configHIDManufacturerString` and `configHIDProductString` return
`kInvalidSize` and leave the line as it was when `n ≥ 128` (the payload of `2 * n`
bytes would exceed 255); for `n < 128` they make one write, of the request frame whose
length byte and payload length are `2 * n` (cut to what the line takes); and returning
`kInvalidSize` without any write happens exactly when `n ≥ 128`. -/
theorem C22_host_size_error {α : Type} (strToWstr : α → List Nat) (h : Port) (text : α) :
    ((128 ≤ (strToWstr text).length →
        RX784.configHIDManufacturerString strToWstr h text = (Status.kInvalidSize.toNat, h)) ∧
      ((strToWstr text).length < 128 →
        (RX784.configHIDManufacturerString strToWstr h text).2.tx =
          h.tx ++ [([0xBE, Command.kConfigManufacturerString, 2 * (strToWstr text).length] ++
            wstrBytes (strToWstr text) ++ [0xED]).take h.txRoom] ∧
        (wstrBytes (strToWstr text)).length = 2 * (strToWstr text).length) ∧
      (((RX784.configHIDManufacturerString strToWstr h text).1 = Status.kInvalidSize.toNat ∧
          (RX784.configHIDManufacturerString strToWstr h text).2.tx = h.tx) ↔
        128 ≤ (strToWstr text).length)) ∧
    ((128 ≤ (strToWstr text).length →
        RX784.configHIDProductString strToWstr h text = (Status.kInvalidSize.toNat, h)) ∧
      ((strToWstr text).length < 128 →
        (RX784.configHIDProductString strToWstr h text).2.tx =
          h.tx ++ [([0xBE, Command.kConfigProductString, 2 * (strToWstr text).length] ++
            wstrBytes (strToWstr text) ++ [0xED]).take h.txRoom] ∧
        (wstrBytes (strToWstr text)).length = 2 * (strToWstr text).length) ∧
      (((RX784.configHIDProductString strToWstr h text).1 = Status.kInvalidSize.toNat ∧
          (RX784.configHIDProductString strToWstr h text).2.tx = h.tx) ↔
        128 ≤ (strToWstr text).length)) :=
  ⟨configString_cases strToWstr h Command.kConfigManufacturerString text (by decide) _ rfl,
   configString_cases strToWstr h Command.kConfigProductString text (by decide) _ rfl⟩

theorem C22_host_size_error_witness :
    RX784.configHIDManufacturerString (fun (w : List Nat) => w) ⟨[], [], 300⟩
        (List.replicate 128 0x41) = (Status.kInvalidSize.toNat, ⟨[], [], 300⟩) ∧
    (RX784.configHIDProductString (fun (w : List Nat) => w) ⟨[], [], 300⟩ [0x41, 0x42]).2.tx =
      [] ++ [([0xBE, Command.kConfigProductString, 2 * [0x41, 0x42].length] ++
        wstrBytes [0x41, 0x42] ++ [0xED]).take 300] :=
  ⟨(C22_host_size_error (fun (w : List Nat) => w) ⟨[], [], 300⟩
      (List.replicate 128 0x41)).1.1 (by simp),
   ((C22_host_size_error (fun (w : List Nat) => w) ⟨[], [], 300⟩
      [0x41, 0x42]).2.2.1 (by simp)).1⟩


theorem getHIDWord_full_rejected (h : Port) (c value s lo hi : Nat) (rest : List Nat)
    (hc : c < 256) (hsent : requestSent h (getHIDWord h c value).2.2 c)
    (hrx : h.rx = [0xBE, c, 0x03, s, lo, hi, 0xED] ++ rest) (hs0 : s ≠ 0) :
    (getHIDWord h c value).1 = Status.kInvalidResponsePacket.toNat ∧
      (getHIDWord h c value).2.1 = value := by
  have hs := getHIDWord_send h c value hc hsent
  have hframe : h.rx = frame c [s, lo, hi] ++ rest := by simp [hrx, frame]
  simp only [getHIDWord, hs, hframe, recvPacket_frame]
  simp [afterPayload, Status.toNat, hs0]

theorem getHIDString_full_rejected {α : Type} (wstrToStr : List Nat → α) (h : Port) (c : Nat)
    (text : Option α) (p rest : List Nat) (hc : c < 256)
    (hsent : requestSent h (getHIDString wstrToStr h c text).2.2 c)
    (hrx : h.rx = [0xBE, c, p.length] ++ p ++ [0xED] ++ rest)
    (h63 : p.length = 63) (hs0 : p.headD 0 ≠ 0) :
    (getHIDString wstrToStr h c text).1 = Status.kInvalidResponsePacket.toNat ∧
      (getHIDString wstrToStr h c text).2.1 = text := by
  have hs := getHIDString_send wstrToStr h c text hc hsent
  have hframe : h.rx = frame c p ++ rest := by simp [hrx, frame]
  have hle : p.length ≤ 63 := by omega
  simp only [getHIDString, hs, hframe, recvPacket_frame, hle, if_true]
  match p, h63, hs0 with
  | a :: q, h63, hs0 =>
    have hq : q.length = 62 := by simpa using h63
    have ha : a ≠ 0 := by simpa using hs0
    simp [afterPayload, Status.toNat, ha, hq]

/-- C26 (a full-size query reply must report Success).  After a successful request
write, a well-framed reply with the matching command id, the full size of the query (3
bytes for `getHIDVendorID`, `getHIDProductID`, `getHIDVersionNumber`; 63 bytes for
`getHIDManufacturerString`, `getHIDProductString`) and a first byte other than 0 makes
the operation return `kInvalidResponsePacket`, not that byte, and leaves the output
argument as it was. -/
theorem C26_full_reply_status {α : Type} (wstrToStr : List Nat → α) (h : Port)
    (p rest : List Nat) (hs0 : p.headD 0 ≠ 0) :
    (∀ vendorID : Nat,
      requestSent h (getHIDVendorID h vendorID).2.2 Command.kGetVendorID →
      h.rx = [0xBE, Command.kGetVendorID, p.length] ++ p ++ [0xED] ++ rest →
      p.length = 3 →
      (getHIDVendorID h vendorID).1 = Status.kInvalidResponsePacket.toNat ∧
        (getHIDVendorID h vendorID).2.1 = vendorID) ∧
    (∀ productID : Nat,
      requestSent h (getHIDProductID h productID).2.2 Command.kGetProductID →
      h.rx = [0xBE, Command.kGetProductID, p.length] ++ p ++ [0xED] ++ rest →
      p.length = 3 →
      (getHIDProductID h productID).1 = Status.kInvalidResponsePacket.toNat ∧
        (getHIDProductID h productID).2.1 = productID) ∧
    (∀ versionNumber : Nat,
      requestSent h (getHIDVersionNumber h versionNumber).2.2 Command.kGetVersionNumber →
      h.rx = [0xBE, Command.kGetVersionNumber, p.length] ++ p ++ [0xED] ++ rest →
      p.length = 3 →
      (getHIDVersionNumber h versionNumber).1 = Status.kInvalidResponsePacket.toNat ∧
        (getHIDVersionNumber h versionNumber).2.1 = versionNumber) ∧
    (∀ manufacturerString : Option α,
      requestSent h (getHIDManufacturerString wstrToStr h manufacturerString).2.2
        Command.kGetManufacturerString →
      h.rx = [0xBE, Command.kGetManufacturerString, p.length] ++ p ++ [0xED] ++ rest →
      p.length = 63 →
      (getHIDManufacturerString wstrToStr h manufacturerString).1 =
          Status.kInvalidResponsePacket.toNat ∧
        (getHIDManufacturerString wstrToStr h manufacturerString).2.1 = manufacturerString) ∧
    (∀ productString : Option α,
      requestSent h (getHIDProductString wstrToStr h productString).2.2
        Command.kGetProductString →
      h.rx = [0xBE, Command.kGetProductString, p.length] ++ p ++ [0xED] ++ rest →
      p.length = 63 →
      (getHIDProductString wstrToStr h productString).1 =
          Status.kInvalidResponsePacket.toNat ∧
        (getHIDProductString wstrToStr h productString).2.1 = productString) := by
  have hword : ∀ (c value : Nat), c < 256 → requestSent h (getHIDWord h c value).2.2 c →
      h.rx = [0xBE, c, p.length] ++ p ++ [0xED] ++ rest → p.length = 3 →
      (getHIDWord h c value).1 = Status.kInvalidResponsePacket.toNat ∧
        (getHIDWord h c value).2.1 = value := by
    intro c value hc hsent hrx h3
    match p, h3, hs0, hrx with
    | [s, lo, hi], _, hs0, hrx =>
      exact getHIDWord_full_rejected h c value s lo hi rest hc hsent (by simpa using hrx)
        (by simpa using hs0)
  exact ⟨fun v hsent hrx h3 => hword _ v (by decide) hsent hrx h3,
    fun v hsent hrx h3 => hword _ v (by decide) hsent hrx h3,
    fun v hsent hrx h3 => hword _ v (by decide) hsent hrx h3,
    fun t hsent hrx h63 =>
      getHIDString_full_rejected wstrToStr h _ t p rest (by decide) hsent hrx h63 hs0,
    fun t hsent hrx h63 =>
      getHIDString_full_rejected wstrToStr h _ t p rest (by decide) hsent hrx h63 hs0⟩

theorem C26_full_reply_status_witness :
    (getHIDVendorID ⟨[0xBE, 91, [2, 0x34, 0x12].length] ++ [2, 0x34, 0x12] ++ [0xED] ++ [],
        [], 4⟩ 7).1 = Status.kInvalidResponsePacket.toNat ∧
      (getHIDVendorID ⟨[0xBE, 91, [2, 0x34, 0x12].length] ++ [2, 0x34, 0x12] ++ [0xED] ++ [],
        [], 4⟩ 7).2.1 = 7 :=
  (C26_full_reply_status (fun (w : List Nat) => w)
    ⟨[0xBE, 91, [2, 0x34, 0x12].length] ++ [2, 0x34, 0x12] ++ [0xED] ++ [], [], 4⟩
    [2, 0x34, 0x12] [] (by decide)).1 7 ⟨[], by decide⟩ rfl rfl

/-! ## The command table and the key tables, continued -/

/-- C21 (the command-id table).  The forty command identifiers are pairwise distinct,
none is the wildcard `kAny = 0`, and their values are: `kReboot` 1; keyboard 11..17;
buttons 31..34; relative mouse 51..54; absolute mouse 71..81; info-get 91..95 (vendor
id, product id, version number, manufacturer string, product string); info-config
111..115 (the same five); `kGetDeviceID` 131, `kGetDeviceSerialNumber` 132,
`kGetFirmwareVersion` 133. -/
theorem C21_command_table :
    Command.enumerators.Nodup ∧ kAny = 0 ∧ kAny ∉ Command.enumerators ∧
    Command.enumerators.length = 40 ∧
    Command.kReboot = 1 ∧
    [Command.kKeyDown, Command.kKeyUp, Command.kReleaseAllKeys, Command.kGetKeyState,
      Command.kGetKeyboardLEDsState, Command.kGetKeyboardState,
      Command.kSendKeyboardState] = [11, 12, 13, 14, 15, 16, 17] ∧
    [Command.kButtonDown, Command.kButtonUp, Command.kReleaseAllButtons,
      Command.kGetButtonsState] = [31, 32, 33, 34] ∧
    [Command.kMoveRel, Command.kScrollRel, Command.kGetRelMouseState,
      Command.kSendRelMouseState] = [51, 52, 53, 54] ∧
    [Command.kInitAbsSystem, Command.kMoveAbs, Command.kScrollAbs, Command.kGetPos,
      Command.kSetPos, Command.kGetWheelAxis, Command.kSetWheelAxis, Command.kGetAxes,
      Command.kSetAxes, Command.kGetAbsMouseState, Command.kSendAbsMouseState] =
      [71, 72, 73, 74, 75, 76, 77, 78, 79, 80, 81] ∧
    [Command.kGetVendorID, Command.kGetProductID, Command.kGetVersionNumber,
      Command.kGetManufacturerString, Command.kGetProductString] = [91, 92, 93, 94, 95] ∧
    [Command.kConfigVendorID, Command.kConfigProductID, Command.kConfigVersionNumber,
      Command.kConfigManufacturerString, Command.kConfigProductString] =
      [111, 112, 113, 114, 115] ∧
    [Command.kGetDeviceID, Command.kGetDeviceSerialNumber, Command.kGetFirmwareVersion] =
      [131, 132, 133] ∧
    (∀ c ∈ Command.enumerators, c = 1 ∨ (11 ≤ c ∧ c ≤ 17) ∨ (31 ≤ c ∧ c ≤ 34) ∨
      (51 ≤ c ∧ c ≤ 54) ∨ (71 ≤ c ∧ c ≤ 81) ∨ (91 ≤ c ∧ c ≤ 95) ∨ (111 ≤ c ∧ c ≤ 115) ∨
      (131 ≤ c ∧ c ≤ 133)) := by
  decide

set_option maxRecDepth 100000 in
theorem hid_round_trip_eval : ∀ k, k < 256 →
    switchOn HIDKeyCodeToVirtualKeyCode_cases VirtualKeyCode.kInvalid k ≠
      VirtualKeyCode.kInvalid →
    switchOn virtualKeyCodeToHIDKeyCode_cases HIDKeyCode.kInvalid
        (switchOn HIDKeyCodeToVirtualKeyCode_cases VirtualKeyCode.kInvalid k) = k := by
  decide!

theorem hid_round_trip (k : Nat) (hk : k < 256)
    (hmapped : HIDKeyCodeToVirtualKeyCode k ≠ VirtualKeyCode.kInvalid) :
    virtualKeyCodeToHIDKeyCode (HIDKeyCodeToVirtualKeyCode k) = k := by
  rw [HIDKeyCodeToVirtualKeyCode_eq] at hmapped
  rw [virtualKeyCodeToHIDKeyCode_eq, HIDKeyCodeToVirtualKeyCode_eq]
  exact hid_round_trip_eval k hk hmapped

/-- C27 (reverse round trip and injectivity).  For every HID-key byte `k` that
`HIDKeyCodeToVirtualKeyCode` maps to something other than `VirtualKeyCode::kInvalid`,
mapping back with `virtualKeyCodeToHIDKeyCode` gives `k` again; hence any HID-key byte
mapped to the same virtual key as `k` is `k`. -/
theorem C27_reverse_round_trip (k : Nat) (hk : k < 256)
    (hmapped : HIDKeyCodeToVirtualKeyCode k ≠ VirtualKeyCode.kInvalid) :
    virtualKeyCodeToHIDKeyCode (HIDKeyCodeToVirtualKeyCode k) = k ∧
    ∀ j, j < 256 → HIDKeyCodeToVirtualKeyCode j = HIDKeyCodeToVirtualKeyCode k → j = k := by
  refine ⟨hid_round_trip k hk hmapped, fun j hj hjk => ?_⟩
  have h1 := hid_round_trip j hj (by rw [hjk]; exact hmapped)
  have h2 := hid_round_trip k hk hmapped
  rw [hjk] at h1
  exact h1.symm.trans h2

theorem C27_reverse_round_trip_witness :
    virtualKeyCodeToHIDKeyCode (HIDKeyCodeToVirtualKeyCode 0xE1) = 0xE1 ∧
    ∀ j, j < 256 → HIDKeyCodeToVirtualKeyCode j = HIDKeyCodeToVirtualKeyCode 0xE1 → j = 0xE1 :=
  C27_reverse_round_trip 0xE1 (by decide) (by decide)

set_option maxRecDepth 100000 in
theorem round_trip_exceptions_eval :
    (List.range 256).filter (fun k =>
        decide (switchOn virtualKeyCodeToHIDKeyCode_cases HIDKeyCode.kInvalid k ≠
          HIDKeyCode.kInvalid) &&
        decide (switchOn HIDKeyCodeToVirtualKeyCode_cases VirtualKeyCode.kInvalid
          (switchOn virtualKeyCodeToHIDKeyCode_cases HIDKeyCode.kInvalid k) ≠ k)) =
      [VirtualKeyCode.kShift, VirtualKeyCode.kControl, VirtualKeyCode.kAlt] := by
  decide!

theorem round_trip_exceptions :
    (List.range 256).filter (fun k =>
        decide (virtualKeyCodeToHIDKeyCode k ≠ HIDKeyCode.kInvalid) &&
        decide (HIDKeyCodeToVirtualKeyCode (virtualKeyCodeToHIDKeyCode k) ≠ k)) =
      [VirtualKeyCode.kShift, VirtualKeyCode.kControl, VirtualKeyCode.kAlt] := by
  simp only [virtualKeyCodeToHIDKeyCode_eq, HIDKeyCodeToVirtualKeyCode_eq]
  exact round_trip_exceptions_eval

/-- C28, as the code has it (the claim as stated fails on the code: there are three
such keys, not four).  The virtual-key bytes that have a device mapping and do not come
back from `HIDKeyCodeToVirtualKeyCode (virtualKeyCodeToHIDKeyCode k)` are exactly the
three generic modifier keys `kShift`, `kControl` and `kAlt`. -/
theorem C28_round_trip_exceptions :
    (List.range 256).filter (fun k =>
        decide (virtualKeyCodeToHIDKeyCode k ≠ HIDKeyCode.kInvalid) &&
        decide (HIDKeyCodeToVirtualKeyCode (virtualKeyCodeToHIDKeyCode k) ≠ k)) =
      [VirtualKeyCode.kShift, VirtualKeyCode.kControl, VirtualKeyCode.kAlt] :=
  round_trip_exceptions

/-- C28 as stated fails: the virtual-key bytes with a device mapping that do not come
back from the round trip are three, not four. -/
theorem C28_round_trip_exceptions_counterexample :
    ((List.range 256).filter (fun k =>
        decide (virtualKeyCodeToHIDKeyCode k ≠ HIDKeyCode.kInvalid) &&
        decide (HIDKeyCodeToVirtualKeyCode (virtualKeyCodeToHIDKeyCode k) ≠ k))).length ≠ 4 := by
  rw [round_trip_exceptions]
  decide

/-! ## What a successful decode has read, and the two layers of status -/

theorem recvPacket_exhausted (rx buffer : List Nat) (tx : List (List Nat))
    (room cmd bufferSize : Nat) (dataSize : Option Nat) (hlen : 64 ≤ rx.length)
    (hno : ∀ b ∈ rx.take 64, b ≠ 0xBE) :
    recvPacket ⟨rx, tx, room⟩ cmd buffer bufferSize dataSize =
      ⟨Status.kInvalidResponsePacket, buffer, dataSize, ⟨rx.drop 64, tx, room⟩⟩ := by
  have hsplit : rx = rx.take 64 ++ rx.drop 64 := (List.take_append_drop 64 rx).symm
  have htake : (rx.take 64).length = 64 := by
    rw [List.length_take]; omega
  have hloop := recvPacketHeadLoop_exhausted (rx.drop 64) tx room 64 (rx.take 64) 0 hno htake
  rw [← hsplit] at hloop
  unfold recvPacket recvPacketHead
  rw [hloop]
  simp

/-- C25 (a successful decode consumes the reply through its tail and nothing more).
When `recvPacket` returns `kSuccess` on a line holding bytes `g` other than `0xBE`, a
frame `[0xBE, r, L] ++ p ++ [0xED]` (`L = p.length`) and then `rest`, the line is left
holding exactly `rest` and the buffer starts with `p`.  Hence on a line holding two
frames one after the other, two calls of `recvPacket` return the first payload and then
the second, and leave the line empty. -/
theorem C25_decode_consumes_frame (g p rest buffer p1 p2 b1 b2 : List Nat)
    (tx : List (List Nat)) (room e r bufferSize c1 c2 n1 n2 v1 v2 : Nat)
    (dataSize : Option Nat) (hg : ∀ b ∈ g, b ≠ 0xBE)
    (hp1 : p1.length ≤ n1) (hp2 : p2.length ≤ n2) :
    ((recvPacket ⟨g ++ ([0xBE, r, p.length] ++ p ++ [0xED]) ++ rest, tx, room⟩ e buffer
        bufferSize dataSize).status = Status.kSuccess →
      (recvPacket ⟨g ++ ([0xBE, r, p.length] ++ p ++ [0xED]) ++ rest, tx, room⟩ e buffer
        bufferSize dataSize).port = ⟨rest, tx, room⟩ ∧
      (recvPacket ⟨g ++ ([0xBE, r, p.length] ++ p ++ [0xED]) ++ rest, tx, room⟩ e buffer
        bufferSize dataSize).buffer.take p.length = p) ∧
    recvPacket ⟨([0xBE, c1, p1.length] ++ p1 ++ [0xED]) ++
        ([0xBE, c2, p2.length] ++ p2 ++ [0xED]), tx, room⟩ c1 b1 n1 (some v1) =
      ⟨Status.kSuccess, p1 ++ b1.drop p1.length, some p1.length,
        ⟨[0xBE, c2, p2.length] ++ p2 ++ [0xED], tx, room⟩⟩ ∧
    recvPacket (recvPacket ⟨([0xBE, c1, p1.length] ++ p1 ++ [0xED]) ++
        ([0xBE, c2, p2.length] ++ p2 ++ [0xED]), tx, room⟩ c1 b1 n1 (some v1)).port
        c2 b2 n2 (some v2) =
      ⟨Status.kSuccess, p2 ++ b2.drop p2.length, some p2.length, ⟨[], tx, room⟩⟩ := by
  have hfirst : recvPacket ⟨([0xBE, c1, p1.length] ++ p1 ++ [0xED]) ++
        ([0xBE, c2, p2.length] ++ p2 ++ [0xED]), tx, room⟩ c1 b1 n1 (some v1) =
      ⟨Status.kSuccess, p1 ++ b1.drop p1.length, some p1.length,
        ⟨[0xBE, c2, p2.length] ++ p2 ++ [0xED], tx, room⟩⟩ := by
    have := recvPacket_frame c1 p1 ([0xBE, c2, p2.length] ++ p2 ++ [0xED]) b1 tx room n1
      (some v1)
    simpa [frame, afterPayload, hp1] using this
  have hsecond : recvPacket ⟨[0xBE, c2, p2.length] ++ p2 ++ [0xED], tx, room⟩ c2 b2 n2
      (some v2) = ⟨Status.kSuccess, p2 ++ b2.drop p2.length, some p2.length, ⟨[], tx, room⟩⟩ := by
    have := recvPacket_frame c2 p2 [] b2 tx room n2 (some v2)
    simpa [frame, afterPayload, hp2] using this
  refine ⟨fun hok => ?_, hfirst, ?_⟩
  · have hstream : g ++ ([0xBE, r, p.length] ++ p ++ [0xED]) ++ rest =
        g ++ 0xBE :: r :: p.length :: (p ++ 0xED :: rest) := by simp
    rw [hstream] at hok ⊢
    by_cases hk : g.length < 64
    · by_cases hr : r = e ∨ r = kAny
      · by_cases hfit : p.length ≤ bufferSize
        · rw [recvPacket_framed g p rest buffer tx room e r 0xED bufferSize dataSize hg hk hr
            hfit]
          cases dataSize with
          | some v => simp [afterPayload]
          | none => simp only [afterPayload]; split_ifs <;> simp
        · rw [recvPacket_too_long g _ buffer tx room e r p.length bufferSize dataSize hg hk hr
            (by omega)] at hok
          simp at hok
      · have hne : r ≠ e := fun h => hr (Or.inl h)
        have hany : r ≠ kAny := fun h => hr (Or.inr h)
        rw [recvPacket_wrong_command g _ buffer tx room e r bufferSize dataSize hg hk hne hany]
          at hok
        simp at hok
    · have hno : ∀ b ∈ (g ++ 0xBE :: r :: p.length :: (p ++ 0xED :: rest)).take 64,
          b ≠ 0xBE := by
        intro b hb
        rw [List.take_append_of_le_length (by omega)] at hb
        exact hg b (List.mem_of_mem_take hb)
      rw [recvPacket_exhausted _ buffer tx room e bufferSize dataSize
        (by simp; omega) hno] at hok
      simp at hok
  · rw [hfirst]
    exact hsecond

theorem C25_decode_consumes_frame_witness :
    ((recvPacket ⟨[1, 2] ++ ([0xBE, 11, [5].length] ++ [5] ++ [0xED]) ++ [9, 9], [], 0⟩ 11 [0]
        1 none).status = Status.kSuccess →
      (recvPacket ⟨[1, 2] ++ ([0xBE, 11, [5].length] ++ [5] ++ [0xED]) ++ [9, 9], [], 0⟩ 11 [0]
        1 none).port = ⟨[9, 9], [], 0⟩ ∧
      (recvPacket ⟨[1, 2] ++ ([0xBE, 11, [5].length] ++ [5] ++ [0xED]) ++ [9, 9], [], 0⟩ 11 [0]
        1 none).buffer.take [5].length = [5]) ∧
    recvPacket ⟨([0xBE, 11, [0].length] ++ [0] ++ [0xED]) ++
        ([0xBE, 74, [1, 0, 2, 0].length] ++ [1, 0, 2, 0] ++ [0xED]), [], 0⟩ 11 [7] 1 (some 0) =
      ⟨Status.kSuccess, [0] ++ [7].drop [0].length, some [0].length,
        ⟨[0xBE, 74, [1, 0, 2, 0].length] ++ [1, 0, 2, 0] ++ [0xED], [], 0⟩⟩ ∧
    recvPacket (recvPacket ⟨([0xBE, 11, [0].length] ++ [0] ++ [0xED]) ++
        ([0xBE, 74, [1, 0, 2, 0].length] ++ [1, 0, 2, 0] ++ [0xED]), [], 0⟩ 11 [7] 1
        (some 0)).port 74 [0, 0, 0, 0] 4 (some 0) =
      ⟨Status.kSuccess, [1, 0, 2, 0] ++ [0, 0, 0, 0].drop [1, 0, 2, 0].length,
        some [1, 0, 2, 0].length, ⟨[], [], 0⟩⟩ :=
  C25_decode_consumes_frame [1, 2] [5] [9, 9] [0] [0] [1, 0, 2, 0] [7] [0, 0, 0, 0] [] 0 11 11 1
    11 74 1 4 0 0 none (by decide) (by decide) (by decide)

theorem recvPacketHeadLoop_inv (tx : List (List Nat)) (room : Nat) :
    ∀ (n v : Nat) (rx : List Nat),
      (recvPacketHeadLoop n v ⟨rx, tx, room⟩).1 = Status.kSuccess →
      ∃ g rest, (∀ b ∈ g, b ≠ 0xBE) ∧ g.length < n ∧ rx = g ++ 0xBE :: rest := by
  intro n
  induction n with
  | zero => intro v rx hok; simp [recvPacketHeadLoop] at hok
  | succ n ih =>
    intro v rx hok
    cases rx with
    | nil => simp [recvPacketHeadLoop, serialRecvByte_nil] at hok
    | cons b rx =>
      by_cases hb : b = 0xBE
      · exact ⟨[], rx, by simp, by simp, by simp [hb]⟩
      · simp only [recvPacketHeadLoop, serialRecvByte_cons, Bool.not_true, Bool.false_eq_true,
          if_false, hb] at hok
        obtain ⟨g, rest, hg, hlen, hrx⟩ := ih b rx hok
        refine ⟨b :: g, rest, ?_, by simp; omega, by simp [hrx]⟩
        intro x hx
        rcases List.mem_cons.mp hx with h1 | h1
        · rw [h1]; exact hb
        · exact hg x h1

theorem recvPacketHeadLoop_status :
    ∀ (n v : Nat) (h : Port), (recvPacketHeadLoop n v h).1 = Status.kSuccess ∨
      (recvPacketHeadLoop n v h).1 = Status.kSerialError ∨
      (recvPacketHeadLoop n v h).1 = Status.kInvalidResponsePacket := by
  intro n
  induction n with
  | zero => intro v h; simp [recvPacketHeadLoop]
  | succ n ih =>
    intro v h
    unfold recvPacketHeadLoop
    simp only
    split_ifs
    · exact Or.inr (Or.inl rfl)
    · exact Or.inl rfl
    · exact ih _ _

theorem recvPacket_status (h : Port) (cmd : Nat) (buffer : List Nat) (bufferSize : Nat)
    (dataSize : Option Nat) :
    (recvPacket h cmd buffer bufferSize dataSize).status = Status.kSuccess ∨
      (recvPacket h cmd buffer bufferSize dataSize).status = Status.kSerialError ∨
      (recvPacket h cmd buffer bufferSize dataSize).status = Status.kInvalidResponsePacket := by
  have hhd := recvPacketHeadLoop_status 64 0 h
  unfold recvPacket recvPacketHead
  generalize recvPacketHeadLoop 64 0 h = hd at hhd ⊢
  by_cases h1 : hd.1 ≠ Status.kSuccess
  · rw [if_pos h1]; exact hhd
  rw [if_neg h1]
  generalize serialRecvByte hd.2 0 = c
  by_cases h2 : (!c.1) = true
  · rw [if_pos h2]; exact Or.inr (Or.inl rfl)
  rw [if_neg h2]
  by_cases h3 : c.2.1 ≠ cmd ∧ c.2.1 ≠ kAny
  · rw [if_pos h3]; exact Or.inr (Or.inr rfl)
  rw [if_neg h3]
  generalize serialRecvByte c.2.2 0 = z
  by_cases h4 : (!z.1) = true
  · rw [if_pos h4]; exact Or.inr (Or.inl rfl)
  rw [if_neg h4]
  by_cases h5 : z.2.1 > bufferSize
  · rw [if_pos h5]; exact Or.inr (Or.inl rfl)
  rw [if_neg h5]
  generalize (if z.2.1 ≠ 0 then serialRecv z.2.2 buffer z.2.1 else (true, buffer, z.2.2)) = p
  by_cases h6 : (!p.1) = true
  · rw [if_pos h6]; exact Or.inr (Or.inl rfl)
  rw [if_neg h6]
  generalize serialRecvByte p.2.2 0 = t
  by_cases h7 : (!t.1) = true
  · rw [if_pos h7]; exact Or.inr (Or.inl rfl)
  rw [if_neg h7]
  by_cases h8 : t.2.1 ≠ 0xED
  · rw [if_pos h8]; exact Or.inr (Or.inr rfl)
  rw [if_neg h8]
  cases dataSize with
  | some v => exact Or.inl rfl
  | none =>
    simp only
    split_ifs
    · exact Or.inr (Or.inr rfl)
    · exact Or.inl rfl

theorem recvPacket_success_inv (rx buffer : List Nat) (tx : List (List Nat))
    (room cmd bufferSize : Nat) (dataSize : Option Nat)
    (hok : (recvPacket ⟨rx, tx, room⟩ cmd buffer bufferSize dataSize).status =
      Status.kSuccess) :
    ∃ g r p rest, (∀ b ∈ g, b ≠ 0xBE) ∧ g.length < 64 ∧ (r = cmd ∨ r = kAny) ∧
      p.length ≤ bufferSize ∧ rx = g ++ 0xBE :: r :: p.length :: (p ++ 0xED :: rest) := by
  have hhead : (recvPacketHeadLoop 64 0 ⟨rx, tx, room⟩).1 = Status.kSuccess := by
    by_contra h1
    unfold recvPacket recvPacketHead at hok
    rw [if_pos h1] at hok
    exact h1 hok
  obtain ⟨g, rest1, hg, hk, hrx⟩ := recvPacketHeadLoop_inv tx room 64 0 rx hhead
  subst hrx
  cases rest1 with
  | nil =>
    rw [recvPacket_head_only g buffer tx room cmd bufferSize dataSize hg hk] at hok
    simp at hok
  | cons r rest2 =>
    by_cases hr : r = cmd ∨ r = kAny
    · cases rest2 with
      | nil =>
        rw [recvPacket_no_length g buffer tx room cmd r bufferSize dataSize hg hk hr] at hok
        simp at hok
      | cons L rest3 =>
        by_cases hfit : L ≤ bufferSize
        · by_cases hlen : rest3.length ≤ L
          · rw [recvPacket_no_tail g rest3 buffer tx room cmd r L bufferSize dataSize hg hk hr
              hfit hlen] at hok
            simp at hok
          · have hsplit : rest3 = rest3.take L ++ rest3.drop L :=
              (List.take_append_drop L rest3).symm
            have htake : (rest3.take L).length = L := by
              rw [List.length_take]; omega
            cases hd : rest3.drop L with
            | nil =>
              have := congrArg List.length hd
              simp at this
              omega
            | cons t rest =>
              have hstream : g ++ 0xBE :: r :: L :: rest3 =
                  g ++ 0xBE :: r :: (rest3.take L).length :: (rest3.take L ++ t :: rest) := by
                rw [htake, ← hd, ← hsplit]
              rw [hstream, recvPacket_framed g (rest3.take L) rest buffer tx room cmd r t
                bufferSize dataSize hg hk hr (by omega)] at hok
              by_cases ht : t = 0xED
              · subst ht
                exact ⟨g, r, rest3.take L, rest, hg, hk, hr, by omega, hstream⟩
              · simp [afterPayload, ht] at hok
        · rw [recvPacket_too_long g rest3 buffer tx room cmd r L bufferSize dataSize hg hk hr
            (by omega)] at hok
          simp at hok
    · have hne : r ≠ cmd := fun h => hr (Or.inl h)
      have hany : r ≠ kAny := fun h => hr (Or.inr h)
      rw [recvPacket_wrong_command g rest2 buffer tx room cmd r bufferSize dataSize hg hk hne
        hany] at hok
      simp at hok


theorem actionExchange_layers (h : Port) (c : Nat) (data : List Nat) (hc : c < 256)
    (hdata : data.length ≤ 255) :
    (actionExchange h c data data.length).1 = Status.kSerialError.toNat ∨
    (actionExchange h c data data.length).1 = Status.kInvalidResponsePacket.toNat ∨
    ∃ g r s rest, (∀ b ∈ g, b ≠ 0xBE) ∧ g.length < 64 ∧ (r = c ∨ r = kAny) ∧
      h.rx = g ++ [0xBE, r, 0x01, s, 0xED] ++ rest ∧
      requestSent h (actionExchange h c data data.length).2 c ∧
      (actionExchange h c data data.length).1 = s := by
  rcases sendPacket_cases h c data hc hdata with ⟨_, hs⟩ | ⟨_, _, hs⟩
  · by_cases hok : (recvPacket ⟨h.rx, h.tx ++ [frame c data], h.txRoom - (data.length + 4)⟩
        c [0] 1 none).status = Status.kSuccess
    · obtain ⟨g, r, p, rest, hg, hk, hr, hp, hrx⟩ := recvPacket_success_inv _ _ _ _ _ _ _ hok
      have hres := recvPacket_framed g p rest [0] (h.tx ++ [frame c data])
        (h.txRoom - (data.length + 4)) c r 0xED 1 none hg hk hr hp
      rw [← hrx] at hres
      rw [hres] at hok
      have hp1 : p.length = 1 := by
        by_contra hne
        simp [afterPayload, hne] at hok
      match p, hp1 with
      | [s], _ =>
        right; right
        refine ⟨g, r, s, rest, hg, hk, hr, by simpa using hrx, ?_, ?_⟩
        · refine ⟨data, ?_⟩
          simp [actionExchange, hs, hres, afterPayload, written]
        · simp [actionExchange, hs, hres, afterPayload]
    · rcases recvPacket_status ⟨h.rx, h.tx ++ [frame c data], h.txRoom - (data.length + 4)⟩
        c [0] 1 none with h1 | h1 | h1
      · exact absurd h1 hok
      · left; simp [actionExchange, hs, h1]
      · right; left; simp [actionExchange, hs, h1]
  · left
    simp [actionExchange, hs]

/-! ## The keyboard state read back -/

theorem HIDKeyCodeToVirtualKeyCode_mem (code : Nat) :
    HIDKeyCodeToVirtualKeyCode code = VirtualKeyCode.kInvalid ∨
      ∃ e ∈ HIDKeyCodeToVirtualKeyCode_cases, e.1 = code ∧
        e.2 = HIDKeyCodeToVirtualKeyCode code := by
  unfold HIDKeyCodeToVirtualKeyCode
  cases hf : HIDKeyCodeToVirtualKeyCode_cases.find? (fun e => e.1 == code) with
  | none => exact Or.inl rfl
  | some e =>
    refine Or.inr ⟨e, List.mem_of_find?_eq_some hf, ?_, rfl⟩
    simpa using List.find?_some hf

set_option maxRecDepth 100000 in
theorem HIDKeyCodeToVirtualKeyCode_cases_eval :
    ∀ e ∈ HIDKeyCodeToVirtualKeyCode_cases,
      named HIDKeyCode.enumerators e.1 = true ∧ e.2 ≠ VirtualKeyCode.kShift ∧
        e.2 ≠ VirtualKeyCode.kControl ∧ e.2 ≠ VirtualKeyCode.kAlt := by
  decide!

theorem HIDKeyCodeToVirtualKeyCode_sided (code : Nat) :
    HIDKeyCodeToVirtualKeyCode code ≠ VirtualKeyCode.kShift ∧
    HIDKeyCodeToVirtualKeyCode code ≠ VirtualKeyCode.kControl ∧
    HIDKeyCodeToVirtualKeyCode code ≠ VirtualKeyCode.kAlt := by
  rcases HIDKeyCodeToVirtualKeyCode_mem code with h0 | ⟨e, he, _, h2⟩
  · rw [h0]; decide
  · rw [← h2]; exact (HIDKeyCodeToVirtualKeyCode_cases_eval e he).2

theorem HIDKeyCodeToVirtualKeyCode_unknown (code : Nat) (hno : code ∉ HIDKeyCode.enumerators) :
    HIDKeyCodeToVirtualKeyCode code = VirtualKeyCode.kInvalid := by
  rcases HIDKeyCodeToVirtualKeyCode_mem code with h0 | ⟨e, he, h1, _⟩
  · exact h0
  · exfalso
    apply hno
    rw [← h1]
    exact (named_iff _ _).1 (HIDKeyCodeToVirtualKeyCode_cases_eval e he).1

theorem getKeyboardState_reply (h : Port) (keyboardState : KeyboardState) (p rest : List Nat)
    (hsent : requestSent h (getKeyboardState h keyboardState).2.2 Command.kGetKeyboardState)
    (hrx : h.rx = [0xBE, Command.kGetKeyboardState, p.length] ++ p ++ [0xED] ++ rest) :
    ((getKeyboardState h keyboardState).1 = Status.kSuccess.toNat ↔ p.length = 8) ∧
      (p.length = 8 →
        (getKeyboardState h keyboardState).2.1 =
          { modifierKeys := p.getD 0 0,
            regularKeys := (List.range 7).map
              (fun i => HIDKeyCodeToVirtualKeyCode (p.getD (1 + i) 0)) }) := by
  have hs := sendPacket_of_requestSent h (getKeyboardState h keyboardState).2.2
    Command.kGetKeyboardState [] (by decide) (by simp)
    (by intro hf; simp only [List.length_nil] at hf; simp [getKeyboardState, hf]) hsent
  simp only [List.length_nil, Nat.zero_add] at hs
  have hframe : h.rx = frame Command.kGetKeyboardState p ++ rest := by simp [hrx, frame]
  simp only [getKeyboardState, hs, hframe]
  refine ⟨?_, fun hp => ?_⟩
  · have hst := recvPacket_exact_status Command.kGetKeyboardState 8 p rest
      [0, 0, 0, 0, 0, 0, 0, 0] (h.tx ++ [frame Command.kGetKeyboardState []]) (h.txRoom - 4)
    by_cases hp : p.length = 8
    · simp [hst.mpr hp, hp]
    · have hbad : ¬ _ := fun hok => hp (hst.mp hok)
      simp [hbad, hp, Status.toNat_eq_zero]
  · rw [recvPacket_exact_buffer _ 8 p rest _ _ _ (by simp) hp]
    simp

/-! ## The keyboard state sent -/

theorem regularKeysMask_eval : ∀ b0 b1 b2 b3 b4 b5 b6 : Bool,
    regularKeysMask [b0, b1, b2, b3, b4, b5, b6] < 128 ∧
    (regularKeysMask [b0, b1, b2, b3, b4, b5, b6]).testBit 0 = b0 ∧
    (regularKeysMask [b0, b1, b2, b3, b4, b5, b6]).testBit 1 = b1 ∧
    (regularKeysMask [b0, b1, b2, b3, b4, b5, b6]).testBit 2 = b2 ∧
    (regularKeysMask [b0, b1, b2, b3, b4, b5, b6]).testBit 3 = b3 ∧
    (regularKeysMask [b0, b1, b2, b3, b4, b5, b6]).testBit 4 = b4 ∧
    (regularKeysMask [b0, b1, b2, b3, b4, b5, b6]).testBit 5 = b5 ∧
    (regularKeysMask [b0, b1, b2, b3, b4, b5, b6]).testBit 6 = b6 ∧
    (regularKeysMask [b0, b1, b2, b3, b4, b5, b6]).testBit 7 = false := by
  decide

theorem regularKeysMask_seven (regularKeys : List Bool) :
    regularKeysMask regularKeys =
      regularKeysMask [regularKeys.getD 0 false, regularKeys.getD 1 false,
        regularKeys.getD 2 false, regularKeys.getD 3 false, regularKeys.getD 4 false,
        regularKeys.getD 5 false, regularKeys.getD 6 false] := by
  unfold regularKeysMask
  rw [show List.range 7 = [0, 1, 2, 3, 4, 5, 6] from rfl]
  simp [List.foldl]

theorem regularKeysMask_bits (regularKeys : List Bool) :
    regularKeysMask regularKeys < 128 ∧
    (∀ i, i < 7 → (regularKeysMask regularKeys).testBit i = regularKeys.getD i false) ∧
    (regularKeysMask regularKeys).testBit 7 = false := by
  have hev := regularKeysMask_eval (regularKeys.getD 0 false) (regularKeys.getD 1 false)
    (regularKeys.getD 2 false) (regularKeys.getD 3 false) (regularKeys.getD 4 false)
    (regularKeys.getD 5 false) (regularKeys.getD 6 false)
  rw [← regularKeysMask_seven] at hev
  obtain ⟨h, h0, h1, h2, h3, h4, h5, h6, h7⟩ := hev
  refine ⟨h, ?_, h7⟩
  intro i hi
  interval_cases i
  · exact h0
  · exact h1
  · exact h2
  · exact h3
  · exact h4
  · exact h5
  · exact h6

/-- C32 (payload of `sendKeyboardState`).  For every keyboard state and mask the call
makes one write, of the frame of command 17 whose payload has exactly ten bytes: the
modifier-mask byte, the regular-keys-mask byte, the modifier-keys byte and
`virtualKeyCodeToHIDKeyCode(state.regularKeys[i])` for `i` in 0..6 (cut short only where
the line takes fewer than the fourteen bytes).  Bit `i` of the regular-keys-mask byte is
set exactly when `mask.regularKeys[i]` is true, for `i` in 0..6, and bit 7 is clear. -/
theorem C32_keyboard_state_payload (h : Port) (keyboardState : KeyboardState)
    (keyboardStateMask : KeyboardStateMask) :
    (sendKeyboardState h keyboardState keyboardStateMask).2.tx =
      h.tx ++ [([0xBE, 17, 10,
        keyboardStateMask.modifierKeys % 256,
        regularKeysMask keyboardStateMask.regularKeys,
        keyboardState.modifierKeys % 256,
        virtualKeyCodeToHIDKeyCode (keyboardState.regularKeys.getD 0 0),
        virtualKeyCodeToHIDKeyCode (keyboardState.regularKeys.getD 1 0),
        virtualKeyCodeToHIDKeyCode (keyboardState.regularKeys.getD 2 0),
        virtualKeyCodeToHIDKeyCode (keyboardState.regularKeys.getD 3 0),
        virtualKeyCodeToHIDKeyCode (keyboardState.regularKeys.getD 4 0),
        virtualKeyCodeToHIDKeyCode (keyboardState.regularKeys.getD 5 0),
        virtualKeyCodeToHIDKeyCode (keyboardState.regularKeys.getD 6 0),
        0xED]).take h.txRoom] ∧
    regularKeysMask keyboardStateMask.regularKeys < 256 ∧
    (∀ i, i < 7 →
      ((regularKeysMask keyboardStateMask.regularKeys).testBit i = true ↔
        keyboardStateMask.regularKeys.getD i false = true) ∧
      (regularKeysMask keyboardStateMask.regularKeys / 2 ^ i % 2 = 1 ↔
        keyboardStateMask.regularKeys.getD i false = true)) ∧
    (regularKeysMask keyboardStateMask.regularKeys).testBit 7 = false := by
  have hbits := regularKeysMask_bits keyboardStateMask.regularKeys
  refine ⟨?_, by omega, ?_, hbits.2.2⟩
  · unfold sendKeyboardState
    simp only
    have htx := actionExchange_tx h Command.kSendKeyboardState
      ([keyboardStateMask.modifierKeys % 256, regularKeysMask keyboardStateMask.regularKeys,
        keyboardState.modifierKeys % 256] ++
        (List.range 7).map
          (fun i => virtualKeyCodeToHIDKeyCode (keyboardState.regularKeys.getD i 0)))
      (by decide) (by simp)
    have hlen : ([keyboardStateMask.modifierKeys % 256,
        regularKeysMask keyboardStateMask.regularKeys,
        keyboardState.modifierKeys % 256] ++
        (List.range 7).map
          (fun i => virtualKeyCodeToHIDKeyCode (keyboardState.regularKeys.getD i 0))).length
        = 10 := by simp
    rw [hlen] at htx
    rw [htx]
    rw [show List.range 7 = [0, 1, 2, 3, 4, 5, 6] from rfl]
    simp [frame, Command.kSendKeyboardState]
  · intro i hi
    have hbit := hbits.2.1 i hi
    refine ⟨by rw [hbit], ?_⟩
    rw [← hbit, Nat.testBit_to_div_mod]
    simp

theorem C32_keyboard_state_payload_witness :
    (regularKeysMask [true, false, true]).testBit 2 = true ∧
    regularKeysMask [true, false, true] = 5 :=
  ⟨((C32_keyboard_state_payload ⟨[], [], 14⟩ ⟨0, []⟩ ⟨0, [true, false, true]⟩).2.2.1 2
      (by decide)).1.2 rfl, by decide⟩

/-! ## Signed coordinates on the wire -/

theorem int16Bytes_eq (x : Int) :
    int16Bytes x = [(x % 65536).toNat % 256, (x % 65536).toNat / 256] := by
  have hlt : (x % 65536).toNat < 65536 := by
    have h1 : x % 65536 < 65536 := Int.emod_lt_of_pos x (by decide)
    have h0 : 0 ≤ x % 65536 := Int.emod_nonneg x (by decide)
    omega
  unfold int16Bytes uint16Bytes
  rw [Nat.mod_eq_of_lt (show (x % 65536).toNat / 256 < 256 by omega)]

theorem int16Of_bytes (x : Int) (hlo : -32768 ≤ x) (hhi : x ≤ 32767) :
    int16Of ((x % 65536).toNat % 256) ((x % 65536).toNat / 256) = x := by
  have h0 : 0 ≤ x % 65536 := Int.emod_nonneg x (by decide)
  have hcast : (((x % 65536).toNat : Nat) : Int) = x % 65536 := Int.toNat_of_nonneg h0
  have hsum : uint16Of ((x % 65536).toNat % 256) ((x % 65536).toNat / 256) =
      (x % 65536).toNat := by
    unfold uint16Of
    exact Nat.mod_add_div _ _
  unfold int16Of
  rw [hsum]
  split_ifs with hsmall <;> omega

/-! ## Output variables when a query fails -/

theorem getHIDWord_failure (h : Port) (cmd value : Nat)
    (hfail : (getHIDWord h cmd value).1 ≠ Status.kSuccess.toNat) :
    (getHIDWord h cmd value).2.1 = value := by
  unfold getHIDWord at hfail ⊢
  generalize sendPacket h cmd [] 0 = s at hfail ⊢
  generalize recvPacket s.2 cmd [0, 0, 0] 3 (some 0) = r at hfail ⊢
  simp only at hfail ⊢
  split_ifs at hfail ⊢ <;> first | exact absurd rfl hfail | rfl

/-- C34 (outputs untouched on failure).  Whenever `getPos`, `getAxes`,
`getDeviceSerialNumber`, `getKeyboardState`, `getHIDVendorID`, `getHIDProductID` or
`getHIDVersionNumber` returns a status other than `kSuccess`, on any line and for any
cause, the caller's output variables hold the values they held before the call. -/
theorem C34_outputs_untouched_on_failure (h : Port) (x y w : Int)
    (deviceSerialNumber : List Nat) (keyboardState : KeyboardState)
    (vendorID productID versionNumber : Nat) :
    ((getPos h x y).1 ≠ Status.kSuccess.toNat →
      (getPos h x y).2.1 = x ∧ (getPos h x y).2.2.1 = y) ∧
    ((getAxes h x y w).1 ≠ Status.kSuccess.toNat →
      (getAxes h x y w).2.1 = x ∧ (getAxes h x y w).2.2.1 = y ∧
        (getAxes h x y w).2.2.2.1 = w) ∧
    ((getDeviceSerialNumber h deviceSerialNumber).1 ≠ Status.kSuccess.toNat →
      (getDeviceSerialNumber h deviceSerialNumber).2.1 = deviceSerialNumber) ∧
    ((getKeyboardState h keyboardState).1 ≠ Status.kSuccess.toNat →
      (getKeyboardState h keyboardState).2.1 = keyboardState) ∧
    ((getHIDVendorID h vendorID).1 ≠ Status.kSuccess.toNat →
      (getHIDVendorID h vendorID).2.1 = vendorID) ∧
    ((getHIDProductID h productID).1 ≠ Status.kSuccess.toNat →
      (getHIDProductID h productID).2.1 = productID) ∧
    ((getHIDVersionNumber h versionNumber).1 ≠ Status.kSuccess.toNat →
      (getHIDVersionNumber h versionNumber).2.1 = versionNumber) := by
  refine ⟨?_, ?_, ?_, ?_, getHIDWord_failure h _ _, getHIDWord_failure h _ _,
    getHIDWord_failure h _ _⟩
  · intro hfail
    unfold getPos at hfail ⊢
    generalize sendPacket h Command.kGetPos [] 0 = s at hfail ⊢
    generalize recvPacket s.2 Command.kGetPos [0, 0, 0, 0] 4 none = r at hfail ⊢
    simp only at hfail ⊢
    split_ifs at hfail ⊢ <;> first | exact absurd rfl hfail | exact ⟨rfl, rfl⟩
  · intro hfail
    unfold getAxes at hfail ⊢
    generalize sendPacket h Command.kGetAxes [] 0 = s at hfail ⊢
    generalize recvPacket s.2 Command.kGetAxes [0, 0, 0, 0, 0, 0] 6 none = r at hfail ⊢
    simp only at hfail ⊢
    split_ifs at hfail ⊢ <;> first | exact absurd rfl hfail | exact ⟨rfl, rfl, rfl⟩
  · intro hfail
    unfold getDeviceSerialNumber at hfail ⊢
    generalize sendPacket h Command.kGetDeviceSerialNumber [] 0 = s at hfail ⊢
    generalize recvPacket s.2 Command.kGetDeviceSerialNumber (List.replicate 20 0) 20 none = r at hfail ⊢
    simp only at hfail ⊢
    split_ifs at hfail ⊢ <;> first | exact absurd rfl hfail | rfl
  · intro hfail
    unfold getKeyboardState at hfail ⊢
    generalize sendPacket h Command.kGetKeyboardState [] 0 = s at hfail ⊢
    generalize recvPacket s.2 Command.kGetKeyboardState [0, 0, 0, 0, 0, 0, 0, 0] 8 none = r at hfail ⊢
    simp only at hfail ⊢
    split_ifs at hfail ⊢ <;> first | exact absurd rfl hfail | rfl

theorem C34_outputs_untouched_on_failure_witness :
    (getPos ⟨[0xBE, 74, 2, 1, 2, 0xED], [], 4⟩ 7 (-9)).1 ≠ Status.kSuccess.toNat ∧
    (getPos ⟨[0xBE, 74, 2, 1, 2, 0xED], [], 4⟩ 7 (-9)).2.1 = 7 ∧
    (getPos ⟨[0xBE, 74, 2, 1, 2, 0xED], [], 4⟩ 7 (-9)).2.2.1 = -9 ∧
    (getHIDVendorID ⟨[0xBE, 91, 1, 2, 0xED], [], 4⟩ 0x1234).1 = Status.kReadFlashError.toNat ∧
    (getHIDVendorID ⟨[0xBE, 91, 1, 2, 0xED], [], 4⟩ 0x1234).2.1 = 0x1234 := by
  have hgo := C34_outputs_untouched_on_failure ⟨[0xBE, 74, 2, 1, 2, 0xED], [], 4⟩ 7 (-9) 0
    [] ⟨0, []⟩ 0 0 0
  have hid := C34_outputs_untouched_on_failure ⟨[0xBE, 91, 1, 2, 0xED], [], 4⟩ 0 0 0
    [] ⟨0, []⟩ 0x1234 0 0
  have h1 : (getPos ⟨[0xBE, 74, 2, 1, 2, 0xED], [], 4⟩ 7 (-9)).1 ≠ Status.kSuccess.toNat := by
    decide
  have h2 : (getHIDVendorID ⟨[0xBE, 91, 1, 2, 0xED], [], 4⟩ 0x1234).1 =
      Status.kReadFlashError.toNat := by decide
  exact ⟨h1, (hgo.1 h1).1, (hgo.1 h1).2, h2, hid.2.2.2.2.1 (by rw [h2]; decide)⟩

/-! ## How much of the stream a decode takes -/

theorem serialRecv_rx (h : Port) (buffer : List Nat) (n : Nat) :
    (serialRecv h buffer n).2.2.rx = h.rx.drop n := by
  simp [serialRecv, ReadFile]

theorem serialRecvByte_rx (h : Port) (v : Nat) :
    (serialRecvByte h v).2.2.rx = h.rx.drop 1 := by
  simp [serialRecvByte, serialRecv, ReadFile]

theorem serialRecv_stored (h : Port) (buffer : List Nat) (n : Nat) :
    ∃ data : List Nat, data.length ≤ n ∧
      (serialRecv h buffer n).2.1 = data ++ buffer.drop data.length := by
  refine ⟨h.rx.take n, by simp [List.length_take], ?_⟩
  simp [serialRecv, ReadFile, memcpy]

theorem recvPacketHeadLoop_rx :
    ∀ (n v : Nat) (h : Port), ∃ k, k ≤ n ∧ (recvPacketHeadLoop n v h).2.rx = h.rx.drop k := by
  intro n
  induction n with
  | zero => intro v h; exact ⟨0, Nat.le_refl 0, by simp [recvPacketHeadLoop]⟩
  | succ n ih =>
    intro v h
    have hr := serialRecvByte_rx h v
    unfold recvPacketHeadLoop
    generalize serialRecvByte h v = r at hr ⊢
    simp only
    by_cases h1 : (!r.1) = true
    · rw [if_pos h1]; exact ⟨1, by omega, hr⟩
    rw [if_neg h1]
    by_cases h2 : r.2.1 = 0xBE
    · rw [if_pos h2]; exact ⟨1, by omega, hr⟩
    rw [if_neg h2]
    obtain ⟨k, hk, hrx⟩ := ih r.2.1 r.2.2
    refine ⟨1 + k, by omega, ?_⟩
    rw [hrx, hr, List.drop_drop]

theorem recvPacketHeadLoop_exhausted_inv (tx : List (List Nat)) (room : Nat) :
    ∀ (n v : Nat) (rx : List Nat),
      (recvPacketHeadLoop n v ⟨rx, tx, room⟩).1 = Status.kInvalidResponsePacket →
      n ≤ rx.length ∧ ∀ b ∈ rx.take n, b ≠ 0xBE := by
  intro n
  induction n with
  | zero => intro v rx _; simp
  | succ n ih =>
    intro v rx hst
    cases rx with
    | nil => simp [recvPacketHeadLoop, serialRecvByte_nil] at hst
    | cons a rx =>
      by_cases ha : a = 0xBE
      · simp [recvPacketHeadLoop, serialRecvByte_cons, ha] at hst
      · simp only [recvPacketHeadLoop, serialRecvByte_cons, Bool.not_true, Bool.false_eq_true,
          if_false, ha] at hst
        obtain ⟨hlen, hno⟩ := ih a rx hst
        refine ⟨by simp; omega, ?_⟩
        intro b hb
        rw [List.take_succ_cons, List.mem_cons] at hb
        rcases hb with rfl | hb
        · exact ha
        · exact hno b hb

theorem recvPacket_bounded (h : Port) (cmd : Nat) (buffer : List Nat) (bufferSize : Nat)
    (dataSize : Option Nat) :
    (∃ k, k ≤ 67 + bufferSize ∧
      (recvPacket h cmd buffer bufferSize dataSize).port.rx = h.rx.drop k) ∧
    (∃ data : List Nat, data.length ≤ bufferSize ∧
      (recvPacket h cmd buffer bufferSize dataSize).buffer =
        data ++ buffer.drop data.length) := by
  have hkeep : ∃ data : List Nat, data.length ≤ bufferSize ∧
      buffer = data ++ buffer.drop data.length := ⟨[], by simp, by simp⟩
  obtain ⟨k1, hk1, hhd⟩ := recvPacketHeadLoop_rx 64 0 h
  unfold recvPacket recvPacketHead
  generalize recvPacketHeadLoop 64 0 h = hd at hhd ⊢
  by_cases h1 : hd.1 ≠ Status.kSuccess
  · rw [if_pos h1]; exact ⟨⟨k1, by omega, hhd⟩, hkeep⟩
  rw [if_neg h1]
  have hc := serialRecvByte_rx hd.2 0
  generalize serialRecvByte hd.2 0 = c at hc ⊢
  rw [hhd, List.drop_drop] at hc
  by_cases h2 : (!c.1) = true
  · rw [if_pos h2]; exact ⟨⟨_, by omega, hc⟩, hkeep⟩
  rw [if_neg h2]
  by_cases h3 : c.2.1 ≠ cmd ∧ c.2.1 ≠ kAny
  · rw [if_pos h3]; exact ⟨⟨_, by omega, hc⟩, hkeep⟩
  rw [if_neg h3]
  have hz := serialRecvByte_rx c.2.2 0
  generalize serialRecvByte c.2.2 0 = z at hz ⊢
  rw [hc, List.drop_drop] at hz
  by_cases h4 : (!z.1) = true
  · rw [if_pos h4]; exact ⟨⟨_, by omega, hz⟩, hkeep⟩
  rw [if_neg h4]
  by_cases h5 : z.2.1 > bufferSize
  · rw [if_pos h5]; exact ⟨⟨_, by omega, hz⟩, hkeep⟩
  rw [if_neg h5]
  have hp : (∃ k, k ≤ 66 + bufferSize ∧
      (if z.2.1 ≠ 0 then serialRecv z.2.2 buffer z.2.1 else (true, buffer, z.2.2)).2.2.rx =
        h.rx.drop k) ∧
      ∃ data : List Nat, data.length ≤ bufferSize ∧
        (if z.2.1 ≠ 0 then serialRecv z.2.2 buffer z.2.1 else (true, buffer, z.2.2)).2.1 =
          data ++ buffer.drop data.length := by
    split_ifs
    · obtain ⟨data, hlen, hdata⟩ := serialRecv_stored z.2.2 buffer z.2.1
      refine ⟨⟨_, ?_, by rw [serialRecv_rx, hz, List.drop_drop]⟩, data, by omega, hdata⟩
      omega
    · exact ⟨⟨_, by omega, hz⟩, hkeep⟩
  generalize (if z.2.1 ≠ 0 then serialRecv z.2.2 buffer z.2.1 else (true, buffer, z.2.2)) = p
    at hp ⊢
  obtain ⟨⟨kp, hkp, hprx⟩, hstored⟩ := hp
  by_cases h6 : (!p.1) = true
  · rw [if_pos h6]; exact ⟨⟨kp, by omega, hprx⟩, hstored⟩
  rw [if_neg h6]
  have ht := serialRecvByte_rx p.2.2 0
  generalize serialRecvByte p.2.2 0 = t at ht ⊢
  rw [hprx, List.drop_drop] at ht
  by_cases h7 : (!t.1) = true
  · rw [if_pos h7]; exact ⟨⟨_, by omega, ht⟩, hstored⟩
  rw [if_neg h7]
  by_cases h8 : t.2.1 ≠ 0xED
  · rw [if_pos h8]; exact ⟨⟨_, by omega, ht⟩, hstored⟩
  rw [if_neg h8]
  cases dataSize with
  | some v => exact ⟨⟨_, by omega, ht⟩, hstored⟩
  | none =>
    simp only
    split_ifs <;> exact ⟨⟨_, by omega, ht⟩, hstored⟩

theorem consumed_of_drop (before after : Port) (k : Nat) (hrx : after.rx = before.rx.drop k) :
    consumed before after ≤ k ∧ after.rx = before.rx.drop (consumed before after) := by
  unfold consumed
  rw [hrx, List.length_drop]
  refine ⟨by omega, ?_⟩
  by_cases hk : k ≤ before.rx.length
  · congr 1; omega
  · rw [List.drop_of_length_le (by omega), List.drop_of_length_le (by omega)]

theorem afterPayload_port (t : Nat) (p buffer : List Nat) (bufferSize : Nat)
    (dataSize : Option Nat) (port : Port) :
    afterPayload t p buffer bufferSize dataSize port =
      ⟨(afterPayload t p buffer bufferSize dataSize ⟨[], [], 0⟩).status,
        (afterPayload t p buffer bufferSize dataSize ⟨[], [], 0⟩).buffer,
        (afterPayload t p buffer bufferSize dataSize ⟨[], [], 0⟩).dataSize, port⟩ := by
  unfold afterPayload
  cases dataSize <;> simp only <;> split_ifs <;> rfl

theorem recvPacket_front_only (cmd : Nat) (buffer : List Nat) (bufferSize : Nat)
    (dataSize : Option Nat) (pre : List Nat) (hlen : 67 + bufferSize ≤ pre.length) :
    ∃ (st : Status) (buf : List Nat) (ds : Option Nat) (used rem : List Nat),
      pre = used ++ rem ∧ used.length ≤ 67 + bufferSize ∧
      ∀ (t : List Nat) (tx : List (List Nat)) (room : Nat),
        recvPacket ⟨pre ++ t, tx, room⟩ cmd buffer bufferSize dataSize =
          ⟨st, buf, ds, ⟨rem ++ t, tx, room⟩⟩ := by
  by_cases hno : ∀ b ∈ pre.take 64, b ≠ 0xBE
  · refine ⟨Status.kInvalidResponsePacket, buffer, dataSize, pre.take 64, pre.drop 64,
      (List.take_append_drop 64 pre).symm, by rw [List.length_take]; omega,
      fun t tx room => ?_⟩
    have htake : (pre ++ t).take 64 = pre.take 64 := List.take_append_of_le_length (by omega)
    have hdrop : (pre ++ t).drop 64 = pre.drop 64 ++ t :=
      List.drop_append_of_le_length (by omega)
    rw [recvPacket_exhausted (pre ++ t) buffer tx room cmd bufferSize dataSize
      (by simp; omega) (by rw [htake]; exact hno), hdrop]
  · have hmem : 0xBE ∈ pre.take 64 := by
      by_contra hnot
      exact hno (fun b hb hbe => hnot (hbe ▸ hb))
    obtain ⟨g, g2, hsplit, hg⟩ := List.eq_append_cons_of_mem hmem
    have hg1 : ∀ b ∈ g, b ≠ 0xBE := fun b hb hbe => hg (hbe ▸ hb)
    have htl : (pre.take 64).length = 64 := by rw [List.length_take]; omega
    have hglen : g.length < 64 := by
      rw [hsplit] at htl
      simp at htl
      omega
    have hpre : pre = g ++ 0xBE :: (g2 ++ pre.drop 64) := by
      conv_lhs => rw [← List.take_append_drop 64 pre, hsplit]
      simp
    generalize g2 ++ pre.drop 64 = rest1 at hpre
    have hl1 : 3 + bufferSize ≤ rest1.length := by
      rw [hpre] at hlen
      simp at hlen
      omega
    match rest1, hpre, hl1 with
    | [], _, hl1 => simp at hl1
    | [_], _, hl1 => simp at hl1; omega
    | r :: L :: rest2, hpre, hl1 =>
      have hl2 : 1 + bufferSize ≤ rest2.length := by simp at hl1; omega
      by_cases hr : r = cmd ∨ r = kAny
      · by_cases hL : bufferSize < L
        · refine ⟨Status.kSerialError, buffer, dataSize, g ++ [0xBE, r, L], rest2,
            by simp [hpre], by simp; omega, fun t tx room => ?_⟩
          have := recvPacket_too_long g (rest2 ++ t) buffer tx room cmd r L bufferSize
            dataSize hg1 hglen hr hL
          rw [← this, hpre]
          simp
        · have hsp : rest2 = rest2.take L ++ rest2.drop L := (List.take_append_drop L rest2).symm
          have hpl : (rest2.take L).length = L := by rw [List.length_take]; omega
          have hdl : 1 ≤ (rest2.drop L).length := by rw [List.length_drop]; omega
          generalize rest2.take L = p at hsp hpl
          generalize rest2.drop L = q at hsp hdl
          match q, hsp, hdl with
          | [], _, hdl => simp at hdl
          | tl :: rest3, hsp, _ =>
            refine ⟨(afterPayload tl p buffer bufferSize dataSize ⟨[], [], 0⟩).status,
              (afterPayload tl p buffer bufferSize dataSize ⟨[], [], 0⟩).buffer,
              (afterPayload tl p buffer bufferSize dataSize ⟨[], [], 0⟩).dataSize,
              g ++ 0xBE :: r :: L :: (p ++ [tl]), rest3, by simp [hpre, hsp],
              by simp; omega, fun t tx room => ?_⟩
            have := recvPacket_framed g p (rest3 ++ t) buffer tx room cmd r tl bufferSize
              dataSize hg1 hglen hr (by omega)
            rw [← afterPayload_port, ← this, hpre, hsp, hpl]
            simp
      · have hr2 : r ≠ cmd ∧ r ≠ kAny := by
          constructor
          · exact fun hc => hr (Or.inl hc)
          · exact fun hc => hr (Or.inr hc)
        refine ⟨Status.kInvalidResponsePacket, buffer, dataSize, g ++ [0xBE, r], L :: rest2,
          by simp [hpre], by simp; omega, fun t tx room => ?_⟩
        have := recvPacket_wrong_command g (L :: rest2 ++ t) buffer tx room cmd r bufferSize
          dataSize hg1 hglen hr2.1 hr2.2
        rw [← this, hpre]
        simp

/-- C35 (bounded decode).  The decoder is a total function of the line, and for every
line, expected command, buffer and capacity `c`: the head search takes at most 64 bytes
from the front of the incoming stream; the whole decode takes at most `67 + c`; what it
leaves in the buffer is the old buffer with at most `c` bytes stored at its front; the
head search gives up exactly when the stream opens with 64 bytes other than `0xBE`, and
then exactly 64 bytes have been taken.  A stream of at least `67 + c` bytes, however
long, is decoded from a front part of at most `67 + c` bytes alone: status, buffer, data
size and the bytes taken are the same whatever follows. -/
theorem C35_bounded_decode (h : Port) (cmd : Nat) (buffer : List Nat) (c : Nat)
    (dataSize : Option Nat) :
    (consumed h (recvPacketHead h).2 ≤ 64 ∧
      (recvPacketHead h).2.rx = h.rx.drop (consumed h (recvPacketHead h).2)) ∧
    (consumed h (recvPacket h cmd buffer c dataSize).port ≤ 67 + c ∧
      (recvPacket h cmd buffer c dataSize).port.rx =
        h.rx.drop (consumed h (recvPacket h cmd buffer c dataSize).port)) ∧
    (∃ data : List Nat, data.length ≤ c ∧
      (recvPacket h cmd buffer c dataSize).buffer = data ++ buffer.drop data.length) ∧
    ((recvPacketHead h).1 = Status.kInvalidResponsePacket ↔
      64 ≤ h.rx.length ∧ ∀ b ∈ h.rx.take 64, b ≠ 0xBE) ∧
    ((recvPacketHead h).1 = Status.kInvalidResponsePacket →
      consumed h (recvPacketHead h).2 = 64 ∧
      (recvPacket h cmd buffer c dataSize).status = Status.kInvalidResponsePacket ∧
      consumed h (recvPacket h cmd buffer c dataSize).port = 64) ∧
    (∀ pre : List Nat, 67 + c ≤ pre.length →
      ∃ (st : Status) (buf : List Nat) (ds : Option Nat) (used rem : List Nat),
        pre = used ++ rem ∧ used.length ≤ 67 + c ∧
        ∀ (t : List Nat) (tx : List (List Nat)) (room : Nat),
          recvPacket ⟨pre ++ t, tx, room⟩ cmd buffer c dataSize =
            ⟨st, buf, ds, ⟨rem ++ t, tx, room⟩⟩) := by
  obtain ⟨k1, hk1, hhd⟩ := recvPacketHeadLoop_rx 64 0 h
  have hc1 := consumed_of_drop h (recvPacketHead h).2 k1 hhd
  obtain ⟨⟨k, hk, hrx⟩, hstored⟩ := recvPacket_bounded h cmd buffer c dataSize
  have hc2 := consumed_of_drop h (recvPacket h cmd buffer c dataSize).port k hrx
  have hiff : (recvPacketHead h).1 = Status.kInvalidResponsePacket ↔
      64 ≤ h.rx.length ∧ ∀ b ∈ h.rx.take 64, b ≠ 0xBE := by
    constructor
    · exact recvPacketHeadLoop_exhausted_inv h.tx h.txRoom 64 0 h.rx
    · intro hex
      have := recvPacket_exhausted h.rx buffer h.tx h.txRoom cmd c dataSize hex.1 hex.2
      have hsplit : h.rx = h.rx.take 64 ++ h.rx.drop 64 := (List.take_append_drop 64 h.rx).symm
      have hloop := recvPacketHeadLoop_exhausted (h.rx.drop 64) h.tx h.txRoom 64
        (h.rx.take 64) 0 hex.2 (by rw [List.length_take]; omega)
      rw [← hsplit] at hloop
      unfold recvPacketHead
      rw [hloop]
  refine ⟨⟨by omega, hc1.2⟩, ⟨by omega, hc2.2⟩, hstored, hiff, ?_,
    fun pre hpre => recvPacket_front_only cmd buffer c dataSize pre hpre⟩
  intro hex
  have hstream := hiff.1 hex
  have hall := recvPacket_exhausted h.rx buffer h.tx h.txRoom cmd c dataSize hstream.1
    hstream.2
  have hsplit : h.rx = h.rx.take 64 ++ h.rx.drop 64 := (List.take_append_drop 64 h.rx).symm
  have hloop := recvPacketHeadLoop_exhausted (h.rx.drop 64) h.tx h.txRoom 64
    (h.rx.take 64) 0 hstream.2 (by rw [List.length_take]; omega)
  rw [← hsplit] at hloop
  have hhead : recvPacketHead h = (Status.kInvalidResponsePacket,
      ⟨h.rx.drop 64, h.tx, h.txRoom⟩) := hloop
  rw [hhead, hall]
  refine ⟨?_, rfl, ?_⟩ <;> simp [consumed, List.length_drop] <;> omega

theorem C35_bounded_decode_witness :
    consumed ⟨List.replicate 70 0, [], 0⟩
      (recvPacket ⟨List.replicate 70 0, [], 0⟩ 74 [0, 0, 0, 0] 4 none).port = 64 :=
  ((C35_bounded_decode ⟨List.replicate 70 0, [], 0⟩ 74 [0, 0, 0, 0] 4 none).2.2.2.2.1
    (by decide)).2.2

/-! ## The names of the statuses -/

theorem statusToString_named :
    statusToString Status.kSuccess.toNat = .ok ("RX784::Status::" ++ "kSuccess") ∧
    statusToString Status.kSerialError.toNat = .ok ("RX784::Status::" ++ "kSerialError") ∧
    statusToString Status.kReadFlashError.toNat = .ok ("RX784::Status::" ++ "kReadFlashError") ∧
    statusToString Status.kWriteFlashError.toNat = .ok ("RX784::Status::" ++ "kWriteFlashError") ∧
    statusToString Status.kInvalidSize.toNat = .ok ("RX784::Status::" ++ "kInvalidSize") ∧
    statusToString Status.kInvalidCommandPacket.toNat =
      .ok ("RX784::Status::" ++ "kInvalidCommandPacket") ∧
    statusToString Status.kInvalidResponsePacket.toNat =
      .ok ("RX784::Status::" ++ "kInvalidResponsePacket") := by
  refine ⟨?_, ?_, ?_, ?_, ?_, ?_, ?_⟩ <;> rfl

theorem statusToString_injective_eval :
    ∀ a, a < 7 → ∀ b, b < 7 → statusToString a = statusToString b → a = b := by
  intro a ha b hb
  interval_cases a <;> interval_cases b <;> simp [statusToString, Status.toNat]

theorem statusToString_default (s : Nat) (hs : 7 ≤ s) :
    statusToString s =
      .error ⟨String.singleton (Char.ofNat s) ++ " is not a valid RX784::Status"⟩ := by
  unfold statusToString
  simp only [Status.toNat]
  rw [if_neg (by omega), if_neg (by omega), if_neg (by omega), if_neg (by omega),
    if_neg (by omega), if_neg (by omega), if_neg (by omega)]

/-- C37 (`statusToString`).  The function returns a string exactly on the seven
values 0..6 of `Status`: there it returns `RX784::Status::` followed by the name of the
enumerator, different statuses give different strings, and on every other value, so on
every byte 7..255, it throws `std::out_of_range` and returns nothing. -/
theorem C37_status_names :
    [Status.kSuccess.toNat, Status.kSerialError.toNat, Status.kReadFlashError.toNat,
      Status.kWriteFlashError.toNat, Status.kInvalidSize.toNat,
      Status.kInvalidCommandPacket.toNat, Status.kInvalidResponsePacket.toNat] =
      [0, 1, 2, 3, 4, 5, 6] ∧
    (statusToString 0 = .ok ("RX784::Status::" ++ "kSuccess") ∧
      statusToString 1 = .ok ("RX784::Status::" ++ "kSerialError") ∧
      statusToString 2 = .ok ("RX784::Status::" ++ "kReadFlashError") ∧
      statusToString 3 = .ok ("RX784::Status::" ++ "kWriteFlashError") ∧
      statusToString 4 = .ok ("RX784::Status::" ++ "kInvalidSize") ∧
      statusToString 5 = .ok ("RX784::Status::" ++ "kInvalidCommandPacket") ∧
      statusToString 6 = .ok ("RX784::Status::" ++ "kInvalidResponsePacket")) ∧
    (∀ a b, a ≤ 6 → b ≤ 6 → statusToString a = statusToString b → a = b) ∧
    (∀ s, (∃ text, statusToString s = .ok text) ↔ s ≤ 6) ∧
    (∀ s, 7 ≤ s → ∃ e : out_of_range, statusToString s = .error e) := by
  refine ⟨rfl, statusToString_named, ?_, ?_, ?_⟩
  · intro a b ha hb
    exact statusToString_injective_eval a (by omega) b (by omega)
  · intro s
    constructor
    · rintro ⟨text, htext⟩
      by_contra hs
      rw [statusToString_default s (by omega)] at htext
      exact Except.noConfusion htext
    · intro hs
      interval_cases s
      · exact ⟨_, statusToString_named.1⟩
      · exact ⟨_, statusToString_named.2.1⟩
      · exact ⟨_, statusToString_named.2.2.1⟩
      · exact ⟨_, statusToString_named.2.2.2.1⟩
      · exact ⟨_, statusToString_named.2.2.2.2.1⟩
      · exact ⟨_, statusToString_named.2.2.2.2.2.1⟩
      · exact ⟨_, statusToString_named.2.2.2.2.2.2⟩
  · intro s hs
    exact ⟨_, statusToString_default s hs⟩

theorem C37_status_names_witness :
    (∃ e : out_of_range, statusToString 7 = .error e) ∧
    (∃ e : out_of_range, statusToString 255 = .error e) :=
  ⟨C37_status_names.2.2.2.2 7 (by decide), C37_status_names.2.2.2.2 255 (by decide)⟩

/-! ## Exchanges on a line that takes the request

The request write of an operation succeeds exactly when the host does not refuse the
call and the line takes the bytes of the request frame; the theorems of this section
state that on the line before the call. -/

theorem sendPacket_room (h : Port) (c : Nat) (data : List Nat) (hc : c < 256)
    (hdata : data.length ≤ 255) (hroom : data.length + 4 ≤ h.txRoom) :
    sendPacket h c data data.length =
      (Status.kSuccess, ⟨h.rx, h.tx ++ [frame c data], h.txRoom - (data.length + 4)⟩) := by
  rcases sendPacket_cases h c data hc hdata with ⟨_, hs⟩ | ⟨hlt, _, _⟩
  · exact hs
  · omega

theorem requestSent_of_tx (h final : Port) (c : Nat) (data : List Nat)
    (hroom : data.length + 4 ≤ h.txRoom)
    (htx : final.tx = h.tx ++ [(frame c data).take h.txRoom]) : requestSent h final c := by
  refine ⟨data, ?_⟩
  have hfull : (frame c data).take h.txRoom = frame c data :=
    List.take_of_length_le (by rw [frame_length]; exact hroom)
  simp [written, htx, hfull]

theorem actionExchange_sent (h : Port) (c : Nat) (data : List Nat) (hc : c < 256)
    (hdata : data.length ≤ 255) (hroom : data.length + 4 ≤ h.txRoom) :
    requestSent h (actionExchange h c data data.length).2 c :=
  requestSent_of_tx h _ c data hroom (actionExchange_tx h c data hc hdata)

theorem Call.run_requestSent {α : Type} (strToWstr : α → List Nat) (wstrToStr : List Nat → α)
    (h : Port) (c : Call α) (hok : c.refused strToWstr = false)
    (hroom : (c.payload strToWstr).length + 4 ≤ h.txRoom) :
    requestSent h (c.run strToWstr wstrToStr h).2.2 c.command :=
  requestSent_of_tx h _ c.command (c.payload strToWstr) hroom
    (Call.run_written strToWstr wstrToStr h c hok)

theorem QueryCall.query_run_requestSent {α : Type} (wstrToStr : List Nat → α) (h : Port)
    (q : QueryCall α) (hroom : q.payload.length + 4 ≤ h.txRoom) :
    requestSent h (q.run wstrToStr h).2.2 q.command :=
  Call.run_requestSent (fun _ => []) wstrToStr h (Call.query q) rfl hroom

theorem ActionCall.action_run_requestSent {α : Type} (strToWstr : α → List Nat) (h : Port)
    (a : ActionCall α) (hok : a.refused strToWstr = false)
    (hroom : (a.payload strToWstr).length + 4 ≤ h.txRoom) :
    requestSent h (a.run strToWstr h).2 a.command := by
  rw [ActionCall.run_eq]
  simp only [hok, Bool.false_eq_true, if_false]
  exact actionExchange_sent h a.command (a.payload strToWstr) a.command_lt
    (a.payload_length_le strToWstr hok) hroom

theorem getHIDWord_sent (h : Port) (c value : Nat) (hc : c < 256) (hroom : 4 ≤ h.txRoom) :
    requestSent h (getHIDWord h c value).2.2 c := by
  have hs := sendPacket_room h c [] hc (by simp) (by simpa using hroom)
  simp only [List.length_nil, Nat.zero_add] at hs
  refine requestSent_of_tx h _ c [] (by simpa using hroom) ?_
  have hfull : (frame c []).take h.txRoom = frame c [] :=
    List.take_of_length_le (by rw [frame_length]; simpa using hroom)
  rw [hfull]
  unfold getHIDWord
  simp only [hs, ne_eq, not_true_eq_false, if_false]
  split_ifs <;> simp [(recvPacket_tx _ _ _ _ _).1]

theorem getHIDString_sent {α : Type} (wstrToStr : List Nat → α) (h : Port) (c : Nat)
    (text : Option α) (hc : c < 256) (hroom : 4 ≤ h.txRoom) :
    requestSent h (getHIDString wstrToStr h c text).2.2 c := by
  have hs := sendPacket_room h c [] hc (by simp) (by simpa using hroom)
  simp only [List.length_nil, Nat.zero_add] at hs
  refine requestSent_of_tx h _ c [] (by simpa using hroom) ?_
  have hfull : (frame c []).take h.txRoom = frame c [] :=
    List.take_of_length_le (by rw [frame_length]; simpa using hroom)
  rw [hfull]
  unfold getHIDString
  simp only [hs, ne_eq, not_true_eq_false, if_false]
  split_ifs <;> simp [(recvPacket_tx _ _ _ _ _).1]

/-- C12 (action operations propagate the device status).  For every action operation,
called with any arguments that the host does not refuse, on a line that takes the bytes
of its request: the request write succeeds, and when the line delivers the reply
`[0xBE, c, 0x01, s, 0xED]`, `c` being the command id of the operation, the `Status` it
returns has the numeric value `s`, for every byte `s`. -/
theorem C12_action_status {α : Type} (strToWstr : α → List Nat) (a : ActionCall α)
    (h : Port) (s : Nat) (hok : a.refused strToWstr = false)
    (hroom : (a.payload strToWstr).length + 4 ≤ h.txRoom)
    (hrx : h.rx = [0xBE, a.command, 0x01, s, 0xED]) :
    requestSent h (a.run strToWstr h).2 a.command ∧ (a.run strToWstr h).1 = s := by
  refine ⟨ActionCall.action_run_requestSent strToWstr h a hok hroom, ?_⟩
  have hsent := actionExchange_sent h a.command (a.payload strToWstr) a.command_lt
    (a.payload_length_le strToWstr hok) hroom
  rw [ActionCall.run_eq]
  simp only [hok, Bool.false_eq_true, if_false]
  have hframe : h.rx = frame a.command [s] ++ [] := by simp [hrx, frame]
  have := actionExchange_reply h a.command (a.payload strToWstr) [s] [] a.command_lt
    (a.payload_length_le strToWstr hok) hsent hframe
  simpa using this

theorem C12_action_status_witness :
    requestSent ⟨[0xBE, 0x0B, 0x01, 0x00, 0xED], [], 16⟩
      (RX784.keyDown ⟨[0xBE, 0x0B, 0x01, 0x00, 0xED], [], 16⟩ VirtualKeyCode.kKeyA).2 0x0B ∧
    (RX784.keyDown ⟨[0xBE, 0x0B, 0x01, 0x00, 0xED], [], 16⟩ VirtualKeyCode.kKeyA).1 =
      Status.kSuccess.toNat :=
  C12_action_status (fun (w : List Nat) => w) (ActionCall.keyDown VirtualKeyCode.kKeyA)
    ⟨[0xBE, 0x0B, 0x01, 0x00, 0xED], [], 16⟩ 0 rfl (by decide) rfl

/-- C14, as the code has it (the claim as stated fails on the code for the status byte
0 of the three ID queries).  On a line that takes the four bytes of the request, a
well-framed reply with the matching command id and the one-byte payload `[s]` leaves
the output argument as it was, and: `getHIDManufacturerString` and
`getHIDProductString` return the `Status` with value `s` for every byte `s`;
`getHIDVendorID`, `getHIDProductID` and `getHIDVersionNumber` return the `Status` with
value `s` for every `s ≠ 0`, and `kInvalidResponsePacket` for `s = 0`. -/
theorem C14_query_rejection {α : Type} (wstrToStr : List Nat → α) (h : Port) (s : Nat)
    (rest : List Nat) (hroom : 4 ≤ h.txRoom) :
    (∀ vendorID : Nat,
      h.rx = [0xBE, Command.kGetVendorID, 0x01, s, 0xED] ++ rest →
      (getHIDVendorID h vendorID).1 =
          (if s = 0 then Status.kInvalidResponsePacket.toNat else s) ∧
        (getHIDVendorID h vendorID).2.1 = vendorID) ∧
    (∀ productID : Nat,
      h.rx = [0xBE, Command.kGetProductID, 0x01, s, 0xED] ++ rest →
      (getHIDProductID h productID).1 =
          (if s = 0 then Status.kInvalidResponsePacket.toNat else s) ∧
        (getHIDProductID h productID).2.1 = productID) ∧
    (∀ versionNumber : Nat,
      h.rx = [0xBE, Command.kGetVersionNumber, 0x01, s, 0xED] ++ rest →
      (getHIDVersionNumber h versionNumber).1 =
          (if s = 0 then Status.kInvalidResponsePacket.toNat else s) ∧
        (getHIDVersionNumber h versionNumber).2.1 = versionNumber) ∧
    (∀ manufacturerString : Option α,
      h.rx = [0xBE, Command.kGetManufacturerString, 0x01, s, 0xED] ++ rest →
      (getHIDManufacturerString wstrToStr h manufacturerString).1 = s ∧
        (getHIDManufacturerString wstrToStr h manufacturerString).2.1 = manufacturerString) ∧
    (∀ productString : Option α,
      h.rx = [0xBE, Command.kGetProductString, 0x01, s, 0xED] ++ rest →
      (getHIDProductString wstrToStr h productString).1 = s ∧
        (getHIDProductString wstrToStr h productString).2.1 = productString) :=
  ⟨fun v hrx => getHIDWord_rejection h _ v s rest (by decide)
      (getHIDWord_sent h _ v (by decide) hroom) hrx,
   fun v hrx => getHIDWord_rejection h _ v s rest (by decide)
      (getHIDWord_sent h _ v (by decide) hroom) hrx,
   fun v hrx => getHIDWord_rejection h _ v s rest (by decide)
      (getHIDWord_sent h _ v (by decide) hroom) hrx,
   fun t hrx => getHIDString_rejection wstrToStr h _ s t rest (by decide)
      (getHIDString_sent wstrToStr h _ t (by decide) hroom) hrx,
   fun t hrx => getHIDString_rejection wstrToStr h _ s t rest (by decide)
      (getHIDString_sent wstrToStr h _ t (by decide) hroom) hrx⟩

theorem C14_query_rejection_witness :
    (getHIDVendorID ⟨[0xBE, 91, 0x01, 2, 0xED] ++ [], [], 4⟩ 0x1234).1 =
        (if (2 : Nat) = 0 then Status.kInvalidResponsePacket.toNat else 2) ∧
      (getHIDVendorID ⟨[0xBE, 91, 0x01, 2, 0xED] ++ [], [], 4⟩ 0x1234).2.1 = 0x1234 :=
  (C14_query_rejection (fun (w : List Nat) => w) ⟨[0xBE, 91, 0x01, 2, 0xED] ++ [], [], 4⟩
    2 [] (by decide)).1 0x1234 rfl

/-- C14 as stated fails: `getHIDVendorID` answered by the well-framed one-byte reply
`[0xBE, 0x5B, 0x01, 0x00, 0xED]`, whose status byte is 0, returns
`kInvalidResponsePacket` (6) and not the `Status` with value 0. -/
theorem C14_query_rejection_counterexample :
    (getHIDVendorID ⟨[0xBE, 0x5B, 0x01, 0x00, 0xED], [], 4⟩ 0x1234).1 =
      Status.kInvalidResponsePacket.toNat ∧
    (getHIDVendorID ⟨[0xBE, 0x5B, 0x01, 0x00, 0xED], [], 4⟩ 0x1234).1 ≠ 0 := by
  decide

/-- C15 (full shape of the ID queries).  For `getHIDVendorID`, `getHIDProductID` and
`getHIDVersionNumber`, on a line that takes the four bytes of the request: a well-framed
reply with the matching command id and the three-byte payload `[0x00, lo, hi]` makes the
operation return `kSuccess` and set its output to `lo + 256 * hi`. -/
theorem C15_query_full_shape (h : Port) (lo hi : Nat) (rest : List Nat)
    (hroom : 4 ≤ h.txRoom) :
    (∀ vendorID : Nat,
      h.rx = [0xBE, Command.kGetVendorID, 0x03, 0x00, lo, hi, 0xED] ++ rest →
      (getHIDVendorID h vendorID).1 = Status.kSuccess.toNat ∧
        (getHIDVendorID h vendorID).2.1 = lo + 256 * hi) ∧
    (∀ productID : Nat,
      h.rx = [0xBE, Command.kGetProductID, 0x03, 0x00, lo, hi, 0xED] ++ rest →
      (getHIDProductID h productID).1 = Status.kSuccess.toNat ∧
        (getHIDProductID h productID).2.1 = lo + 256 * hi) ∧
    (∀ versionNumber : Nat,
      h.rx = [0xBE, Command.kGetVersionNumber, 0x03, 0x00, lo, hi, 0xED] ++ rest →
      (getHIDVersionNumber h versionNumber).1 = Status.kSuccess.toNat ∧
        (getHIDVersionNumber h versionNumber).2.1 = lo + 256 * hi) :=
  ⟨fun v hrx => getHIDWord_full h _ v lo hi rest (by decide)
      (getHIDWord_sent h _ v (by decide) hroom) hrx,
   fun v hrx => getHIDWord_full h _ v lo hi rest (by decide)
      (getHIDWord_sent h _ v (by decide) hroom) hrx,
   fun v hrx => getHIDWord_full h _ v lo hi rest (by decide)
      (getHIDWord_sent h _ v (by decide) hroom) hrx⟩

theorem C15_query_full_shape_witness :
    (getHIDProductID ⟨[0xBE, 92, 0x03, 0x00, 0x34, 0x12, 0xED] ++ [], [], 4⟩ 0).1 =
        Status.kSuccess.toNat ∧
      (getHIDProductID ⟨[0xBE, 92, 0x03, 0x00, 0x34, 0x12, 0xED] ++ [], [], 4⟩ 0).2.1 =
        0x34 + 256 * 0x12 :=
  (C15_query_full_shape ⟨[0xBE, 92, 0x03, 0x00, 0x34, 0x12, 0xED] ++ [], [], 4⟩ 0x34 0x12
    [] (by decide)).2.1 0 rfl

/-- C17 (bare queries).  On a line that takes the bytes of the request (four; five for
`getKeyState`, whose request carries the key) and for every well-framed reply with the
matching command id and payload `p`, each bare query returns `kSuccess` if and only if
`p` has the fixed size of the query (`getDeviceID` 2, `getFirmwareVersion` 2,
`getKeyState` 1, `getPos` 4, `getWheelAxis` 2, `getAxes` 6, `getDeviceSerialNumber` 20),
and then its output is read from the payload bytes themselves, starting at the first
one: the little-endian 16-bit values for the integers, the byte for `getKeyState`, all
20 bytes for `getDeviceSerialNumber`. -/
theorem C17_bare_queries (h : Port) (p rest : List Nat) :
    (∀ deviceID : Nat, 4 ≤ h.txRoom →
      h.rx = [0xBE, Command.kGetDeviceID, p.length] ++ p ++ [0xED] ++ rest →
      ((getDeviceID h deviceID).1 = Status.kSuccess.toNat ↔ p.length = 2) ∧
      (p.length = 2 → (getDeviceID h deviceID).2.1 = uint16Of (p.getD 0 0) (p.getD 1 0))) ∧
    (∀ firmwareVersion : Nat, 4 ≤ h.txRoom →
      h.rx = [0xBE, Command.kGetFirmwareVersion, p.length] ++ p ++ [0xED] ++ rest →
      ((getFirmwareVersion h firmwareVersion).1 = Status.kSuccess.toNat ↔ p.length = 2) ∧
      (p.length = 2 →
        (getFirmwareVersion h firmwareVersion).2.1 = uint16Of (p.getD 0 0) (p.getD 1 0))) ∧
    (∀ key isDown : Nat, 5 ≤ h.txRoom →
      h.rx = [0xBE, Command.kGetKeyState, p.length] ++ p ++ [0xED] ++ rest →
      ((getKeyState h key isDown).1 = Status.kSuccess.toNat ↔ p.length = 1) ∧
      (p.length = 1 → (getKeyState h key isDown).2.1 = p.getD 0 0)) ∧
    (∀ x y : Int, 4 ≤ h.txRoom →
      h.rx = [0xBE, Command.kGetPos, p.length] ++ p ++ [0xED] ++ rest →
      ((getPos h x y).1 = Status.kSuccess.toNat ↔ p.length = 4) ∧
      (p.length = 4 →
        (getPos h x y).2.1 = int16Of (p.getD 0 0) (p.getD 1 0) ∧
        (getPos h x y).2.2.1 = int16Of (p.getD 2 0) (p.getD 3 0))) ∧
    (∀ w : Int, 4 ≤ h.txRoom →
      h.rx = [0xBE, Command.kGetWheelAxis, p.length] ++ p ++ [0xED] ++ rest →
      ((getWheelAxis h w).1 = Status.kSuccess.toNat ↔ p.length = 2) ∧
      (p.length = 2 → (getWheelAxis h w).2.1 = int16Of (p.getD 0 0) (p.getD 1 0))) ∧
    (∀ x y w : Int, 4 ≤ h.txRoom →
      h.rx = [0xBE, Command.kGetAxes, p.length] ++ p ++ [0xED] ++ rest →
      ((getAxes h x y w).1 = Status.kSuccess.toNat ↔ p.length = 6) ∧
      (p.length = 6 →
        (getAxes h x y w).2.1 = int16Of (p.getD 0 0) (p.getD 1 0) ∧
        (getAxes h x y w).2.2.1 = int16Of (p.getD 2 0) (p.getD 3 0) ∧
        (getAxes h x y w).2.2.2.1 = int16Of (p.getD 4 0) (p.getD 5 0))) ∧
    (∀ deviceSerialNumber : List Nat, 4 ≤ h.txRoom →
      h.rx = [0xBE, Command.kGetDeviceSerialNumber, p.length] ++ p ++ [0xED] ++ rest →
      ((getDeviceSerialNumber h deviceSerialNumber).1 = Status.kSuccess.toNat ↔
        p.length = 20) ∧
      (p.length = 20 → (getDeviceSerialNumber h deviceSerialNumber).2.1 = p)) :=
  ⟨fun v hroom hrx => getDeviceID_reply h v p rest
      (QueryCall.query_run_requestSent (fun (_ : List Nat) => ()) h (.getDeviceID v) hroom) hrx,
   fun v hroom hrx => getFirmwareVersion_reply h v p rest
      (QueryCall.query_run_requestSent (fun (_ : List Nat) => ()) h (.getFirmwareVersion v)
        hroom) hrx,
   fun k d hroom hrx => getKeyState_reply h k d p rest
      (QueryCall.query_run_requestSent (fun (_ : List Nat) => ()) h (.getKeyState k d)
        hroom) hrx,
   fun x y hroom hrx => getPos_reply h x y p rest
      (QueryCall.query_run_requestSent (fun (_ : List Nat) => ()) h (.getPos x y) hroom) hrx,
   fun w hroom hrx => getWheelAxis_reply h w p rest
      (QueryCall.query_run_requestSent (fun (_ : List Nat) => ()) h (.getWheelAxis w) hroom) hrx,
   fun x y w hroom hrx => getAxes_reply h x y w p rest
      (QueryCall.query_run_requestSent (fun (_ : List Nat) => ()) h (.getAxes x y w) hroom) hrx,
   fun v hroom hrx => getDeviceSerialNumber_reply h v p rest
      (QueryCall.query_run_requestSent (fun (_ : List Nat) => ()) h (.getDeviceSerialNumber v)
        hroom) hrx⟩

theorem C17_bare_queries_witness :
    ((getDeviceSerialNumber
        ⟨[0xBE, 132, (List.range 20).length] ++ List.range 20 ++ [0xED] ++ [], [], 4⟩ []).1 =
      Status.kSuccess.toNat ↔ (List.range 20).length = 20) ∧
    ((List.range 20).length = 20 →
      (getDeviceSerialNumber
        ⟨[0xBE, 132, (List.range 20).length] ++ List.range 20 ++ [0xED] ++ [], [], 4⟩ []).2.1 =
      List.range 20) :=
  (C17_bare_queries
    ⟨[0xBE, 132, (List.range 20).length] ++ List.range 20 ++ [0xED] ++ [], [], 4⟩
    (List.range 20) []).2.2.2.2.2.2 [] (by decide) rfl

/-- C31 (keyboard state translation).  On a line that takes the four bytes of the
request of `getKeyboardState` and delivers a frame of command 16 with an eight-byte
payload `b`, the call returns `kSuccess`, the modifier byte is `b[0]`, and the seven
regular keys are `HIDKeyCodeToVirtualKeyCode(b[1+i])`.  None of them is the generic
`kShift`, `kControl` or `kAlt`, and a byte that is no `HIDKeyCode` enumerator is
reported as `kInvalid`. -/
theorem C31_keyboard_state_translation (h : Port) (keyboardState : KeyboardState)
    (b rest : List Nat) (hroom : 4 ≤ h.txRoom)
    (hrx : h.rx = [0xBE, 16, 8] ++ b ++ [0xED] ++ rest) (hb : b.length = 8) :
    (getKeyboardState h keyboardState).1 = Status.kSuccess.toNat ∧
    (getKeyboardState h keyboardState).2.1.modifierKeys = b.getD 0 0 ∧
    (getKeyboardState h keyboardState).2.1.regularKeys.length = 7 ∧
    ∀ i, i < 7 →
      (getKeyboardState h keyboardState).2.1.regularKeys.getD i 0 =
        HIDKeyCodeToVirtualKeyCode (b.getD (1 + i) 0) ∧
      (getKeyboardState h keyboardState).2.1.regularKeys.getD i 0 ≠ VirtualKeyCode.kShift ∧
      (getKeyboardState h keyboardState).2.1.regularKeys.getD i 0 ≠ VirtualKeyCode.kControl ∧
      (getKeyboardState h keyboardState).2.1.regularKeys.getD i 0 ≠ VirtualKeyCode.kAlt ∧
      (b.getD (1 + i) 0 ∉ HIDKeyCode.enumerators →
        (getKeyboardState h keyboardState).2.1.regularKeys.getD i 0 =
          VirtualKeyCode.kInvalid) := by
  have hsent : requestSent h (getKeyboardState h keyboardState).2.2
      Command.kGetKeyboardState :=
    QueryCall.query_run_requestSent (fun (_ : List Nat) => ()) h
      (.getKeyboardState keyboardState) hroom
  have hrx2 : h.rx = [0xBE, Command.kGetKeyboardState, b.length] ++ b ++ [0xED] ++ rest := by
    rw [hrx, hb]; rfl
  have hr := getKeyboardState_reply h keyboardState b rest hsent hrx2
  have hval := hr.2 hb
  refine ⟨hr.1.2 hb, ?_, ?_, ?_⟩
  · rw [hval]
  · rw [hval]; simp
  · intro i hi
    have hget : (getKeyboardState h keyboardState).2.1.regularKeys.getD i 0 =
        HIDKeyCodeToVirtualKeyCode (b.getD (1 + i) 0) := by
      rw [hval]
      simp [List.getD_eq_getElem?_getD, hi]
    rw [hget]
    have hsided := HIDKeyCodeToVirtualKeyCode_sided (b.getD (1 + i) 0)
    exact ⟨rfl, hsided.1, hsided.2.1, hsided.2.2,
      HIDKeyCodeToVirtualKeyCode_unknown _⟩

theorem C31_keyboard_state_translation_witness :
    (getKeyboardState ⟨[0xBE, 16, 8, 0x02, 0x04, 0xE1, 0x03, 0, 0, 0, 0, 0xED], [], 4⟩
        ⟨0, []⟩).1 = 0 ∧
    (getKeyboardState ⟨[0xBE, 16, 8, 0x02, 0x04, 0xE1, 0x03, 0, 0, 0, 0, 0xED], [], 4⟩
        ⟨0, []⟩).2.1.regularKeys.getD 1 0 = VirtualKeyCode.kShiftLeft ∧
    (getKeyboardState ⟨[0xBE, 16, 8, 0x02, 0x04, 0xE1, 0x03, 0, 0, 0, 0, 0xED], [], 4⟩
        ⟨0, []⟩).2.1.regularKeys.getD 2 0 = VirtualKeyCode.kInvalid := by
  have hgo := C31_keyboard_state_translation
    ⟨[0xBE, 16, 8, 0x02, 0x04, 0xE1, 0x03, 0, 0, 0, 0, 0xED], [], 4⟩ ⟨0, []⟩
    [0x02, 0x04, 0xE1, 0x03, 0, 0, 0, 0] [] (by decide) rfl rfl
  refine ⟨hgo.1, ?_, ?_⟩
  · rw [(hgo.2.2.2 1 (by decide)).1]; decide
  · exact (hgo.2.2.2 2 (by decide)).2.2.2.2 (by decide)

/-- C33 (signed 16-bit coordinates).  For `x` and `y` in -32768..32767, with
`X = x mod 65536` and `Y = y mod 65536`, `moveRel(x, y)` on a line that takes eight bytes
makes one write, of `[0xBE, 0x33, 0x04, X mod 256, X div 256, Y mod 256, Y div 256,
0xED]`; and `getPos`, on a line that takes the four bytes of its request and delivers a
reply of command `kGetPos` carrying those four payload bytes, returns `kSuccess` with
`(x, y)`. -/
theorem C33_signed_coordinates (h g : Port) (x y x0 y0 : Int) (rest : List Nat)
    (hx : -32768 ≤ x ∧ x ≤ 32767) (hy : -32768 ≤ y ∧ y ≤ 32767) (hroom : 8 ≤ h.txRoom)
    (hgroom : 4 ≤ g.txRoom)
    (hrx : g.rx = [0xBE, Command.kGetPos, 0x04, (x % 65536).toNat % 256,
      (x % 65536).toNat / 256, (y % 65536).toNat % 256, (y % 65536).toNat / 256, 0xED] ++
      rest) :
    (moveRel h x y).2.tx = h.tx ++ [[0xBE, 0x33, 0x04, (x % 65536).toNat % 256,
      (x % 65536).toNat / 256, (y % 65536).toNat % 256, (y % 65536).toNat / 256, 0xED]] ∧
    (getPos g x0 y0).1 = Status.kSuccess.toNat ∧
    (getPos g x0 y0).2.1 = x ∧ (getPos g x0 y0).2.2.1 = y := by
  constructor
  · unfold moveRel
    have htx := actionExchange_tx h Command.kMoveRel (int16Bytes x ++ int16Bytes y)
      (by decide) (by simp [int16Bytes_eq])
    have hlen : (int16Bytes x ++ int16Bytes y).length = 4 := by simp [int16Bytes_eq]
    rw [hlen] at htx
    rw [htx, int16Bytes_eq, int16Bytes_eq]
    have htake : ∀ l : List Nat, l.length = 8 → l.take h.txRoom = l := fun l hl =>
      List.take_of_length_le (by omega)
    rw [htake _ (by simp [frame])]
    simp [frame, Command.kMoveRel]
  · have hsent : requestSent g (getPos g x0 y0).2.2.2 Command.kGetPos :=
      QueryCall.query_run_requestSent (fun (_ : List Nat) => ()) g (.getPos x0 y0) hgroom
    have hr := getPos_reply g x0 y0 [(x % 65536).toNat % 256, (x % 65536).toNat / 256,
      (y % 65536).toNat % 256, (y % 65536).toNat / 256] rest hsent (by rw [hrx]; rfl)
    have hval := hr.2 rfl
    refine ⟨hr.1.2 rfl, ?_, ?_⟩
    · rw [hval.1]
      exact int16Of_bytes x hx.1 hx.2
    · rw [hval.2]
      exact int16Of_bytes y hy.1 hy.2

theorem C33_signed_coordinates_witness :
    (moveRel ⟨[], [], 8⟩ (-2) 300).2.tx = [[0xBE, 0x33, 0x04, 0xFE, 0xFF, 0x2C, 0x01, 0xED]] ∧
    (getPos ⟨[0xBE, 74, 0x04, 0xFE, 0xFF, 0x2C, 0x01, 0xED], [], 4⟩ 0 0).1 = 0 ∧
    (getPos ⟨[0xBE, 74, 0x04, 0xFE, 0xFF, 0x2C, 0x01, 0xED], [], 4⟩ 0 0).2.1 = -2 ∧
    (getPos ⟨[0xBE, 74, 0x04, 0xFE, 0xFF, 0x2C, 0x01, 0xED], [], 4⟩ 0 0).2.2.1 = 300 :=
  C33_signed_coordinates ⟨[], [], 8⟩
    ⟨[0xBE, 74, 0x04, 0xFE, 0xFF, 0x2C, 0x01, 0xED], [], 4⟩
    (-2) 300 0 0 [] (by decide) (by decide) (by decide) (by decide) rfl

/-- C36 (`getRelMouseState` reports buttons only).  On a line that takes the four bytes
of the request and delivers a frame of command 53 with payload `p`, the call returns
`kSuccess` if and only if `p` has exactly one byte; then the buttons byte is that byte
and the three axes are 0, whatever the caller's structure held before. -/
theorem C36_rel_mouse_state_buttons_only (h : Port) (mouseState : MouseState)
    (p rest : List Nat) (hroom : 4 ≤ h.txRoom)
    (hrx : h.rx = [0xBE, 53, p.length] ++ p ++ [0xED] ++ rest) :
    ((getRelMouseState h mouseState).1 = Status.kSuccess.toNat ↔ p.length = 1) ∧
      (p.length = 1 →
        (getRelMouseState h mouseState).2.1 =
          { buttons := p.getD 0 0, x := 0, y := 0, w := 0 }) := by
  have hs := sendPacket_room h Command.kGetRelMouseState [] (by decide) (by simp)
    (by simpa using hroom)
  simp only [List.length_nil, Nat.zero_add] at hs
  have hframe : h.rx = frame Command.kGetRelMouseState p ++ rest := by
    simp [hrx, frame, Command.kGetRelMouseState]
  simp only [getRelMouseState, hs, hframe]
  refine ⟨?_, fun hp => ?_⟩
  · have hst := recvPacket_exact_status Command.kGetRelMouseState 1 p rest
      [mouseState.buttons] (h.tx ++ [frame Command.kGetRelMouseState []]) (h.txRoom - 4)
    by_cases hp : p.length = 1
    · simp [hst.mpr hp, hp]
    · have hbad : ¬ _ := fun hok => hp (hst.mp hok)
      simp [hbad, hp, Status.toNat_eq_zero]
  · rw [recvPacket_exact_buffer _ 1 p rest _ _ _ (by simp) hp]
    simp

theorem C36_rel_mouse_state_buttons_only_witness :
    (getRelMouseState ⟨[0xBE, 53, 1, 0x05, 0xED], [], 4⟩ ⟨0, 7, -3, 9⟩).1 =
        Status.kSuccess.toNat ∧
      (getRelMouseState ⟨[0xBE, 53, 1, 0x05, 0xED], [], 4⟩ ⟨0, 7, -3, 9⟩).2.1 =
        { buttons := 0x05, x := 0, y := 0, w := 0 } :=
  ⟨(C36_rel_mouse_state_buttons_only ⟨[0xBE, 53, 1, 0x05, 0xED], [], 4⟩ ⟨0, 7, -3, 9⟩
      [0x05] [] (by decide) rfl).1.2 rfl,
    (C36_rel_mouse_state_buttons_only ⟨[0xBE, 53, 1, 0x05, 0xED], [], 4⟩ ⟨0, 7, -3, 9⟩
      [0x05] [] (by decide) rfl).2 rfl⟩

theorem actionExchange_silent (h : Port) (c : Nat) (data : List Nat) (hc : c < 256)
    (hdata : data.length ≤ 255) (hroom : data.length + 4 ≤ h.txRoom) (hrx : h.rx = []) :
    (actionExchange h c data data.length).1 = Status.kSerialError.toNat := by
  have hs := sendPacket_room h c data hc hdata hroom
  have hrecv := recvPacket_garbage_only [] [0] (h.tx ++ [frame c data])
    (h.txRoom - (data.length + 4)) c 1 none (by simp) (by simp)
  simp [actionExchange, hs, hrx, hrecv]

theorem ActionCall.refused_cases {α : Type} (strToWstr : α → List Nat) (a : ActionCall α)
    (hno : a.refused strToWstr = true) :
    (∃ v, a = ActionCall.configHIDManufacturerString v) ∨
      (∃ v, a = ActionCall.configHIDProductString v) := by
  cases a <;> simp [ActionCall.refused] at hno ⊢

/-- C24, as the code has it (the claim as stated fails on the code: the device may
report the very values the host uses).  For every action operation, called with any
arguments on any line: either the host refuses the call, which only
`configHIDManufacturerString` and `configHIDProductString` do, and it returns
`kInvalidSize` with the line untouched; or the value returned is `kSerialError` or
`kInvalidResponsePacket`, or else it is the status byte `s` of a well-formed one-byte
reply `[0xBE, r, 0x01, s, 0xED]` with an accepted command id, read after a successful
request write and after fewer than 64 bytes other than `0xBE`.  And the two layers do
meet: a call the host does not refuse, on a line that takes its request, returns
`kSerialError` when no reply arrives, `kInvalidResponsePacket` when the reply is empty,
and the status byte `s` of the reply `[0xBE, c, 0x01, s, 0xED]` for every `s`, the
values 1, 4 and 6 of `kSerialError`, `kInvalidSize` and `kInvalidResponsePacket`
included. -/
theorem C24_status_layers {α : Type} (strToWstr : α → List Nat) (a : ActionCall α)
    (h : Port) :
    ((a.refused strToWstr = true ∧
        a.run strToWstr h = (Status.kInvalidSize.toNat, h) ∧
        ((∃ v, a = ActionCall.configHIDManufacturerString v) ∨
          (∃ v, a = ActionCall.configHIDProductString v))) ∨
      (a.refused strToWstr = false ∧
        ((a.run strToWstr h).1 = Status.kSerialError.toNat ∨
          (a.run strToWstr h).1 = Status.kInvalidResponsePacket.toNat ∨
          ∃ g r s rest, (∀ b ∈ g, b ≠ 0xBE) ∧ g.length < 64 ∧ (r = a.command ∨ r = kAny) ∧
            h.rx = g ++ [0xBE, r, 0x01, s, 0xED] ++ rest ∧
            requestSent h (a.run strToWstr h).2 a.command ∧
            (a.run strToWstr h).1 = s))) ∧
    (a.refused strToWstr = false →
      ∀ line : Port, (a.payload strToWstr).length + 4 ≤ line.txRoom →
        (line.rx = [] → (a.run strToWstr line).1 = Status.kSerialError.toNat) ∧
        (line.rx = [0xBE, a.command, 0x00, 0xED] →
          (a.run strToWstr line).1 = Status.kInvalidResponsePacket.toNat) ∧
        (∀ s : Nat, line.rx = [0xBE, a.command, 0x01, s, 0xED] →
          (a.run strToWstr line).1 = s)) := by
  constructor
  · cases hrefused : a.refused strToWstr
    · right
      refine ⟨rfl, ?_⟩
      rw [ActionCall.run_eq]
      simp only [hrefused, Bool.false_eq_true, if_false]
      exact actionExchange_layers h a.command (a.payload strToWstr) a.command_lt
        (a.payload_length_le strToWstr hrefused)
    · left
      refine ⟨rfl, ?_, ActionCall.refused_cases strToWstr a hrefused⟩
      rw [ActionCall.run_eq]
      simp [hrefused]
  · intro hok line hroom
    have hc := a.command_lt
    have hdata := a.payload_length_le strToWstr hok
    have hsent := actionExchange_sent line a.command (a.payload strToWstr) hc hdata hroom
    rw [ActionCall.run_eq]
    simp only [hok, Bool.false_eq_true, if_false]
    refine ⟨fun hrx => actionExchange_silent line a.command _ hc hdata hroom hrx, ?_, ?_⟩
    · intro hrx
      have := actionExchange_reply line a.command (a.payload strToWstr) [] [] hc hdata hsent
        (by simp [hrx, frame])
      simpa using this
    · intro s hrx
      have := actionExchange_reply line a.command (a.payload strToWstr) [s] [] hc hdata hsent
        (by simp [hrx, frame])
      simpa using this

theorem C24_status_layers_witness :
    (RX784.keyUp ⟨[0xBE, 0x0C, 0x00, 0xED], [], 16⟩ VirtualKeyCode.kKeyA).1 =
      Status.kInvalidResponsePacket.toNat ∧
    (RX784.keyUp ⟨[0xBE, 0x0C, 0x01, 0x06, 0xED], [], 16⟩ VirtualKeyCode.kKeyA).1 =
      Status.kInvalidResponsePacket.toNat :=
  ⟨((C24_status_layers (fun (w : List Nat) => w) (ActionCall.keyUp VirtualKeyCode.kKeyA)
      ⟨[], [], 0⟩).2 rfl ⟨[0xBE, 0x0C, 0x00, 0xED], [], 16⟩ (by decide)).2.1 rfl,
   ((C24_status_layers (fun (w : List Nat) => w) (ActionCall.keyUp VirtualKeyCode.kKeyA)
      ⟨[], [], 0⟩).2 rfl ⟨[0xBE, 0x0C, 0x01, 0x06, 0xED], [], 16⟩ (by decide)).2.2 6 rfl⟩

/-- C24 as stated fails: `keyDown` returns the same value `kSerialError` (1) in a run
that ends in a transport failure (the line delivers no reply) and in a run in which the
well-formed reply `[0xBE, 0x0B, 0x01, 0x01, 0xED]` carries the status byte 1. -/
theorem C24_status_layers_counterexample :
    (RX784.keyDown ⟨[], [], 16⟩ VirtualKeyCode.kKeyA).1 = Status.kSerialError.toNat ∧
    (RX784.keyDown ⟨[0xBE, 0x0B, 0x01, 0x01, 0xED], [], 16⟩ VirtualKeyCode.kKeyA).1 =
      Status.kSerialError.toNat ∧
    Status.kSerialError.toNat ≠ Status.kSuccess.toNat := by
  decide

/-- C29 (request and reply are correlated in every operation).  For every public
command operation, called with any arguments that the host does not refuse, on a line
that takes the bytes of its request: the frame written carries the command id `c` of the
operation; the line is left as the reply decoder leaves it when it is given that same
`c` as the expected command; so a reply that, after fewer than 64 bytes other than
`0xBE`, carries a command id other than `c` and other than 0 makes the operation return
`kInvalidResponsePacket`, whatever follows the id, while a frame of command `c` whose
payload fits the buffer of the operation is taken from the line whole. -/
theorem C29_correlation {α : Type} (strToWstr : α → List Nat) (wstrToStr : List Nat → α)
    (call : Call α) (h : Port) (hok : call.refused strToWstr = false)
    (hroom : (call.payload strToWstr).length + 4 ≤ h.txRoom) :
    written h (call.run strToWstr wstrToStr h).2.2 =
      frame call.command (call.payload strToWstr) ∧
    (call.run strToWstr wstrToStr h).2.2 =
      (recvPacket ⟨h.rx, h.tx ++ [frame call.command (call.payload strToWstr)],
          h.txRoom - ((call.payload strToWstr).length + 4)⟩
        call.command call.recvArgs.1 call.recvArgs.2.1 call.recvArgs.2.2).port ∧
    (∀ (g : List Nat) (r : Nat) (rest : List Nat), (∀ b ∈ g, b ≠ 0xBE) → g.length < 64 →
      h.rx = g ++ 0xBE :: r :: rest → r ≠ call.command → r ≠ 0 →
      (call.run strToWstr wstrToStr h).1 = Status.kInvalidResponsePacket.toNat ∧
      (call.run strToWstr wstrToStr h).2.2.rx = rest) ∧
    (∀ (g p rest : List Nat), (∀ b ∈ g, b ≠ 0xBE) → g.length < 64 →
      h.rx = g ++ frame call.command p ++ rest → p.length ≤ call.recvArgs.2.1 →
      (call.run strToWstr wstrToStr h).2.2.rx = rest) := by
  have hs := sendPacket_room h call.command (call.payload strToWstr) call.call_command_lt
    (call.call_payload_length_le strToWstr hok) hroom
  have hs1 : (sendPacket h call.command (call.payload strToWstr)
      (call.payload strToWstr).length).1 = Status.kSuccess := by rw [hs]
  have hport := Call.call_run_port strToWstr wstrToStr h call hok hs1
  rw [hs] at hport
  have htx := Call.run_written strToWstr wstrToStr h call hok
  have hfull : (frame call.command (call.payload strToWstr)).take h.txRoom =
      frame call.command (call.payload strToWstr) :=
    List.take_of_length_le (by rw [frame_length]; exact hroom)
  refine ⟨by simp [written, htx, hfull], hport, ?_, ?_⟩
  · intro g r rest hg hk hrx hr h0
    have hrecv : recvPacket (sendPacket h call.command (call.payload strToWstr)
        (call.payload strToWstr).length).2 call.command call.recvArgs.1 call.recvArgs.2.1
        call.recvArgs.2.2 = ⟨Status.kInvalidResponsePacket, call.recvArgs.1,
          call.recvArgs.2.2, ⟨rest, h.tx ++ [frame call.command (call.payload strToWstr)],
            h.txRoom - ((call.payload strToWstr).length + 4)⟩⟩ := by
      rw [hs]
      simp only [hrx]
      exact recvPacket_wrong_command g rest _ _ _ call.command r _ _ hg hk hr h0
    constructor
    · rw [Call.call_run_status strToWstr wstrToStr h call hok hs1 (by rw [hrecv]; simp),
        hrecv]
    · rw [hs] at hrecv
      rw [hport, hrecv]
  · intro g p rest hg hk hrx hp
    have hres := recvPacket_framed g p rest call.recvArgs.1
      (h.tx ++ [frame call.command (call.payload strToWstr)])
      (h.txRoom - ((call.payload strToWstr).length + 4)) call.command call.command 0xED
      call.recvArgs.2.1 call.recvArgs.2.2 hg hk (Or.inl rfl) hp
    have hshape : g ++ frame call.command p ++ rest =
        g ++ 0xBE :: call.command :: p.length :: (p ++ 0xED :: rest) := by
      simp [frame]
    rw [hport, hrx, hshape, hres, afterPayload_port]

theorem C29_correlation_witness :
    written ⟨[3, 0xBE, 12, 1, 0, 0xED], [], 9⟩
      (Call.run (fun (w : List Nat) => w) (fun (w : List Nat) => w)
        ⟨[3, 0xBE, 12, 1, 0, 0xED], [], 9⟩ (Call.action (ActionCall.keyDown 0x41))).2.2 =
      [0xBE, 11, 1, 0x04, 0xED] ∧
    (Call.run (fun (w : List Nat) => w) (fun (w : List Nat) => w)
      ⟨[3, 0xBE, 12, 1, 0, 0xED], [], 9⟩ (Call.action (ActionCall.keyDown 0x41))).1 =
      Status.kInvalidResponsePacket.toNat :=
  ⟨(C29_correlation (fun (w : List Nat) => w) (fun (w : List Nat) => w)
      (Call.action (ActionCall.keyDown 0x41)) ⟨[3, 0xBE, 12, 1, 0, 0xED], [], 9⟩ rfl
      (by decide)).1,
   ((C29_correlation (fun (w : List Nat) => w) (fun (w : List Nat) => w)
      (Call.action (ActionCall.keyDown 0x41)) ⟨[3, 0xBE, 12, 1, 0, 0xED], [], 9⟩ rfl
      (by decide)).2.2.1 [3] 12 [1, 0, 0xED] (by decide) (by decide) rfl (by decide)
      (by decide)).1⟩

end RX784
